import Mathlib

/-!
# Spartan RHI core: command-pool recycling and descriptor-set resolution

A shallow embedding of `runtime/RHI/RHI_CommandPool.cpp`,
`runtime/RHI/RHI_DescriptorSetLayout.cpp`, `runtime/RHI/RHI_DescriptorSet.cpp`,
of `QueueSubmit`, `QueuePresent`, `SetDescriptorSetCapacity`, physical device
selection and the allocation table of `runtime/RHI/Vulkan/Vulkan_Device.cpp`,
of `runtime/RHI/Vulkan/Vulkan_StructuredBuffer.cpp`, of `IsValid` of
`runtime/RHI/RHI_PipelineState.cpp`, of the parts of
`runtime/RHI/RHI_Definition.h` they use, and of the component section of
`runtime/World/Entity.cpp` and `Remove` of `runtime/Resource/ResourceCache.h`.

Conventions.
* `uint32_t` / `uint64_t` values are natural numbers; arithmetic that can wrap is
  reduced modulo `2^32` / `2^64` explicitly.
* Undefined behaviour of the C++ (remainder by zero, indexing a vector out of
  bounds) makes a function return `none`.
* A failed `SP_ASSERT` is fatal: the function returns `Except.error`.
* Calls into the backend that the sources above only invoke (`Wait`, `Reset`)
  are recorded as events, in call order.
-/

namespace Spartan

deriving instance DecidableEq for Except

/-! ## Machine integers -/

/-- Number of values of a `uint32_t`. -/
def UINT32_SIZE : Nat := 2 ^ 32

/-- Number of values of a `uint64_t`. -/
def UINT64_SIZE : Nat := 2 ^ 64

/-! ## Enumerations of `RHI_Definition.h` -/

/-- Enumeration `RHI_Queue_Type` (RHI_Definition.h, line 101). -/
inductive RHI_Queue_Type where
  | Graphics
  | Compute
  | Copy
  | Undefined
  deriving DecidableEq, Repr

/-- Enumeration `RHI_CommandListState` (RHI_Definition.h, line 306). -/
inductive RHI_CommandListState where
  | Idle
  | Recording
  | Ended
  | Submitted
  deriving DecidableEq, Repr

/-! ## Command lists and command pools -/

/-- The data of an `RHI_CommandList` that `RHI_CommandPool.cpp` sets or reads:
the constructor arguments `queue_type`, `index`, the backing pool the list is
built on and `name`, and the state returned by `GetState()`.
The backing pool `m_rhi_resources[p]` is identified by its position `p` in
`m_rhi_resources`. -/
structure RHI_CommandList where
  queue_type : RHI_Queue_Type
  index : Nat
  cmd_pool : Nat
  name : String
  state : RHI_CommandListState
  deriving DecidableEq, Repr

/-- Modelled from the spec: `RHI_CommandList::Wait` is not part of the sources at
hand. Per the data model, "a Submitted list must be waited on before returning
to Idle": waiting leaves the list in state `Idle`. -/
def RHI_CommandList.Wait (cl : RHI_CommandList) : RHI_CommandList :=
  { cl with state := RHI_CommandListState.Idle }

/-- Backend calls made by `RHI_CommandPool::Step`, in call order:
`Wait i` is `m_cmd_lists[i]->Wait()`, `Reset p` is `Reset(p)`. -/
inductive CommandPoolEvent where
  | Wait (i : Nat)
  | Reset (pool_index : Nat)
  deriving DecidableEq, Repr

/-- The members of `RHI_CommandPool` used by `RHI_CommandPool.cpp`.
`m_rhi_resources` holds one entry per backing command pool created so far (the
queue type it was created for). -/
structure RHI_CommandPool where
  m_name : String
  m_cmd_lists : List RHI_CommandList
  m_rhi_resources : List RHI_Queue_Type
  m_cmd_list_count : Nat
  m_cmd_pool_count : Nat
  m_cmd_list_index : Nat
  m_cmd_pool_index : Nat
  m_first_step : Bool
  deriving DecidableEq, Repr

/-- Modelled from the spec: the constructor lives in `RHI_CommandPool.h`, which is
not part of the sources at hand. A freshly constructed pool owns no list and no
backing pool, both indices are 0 and the first-step flag is set. The two counts
are overwritten by `AllocateCommandLists`. -/
def RHI_CommandPool.construct (name : String) : RHI_CommandPool :=
  { m_name := name
    m_cmd_lists := []
    m_rhi_resources := []
    m_cmd_list_count := 0
    m_cmd_pool_count := 0
    m_cmd_list_index := 0
    m_cmd_pool_index := 0
    m_first_step := true }

/-- Modelled from the spec: `RHI_CommandPool::CreateCommandPool` is defined in the
backend, which is not part of the sources at hand. It creates one backing
command pool for the queue type and appends it to `m_rhi_resources`. -/
def RHI_CommandPool.CreateCommandPool (s : RHI_CommandPool) (queue_type : RHI_Queue_Type) :
    RHI_CommandPool :=
  { s with m_rhi_resources := s.m_rhi_resources ++ [queue_type] }

/-- Name given to a command list (RHI_CommandPool.cpp, line 43). -/
def cmd_list_name (m_name : String) (index_cmd_pool index_cmd_list : Nat) : String :=
  m_name ++ "_cmd_pool_" ++ toString index_cmd_pool ++ "_cmd_list_" ++ toString index_cmd_list

/-- Body of the inner loop of `AllocateCommandLists` (lines 42-44) for one pair
`(index_cmd_pool, index_cmd_list)`: create a backing pool, then build a list on
`m_rhi_resources[index_cmd_pool]`. Indexing past the end is undefined. -/
def RHI_CommandPool.allocateOne (queue_type : RHI_Queue_Type) (index_cmd_pool : Nat)
    (s : RHI_CommandPool) (index_cmd_list : Nat) : Option RHI_CommandPool :=
  let s1 := s.CreateCommandPool queue_type
  if index_cmd_pool < s1.m_rhi_resources.length then
    some { s1 with
      m_cmd_lists := s1.m_cmd_lists ++
        [{ queue_type := queue_type
           index := index_cmd_list
           cmd_pool := index_cmd_pool
           name := cmd_list_name s1.m_name index_cmd_pool index_cmd_list
           state := RHI_CommandListState.Idle }] }
  else none

/-- The inner loop of `AllocateCommandLists` (lines 40-45):
`index_cmd_list` runs from `from_index` for `count` iterations. -/
def RHI_CommandPool.allocateLists (queue_type : RHI_Queue_Type) (index_cmd_pool : Nat) :
    Nat → Nat → RHI_CommandPool → Option RHI_CommandPool
  | _, 0, s => some s
  | from_index, count + 1, s =>
    match s.allocateOne queue_type index_cmd_pool from_index with
    | none => none
    | some s1 => RHI_CommandPool.allocateLists queue_type index_cmd_pool (from_index + 1) count s1

/-- The outer loop of `AllocateCommandLists` (lines 38-46):
`index_cmd_pool` runs from `from_index` for `count` iterations. -/
def RHI_CommandPool.allocatePools (queue_type : RHI_Queue_Type) (cmd_list_count : Nat) :
    Nat → Nat → RHI_CommandPool → Option RHI_CommandPool
  | _, 0, s => some s
  | from_index, count + 1, s =>
    match RHI_CommandPool.allocateLists queue_type from_index 0 cmd_list_count s with
    | none => none
    | some s1 =>
      RHI_CommandPool.allocatePools queue_type cmd_list_count (from_index + 1) count s1

/-- `RHI_CommandPool::AllocateCommandLists` (RHI_CommandPool.cpp, lines 33-47). -/
def RHI_CommandPool.AllocateCommandLists (s : RHI_CommandPool) (queue_type : RHI_Queue_Type)
    (cmd_list_count cmd_pool_count : Nat) : Option RHI_CommandPool :=
  RHI_CommandPool.allocatePools queue_type cmd_list_count 0 cmd_pool_count
    { s with m_cmd_list_count := cmd_list_count, m_cmd_pool_count := cmd_pool_count }

/-- The wait loop of `Step` (lines 66-72): for `i` from `i` for `count`
iterations, wait on `m_cmd_lists[i]` when it is in the Submitted state.
Returns the lists and the `Wait` calls made, in order. -/
def waitSubmitted : Nat → Nat → List RHI_CommandList →
    Option (List RHI_CommandList × List CommandPoolEvent)
  | _, 0, lists => some (lists, [])
  | i, count + 1, lists =>
    match lists[i]? with
    | none => none
    | some cl =>
      if cl.state = RHI_CommandListState.Submitted then
        match waitSubmitted (i + 1) count (lists.set i cl.Wait) with
        | none => none
        | some (lists1, events) => some (lists1, CommandPoolEvent.Wait i :: events)
      else waitSubmitted (i + 1) count lists

/-- `RHI_CommandPool::Step` (RHI_CommandPool.cpp, lines 49-79). Returns the
boolean result, the pool afterwards and the `Wait` / `Reset` calls made.

Line 61 reads `(m_cmd_list_index = 0) ? ... : m_cmd_pool_index`: the condition
is an assignment, so it stores 0 in `m_cmd_list_index` and evaluates to 0
(false); the pool index is therefore assigned its own value. -/
def RHI_CommandPool.Step (s : RHI_CommandPool) :
    Option (Bool × RHI_CommandPool × List CommandPoolEvent) :=
  if s.m_first_step then
    some (false, { s with m_first_step := false }, [])
  else if s.m_cmd_list_count = 0 then
    none
  else
    -- line 58
    let s1 := { s with
      m_cmd_list_index := (s.m_cmd_list_index + 1) % UINT32_SIZE % s.m_cmd_list_count }
    -- line 61: the assignment in the condition
    let s2 := { s1 with m_cmd_list_index := 0 }
    let s3 := { s2 with
      m_cmd_pool_index :=
        if s2.m_cmd_list_index ≠ 0 then (s2.m_cmd_pool_index + 1) % UINT32_SIZE % s2.m_cmd_pool_count
        else s2.m_cmd_pool_index }
    -- lines 64-76
    if s3.m_cmd_list_index = 0 ∧ s3.m_cmd_pool_index = 0 then
      match waitSubmitted 0 s3.m_cmd_list_count s3.m_cmd_lists with
      | none => none
      | some (lists, events) =>
        some (true, { s3 with m_cmd_lists := lists },
          events ++ [CommandPoolEvent.Reset s3.m_cmd_pool_index])
    else
      some (false, s3, [])

/-- Results of `n` consecutive calls to `Step`, first call first, with the pool
after the last call. -/
def RHI_CommandPool.StepResults : Nat → RHI_CommandPool → Option (List Bool × RHI_CommandPool)
  | 0, s => some ([], s)
  | n + 1, s =>
    match s.Step with
    | none => none
    | some (r, s1, _) =>
      match RHI_CommandPool.StepResults n s1 with
      | none => none
      | some (rs, s2) => some (r :: rs, s2)

/-! ## Descriptors, descriptor sets and the device cache -/

/-- Enumeration `RHI_Descriptor_Type` (RHI_Definition.h, line 259). -/
inductive RHI_Descriptor_Type where
  | Sampler
  | Texture
  | TextureStorage
  | ConstantBuffer
  | StructuredBuffer
  | Undefined
  deriving DecidableEq, Repr

/-- Enumeration `RHI_Image_Layout` (RHI_Definition.h, line 269). -/
inductive RHI_Image_Layout where
  | Undefined
  | General
  | Preinitialized
  | Color_Attachment_Optimal
  | Depth_Attachment_Optimal
  | Depth_Stencil_Attachment_Optimal
  | Depth_Stencil_Read_Only_Optimal
  | Shader_Read_Only_Optimal
  | Transfer_Src_Optimal
  | Transfer_Dst_Optimal
  | Present_Src
  deriving DecidableEq, Repr

/-- Modelled from the spec: `RHI_Descriptor` is declared in `RHI_Descriptor.h`, which
is not part of the sources at hand. Its fields are the ones
`RHI_DescriptorSetLayout.cpp` reads and writes, which are also the ones the data
model lists for a slot: type, shader-register slot, bound resource pointer
(`data`, 0 for `nullptr`), dynamic offset, range, mip, mip range and image
layout. -/
structure RHI_Descriptor where
  type : RHI_Descriptor_Type
  slot : Nat
  data : Nat
  dynamic_offset : Nat
  range : Nat
  mip : Nat
  mip_range : Nat
  layout : RHI_Image_Layout
  deriving DecidableEq, Repr

/-- `rhi_hash_combine` (RHI_Definition.h, lines 340-345) on `uint64_t`:
`seed ^= hasher(x) + 0x9e3779b9 + (seed << 6) + (seed >> 2)`.
`hasher` is `std::hash<uint64_t>`, which the C++ standard library supplies. -/
def rhi_hash_combine (hasher : Nat → Nat) (seed x : Nat) : Nat :=
  (seed % UINT64_SIZE) ^^^
    ((hasher x + 0x9e3779b9 + ((seed % UINT64_SIZE) <<< 6) + ((seed % UINT64_SIZE) >>> 2))
      % UINT64_SIZE)

/-- The `std::hash<uint64_t>` of libstdc++ and libc++: the value itself. -/
def std_hash_identity (x : Nat) : Nat := x

/-- One round of FNV-1a on a byte: xor the byte in, multiply by the FNV prime. -/
def fnv1a_append_byte (val byte : Nat) : Nat :=
  ((val ^^^ byte) * 1099511628211) % UINT64_SIZE

/-- The `std::hash<uint64_t>` of the Microsoft standard library: FNV-1a over the
eight bytes of the value, least significant byte first. -/
def std_hash_fnv1a (x : Nat) : Nat :=
  (List.range 8).foldl (fun val i => fnv1a_append_byte val ((x >>> (8 * i)) % 256))
    14695981039346656037

/-- A descriptor set as `RHI_DescriptorSet.cpp` builds it: its name and the slot
state handed to `Update`. -/
structure RHI_DescriptorSet where
  m_name : String
  m_descriptors : List RHI_Descriptor
  deriving DecidableEq, Repr

/-- The two counters of the `Profiler` system that the RHI writes. -/
structure Profiler where
  m_descriptor_set_count : Nat
  m_descriptor_set_capacity : Nat
  deriving DecidableEq, Repr

/-- The members of `RHI_Device` behind the descriptor-set cache
(RHI_Device.h, lines 123-126): the map from hash to descriptor set, as a list of
key/value pairs with pairwise distinct keys, and the capacity of the descriptor
pool. `profiler` is what `GetContext()->GetSystem<Profiler>()` returns (`none`
for a null pointer). -/
structure RHI_Device where
  m_descriptor_sets : List (Nat × RHI_DescriptorSet)
  m_descriptor_set_capacity : Nat
  profiler : Option Profiler
  deriving DecidableEq, Repr

/-- `std::unordered_map::find`: the value stored under `key`, if any. -/
def map_find {α : Type} : List (Nat × α) → Nat → Option α
  | [], _ => none
  | (k, v) :: rest, key => if k = key then some v else map_find rest key

/-- `m[key] = value` on a `std::unordered_map`: overwrite the entry under `key`
when there is one, add an entry otherwise. -/
def map_assign {α : Type} : List (Nat × α) → Nat → α → List (Nat × α)
  | [], key, value => [(key, value)]
  | (k, v) :: rest, key, value =>
    if k = key then (k, value) :: rest else (k, v) :: map_assign rest key value

/-- Modelled from the spec: `RHI_Device::HasDescriptorSetCapacity` is declared in
`RHI_Device.h` (line 73) but its body is not part of the sources at hand. Per
the data model, "descriptor-set cache entries never exceed the configured pool
capacity": there is capacity for another set exactly when the cache holds fewer
entries than the capacity. -/
def RHI_Device.HasDescriptorSetCapacity (dev : RHI_Device) : Bool :=
  decide (dev.m_descriptor_sets.length < dev.m_descriptor_set_capacity)

/-- The constructor of `RHI_DescriptorSet` (RHI_DescriptorSet.cpp, lines 31-46):
returns the new set and the device with the profiler count incremented. -/
def RHI_DescriptorSet.construct (dev : RHI_Device) (descriptors : List RHI_Descriptor)
    (name : String) : RHI_DescriptorSet × RHI_Device :=
  ({ m_name := name, m_descriptors := descriptors },
   { dev with
     profiler := dev.profiler.map (fun p =>
       { p with m_descriptor_set_count := (p.m_descriptor_set_count + 1) % UINT32_SIZE }) })

/-- The members of `RHI_DescriptorSetLayout` used by
`RHI_DescriptorSetLayout.cpp`. -/
structure RHI_DescriptorSetLayout where
  m_name : String
  m_descriptors : List RHI_Descriptor
  m_hash : Nat
  m_needs_to_bind : Bool
  deriving DecidableEq, Repr

/-- One iteration of the hashing loop of `GetDescriptorSet` (lines 163-166). -/
def hash_descriptor (hasher : Nat → Nat) (hash : Nat) (descriptor : RHI_Descriptor) : Nat :=
  let hash1 := rhi_hash_combine hasher hash (descriptor.data % UINT64_SIZE)
  let hash2 := rhi_hash_combine hasher hash1 (descriptor.mip % UINT64_SIZE)
  let hash3 := rhi_hash_combine hasher hash2 (descriptor.mip_range % UINT64_SIZE)
  rhi_hash_combine hasher hash3 (descriptor.range % UINT64_SIZE)

/-- The hash computed at the start of `GetDescriptorSet` (lines 160-167). -/
def RHI_DescriptorSetLayout.descriptor_set_hash (hasher : Nat → Nat)
    (l : RHI_DescriptorSetLayout) : Nat :=
  l.m_descriptors.foldl (hash_descriptor hasher) l.m_hash

/-- Message of the assertion at line 175 of `RHI_DescriptorSetLayout.cpp`. -/
def no_capacity_message : String :=
  "Descriptor pool has no more memory to allocate another descriptor set"

/-- `RHI_DescriptorSetLayout::GetDescriptorSet` (RHI_DescriptorSetLayout.cpp,
lines 155-190). The returned pointer is `none` for `nullptr` and `some key` for
the address of the map entry stored under `key`. A failed assertion is reported
with its message and the device as it is when the assertion fires. -/
def RHI_DescriptorSetLayout.GetDescriptorSet (hasher : Nat → Nat)
    (l : RHI_DescriptorSetLayout) (dev : RHI_Device) :
    Except (String × RHI_Device) (Option Nat × RHI_DescriptorSetLayout × RHI_Device) :=
  let hash := l.descriptor_set_hash hasher
  match map_find dev.m_descriptor_sets hash with
  | none =>
    if dev.HasDescriptorSetCapacity then
      let created := RHI_DescriptorSet.construct dev l.m_descriptors l.m_name
      let dev1 := created.2
      Except.ok (some hash, l,
        { dev1 with m_descriptor_sets := map_assign dev1.m_descriptor_sets hash created.1 })
    else
      Except.error (no_capacity_message, dev)
  | some _ =>
    if l.m_needs_to_bind then
      Except.ok (some hash, { l with m_needs_to_bind := false }, dev)
    else
      Except.ok (none, l, dev)

/-- `GetDescriptorSet` called on each layout of a list in turn, against the same
device; stops at the first fatal assertion. Returns the pointers handed out. -/
def GetDescriptorSet_each (hasher : Nat → Nat) :
    List RHI_DescriptorSetLayout → RHI_Device →
      Except (String × RHI_Device) (List (Option Nat) × RHI_Device)
  | [], dev => Except.ok ([], dev)
  | l :: rest, dev =>
    match l.GetDescriptorSet hasher dev with
    | Except.error e => Except.error e
    | Except.ok (p, _, dev1) =>
      match GetDescriptorSet_each hasher rest dev1 with
      | Except.error e => Except.error e
      | Except.ok (ps, dev2) => Except.ok (p :: ps, dev2)

/-! ## Binding resources to the slots of a layout -/

/-- Constant `rhi_all_mips` (RHI_Definition.h, line 314): the largest `uint32_t`. -/
def rhi_all_mips : Nat := UINT32_SIZE - 1

/-- Constant `rhi_shader_shift_register_u` (RHI_Definition.h, line 317). -/
def rhi_shader_shift_register_u : Nat := 0

/-- Constant `rhi_shader_shift_register_b` (RHI_Definition.h, line 318). -/
def rhi_shader_shift_register_b : Nat := 100

/-- Constant `rhi_shader_shift_register_t` (RHI_Definition.h, line 319). -/
def rhi_shader_shift_register_t : Nat := 200

/-- Constant `rhi_shader_shift_register_s` (RHI_Definition.h, line 320). -/
def rhi_shader_shift_register_s : Nat := 300

/-- The live `RHI_ConstantBuffer` a pointer argument refers to
(RHI_ConstantBuffer.h): `address` is the value of the pointer, the other fields
are the members read by `GetOffset()` and `GetStride()`. -/
structure RHI_ConstantBuffer where
  address : Nat
  m_stride : Nat
  m_offset : Nat
  m_element_count : Nat
  deriving DecidableEq, Repr

/-- `RHI_ConstantBuffer::GetStride` (RHI_ConstantBuffer.h, line 49). -/
def RHI_ConstantBuffer.GetStride (b : RHI_ConstantBuffer) : Nat := b.m_stride

/-- `RHI_ConstantBuffer::GetOffset` (RHI_ConstantBuffer.h, line 50). -/
def RHI_ConstantBuffer.GetOffset (b : RHI_ConstantBuffer) : Nat := b.m_offset

/-- The live `RHI_StructuredBuffer` a pointer argument refers to: `address` is the
value of the pointer, the other fields are the members that
`Vulkan_StructuredBuffer.cpp` reads and writes. -/
structure RHI_StructuredBuffer where
  address : Nat
  m_stride : Nat
  m_offset : Nat
  m_element_count : Nat
  m_object_size_gpu : Nat
  m_reset_offset : Bool
  m_mapped_data : Nat
  deriving DecidableEq, Repr

/-- Modelled from the spec: `RHI_StructuredBuffer::GetStride` is declared in
`RHI_StructuredBuffer.h`, which is not part of the sources at hand; like its
namesake of `RHI_ConstantBuffer` it returns the stride bound as the range. -/
def RHI_StructuredBuffer.GetStride (b : RHI_StructuredBuffer) : Nat := b.m_stride

/-- Modelled from the spec: `RHI_StructuredBuffer::GetOffset` is declared in
`RHI_StructuredBuffer.h`, which is not part of the sources at hand; like its
namesake of `RHI_ConstantBuffer` it returns the current dynamic offset. -/
def RHI_StructuredBuffer.GetOffset (b : RHI_StructuredBuffer) : Nat := b.m_offset

/-- Modelled from the spec: `RHI_Texture` is declared in `RHI_Texture.h`, which is
not part of the sources at hand. What `SetTexture` uses of the live texture its
pointer argument refers to: the value of the pointer, the image layout of each
mip (`GetLayout(mip)`) and whether the texture is usable as a shader resource
(`IsSrv()`). -/
structure RHI_Texture where
  address : Nat
  GetLayout : Nat → RHI_Image_Layout
  IsSrv : Bool

/-- The loop shared by the four setters of `RHI_DescriptorSetLayout.cpp`: visit
the descriptors in order; at the first one that matches, compute the new value
of `m_needs_to_bind` with `raise`, overwrite the descriptor with `write` and
return. Gives the descriptors and `m_needs_to_bind` afterwards. -/
def bind_first (is_match : RHI_Descriptor → Bool) (raise : RHI_Descriptor → Bool → Bool)
    (write : RHI_Descriptor → RHI_Descriptor) :
    List RHI_Descriptor → Bool → List RHI_Descriptor × Bool
  | [], needs_to_bind => ([], needs_to_bind)
  | descriptor :: rest, needs_to_bind =>
    if is_match descriptor then
      (write descriptor :: rest, raise descriptor needs_to_bind)
    else
      let done := bind_first is_match raise write rest needs_to_bind
      (descriptor :: done.1, done.2)

/-- `RHI_DescriptorSetLayout::SetConstantBuffer`
(RHI_DescriptorSetLayout.cpp, lines 53-71). -/
def RHI_DescriptorSetLayout.SetConstantBuffer (l : RHI_DescriptorSetLayout) (slot : Nat)
    (constant_buffer : RHI_ConstantBuffer) : RHI_DescriptorSetLayout :=
  let done := bind_first
    (fun descriptor =>
      decide (descriptor.type = RHI_Descriptor_Type.ConstantBuffer ∧
        descriptor.slot = (slot + rhi_shader_shift_register_b) % UINT32_SIZE))
    (fun descriptor needs_to_bind =>
      let flag1 := if descriptor.data ≠ constant_buffer.address then true else needs_to_bind
      let flag2 :=
        if descriptor.dynamic_offset ≠ constant_buffer.GetOffset then true else flag1
      if descriptor.range ≠ constant_buffer.GetStride then true else flag2)
    (fun descriptor =>
      { descriptor with
        data := constant_buffer.address
        dynamic_offset := constant_buffer.GetOffset
        range := constant_buffer.GetStride })
    l.m_descriptors l.m_needs_to_bind
  { l with m_descriptors := done.1, m_needs_to_bind := done.2 }

/-- `RHI_DescriptorSetLayout::SetStructuredBuffer`
(RHI_DescriptorSetLayout.cpp, lines 73-91). -/
def RHI_DescriptorSetLayout.SetStructuredBuffer (l : RHI_DescriptorSetLayout) (slot : Nat)
    (structured_buffer : RHI_StructuredBuffer) : RHI_DescriptorSetLayout :=
  let done := bind_first
    (fun descriptor =>
      decide (descriptor.type = RHI_Descriptor_Type.StructuredBuffer ∧
        descriptor.slot = (slot + rhi_shader_shift_register_u) % UINT32_SIZE))
    (fun descriptor needs_to_bind =>
      let flag1 := if descriptor.data ≠ structured_buffer.address then true else needs_to_bind
      let flag2 :=
        if descriptor.dynamic_offset ≠ structured_buffer.GetOffset then true else flag1
      if descriptor.range ≠ structured_buffer.GetStride then true else flag2)
    (fun descriptor =>
      { descriptor with
        data := structured_buffer.address
        dynamic_offset := structured_buffer.GetOffset
        range := structured_buffer.GetStride })
    l.m_descriptors l.m_needs_to_bind
  { l with m_descriptors := done.1, m_needs_to_bind := done.2 }

/-- `RHI_DescriptorSetLayout::SetSampler` (RHI_DescriptorSetLayout.cpp, lines
93-108). The sampler is only stored, never dereferenced: `sampler` is the value
of the pointer. -/
def RHI_DescriptorSetLayout.SetSampler (l : RHI_DescriptorSetLayout) (slot : Nat)
    (sampler : Nat) : RHI_DescriptorSetLayout :=
  let done := bind_first
    (fun descriptor =>
      decide (descriptor.type = RHI_Descriptor_Type.Sampler ∧
        descriptor.slot = (slot + rhi_shader_shift_register_s) % UINT32_SIZE))
    (fun descriptor needs_to_bind =>
      if descriptor.data ≠ sampler then true else needs_to_bind)
    (fun descriptor => { descriptor with data := sampler })
    l.m_descriptors l.m_needs_to_bind
  { l with m_descriptors := done.1, m_needs_to_bind := done.2 }

/-- The image layout `SetTexture` reads from the texture (lines 112-113). -/
def SetTexture_layout (texture : RHI_Texture) (mip_index : Nat) : RHI_Image_Layout :=
  let mip_specified := decide (mip_index ≠ rhi_all_mips)
  texture.GetLayout (if mip_specified then mip_index else 0)

/-- The descriptor type `SetTexture` looks for, given the image layout
(lines 123-124). -/
def SetTexture_type (layout : RHI_Image_Layout) : RHI_Descriptor_Type :=
  if layout = RHI_Image_Layout.General then RHI_Descriptor_Type.TextureStorage
  else RHI_Descriptor_Type.Texture

/-- The register shift `SetTexture` applies, given the image layout
(lines 123, 125). -/
def SetTexture_shift (layout : RHI_Image_Layout) : Nat :=
  if layout = RHI_Image_Layout.General then rhi_shader_shift_register_u
  else rhi_shader_shift_register_t

/-- `RHI_DescriptorSetLayout::SetTexture` (RHI_DescriptorSetLayout.cpp, lines
110-144). A failed assertion is reported with the asserted expression and the
layout as it is when the assertion fires. -/
def RHI_DescriptorSetLayout.SetTexture (l : RHI_DescriptorSetLayout) (slot : Nat)
    (texture : RHI_Texture) (mip_index mip_range : Nat) :
    Except (String × RHI_DescriptorSetLayout) RHI_DescriptorSetLayout :=
  let layout := SetTexture_layout texture mip_index
  if ¬ (layout = RHI_Image_Layout.General ∨
      layout = RHI_Image_Layout.Shader_Read_Only_Optimal ∨
      layout = RHI_Image_Layout.Depth_Stencil_Read_Only_Optimal) then
    Except.error ("layout == General || layout == Shader_Read_Only_Optimal || " ++
      "layout == Depth_Stencil_Read_Only_Optimal", l)
  else if ¬ texture.IsSrv then
    Except.error ("texture->IsSrv()", l)
  else
    let done := bind_first
      (fun descriptor =>
        let match_type := decide (descriptor.type = SetTexture_type layout)
        let match_slot :=
          decide (descriptor.slot = (slot + SetTexture_shift layout) % UINT32_SIZE)
        match_type && match_slot)
      (fun descriptor needs_to_bind =>
        let flag1 := if descriptor.data ≠ texture.address then true else needs_to_bind
        let flag2 := if descriptor.mip ≠ mip_index then true else flag1
        if descriptor.mip_range ≠ mip_range then true else flag2)
      (fun descriptor =>
        { descriptor with
          data := texture.address
          layout := layout
          mip := mip_index
          mip_range := mip_range })
      l.m_descriptors l.m_needs_to_bind
    Except.ok { l with m_descriptors := done.1, m_needs_to_bind := done.2 }

/-- `RHI_DescriptorSetLayout::ClearDescriptorData` (RHI_DescriptorSetLayout.cpp,
lines 146-153). The device the layout points to is passed along to show what
happens to it. -/
def RHI_DescriptorSetLayout.ClearDescriptorData (l : RHI_DescriptorSetLayout)
    (dev : RHI_Device) : RHI_DescriptorSetLayout × RHI_Device :=
  ({ l with
      m_descriptors :=
        List.map (fun descriptor => { descriptor with data := 0, mip := 0 }) l.m_descriptors },
    dev)

/-- `std::vector::clear`: the vector afterwards is empty. -/
def vector_clear {α : Type} (_v : List α) : List α := []

/-- The loop of `GetDynamicOffsets` (lines 198-204), appending to `offsets`. -/
def GetDynamicOffsets_loop : List RHI_Descriptor → List Nat → List Nat
  | [], offsets => offsets
  | descriptor :: rest, offsets =>
    if descriptor.type = RHI_Descriptor_Type.StructuredBuffer ∨
        descriptor.type = RHI_Descriptor_Type.ConstantBuffer then
      GetDynamicOffsets_loop rest (offsets ++ [descriptor.dynamic_offset])
    else
      GetDynamicOffsets_loop rest offsets

/-- `RHI_DescriptorSetLayout::GetDynamicOffsets` (RHI_DescriptorSetLayout.cpp,
lines 192-205): `offsets` is the content of the output vector on entry, the
result its content on return. -/
def RHI_DescriptorSetLayout.GetDynamicOffsets (l : RHI_DescriptorSetLayout)
    (offsets : List Nat) : List Nat :=
  GetDynamicOffsets_loop l.m_descriptors (vector_clear offsets)

/-! ## Queues and sync objects -/

/-- Enumeration `RHI_Sync_State` (RHI_Definition.h, line 284). -/
inductive RHI_Sync_State where
  | Idle
  | Submitted
  deriving DecidableEq, Repr

/-- The CPU states of the semaphores and of the fences that are alive. A pointer
to a semaphore (to a fence) is a position in `semaphores` (in `fences`); a
position past the end is a pointer to no live object. -/
structure RHI_SyncObjects where
  semaphores : List RHI_Sync_State
  fences : List RHI_Sync_State
  deriving DecidableEq, Repr

/-- Modelled from the spec: `GetCpuState()` of `RHI_Semaphore` and `RHI_Fence` is
declared in headers that are not part of the sources at hand; it reads the
CPU-visible `Sync_State` of the object (`m_cpu_state` in `Vulkan_Fence.cpp`).
Dereferencing a pointer to no live object is undefined (`none`). -/
def GetCpuState (objects : List RHI_Sync_State) (pointer : Nat) : Option RHI_Sync_State :=
  objects[pointer]?

/-- Modelled from the spec: `SetCpuState(state)` of `RHI_Semaphore` and `RHI_Fence` is
declared in headers that are not part of the sources at hand; it overwrites the
CPU-visible `Sync_State` of the object. -/
def SetCpuState (objects : List RHI_Sync_State) (pointer : Nat) (state : RHI_Sync_State) :
    List RHI_Sync_State :=
  objects.set pointer state

/-- One validation line of `QueueSubmit` (lines 690-692),
`if (object) SP_ASSERT_MSG(object->GetCpuState() != forbidden, ...)`:
`some true` when the assertion holds or the pointer is null, `some false` when
the assertion fails, `none` when the pointer refers to no live object. -/
def QueueSubmit_validate (objects : List RHI_Sync_State) (object : Option Nat)
    (forbidden : RHI_Sync_State) : Option Bool :=
  match object with
  | none => some true
  | some pointer =>
    match GetCpuState objects pointer with
    | none => none
    | some state => some (decide (state ≠ forbidden))

/-- One state update of `QueueSubmit` (lines 718-720),
`if (object) object->SetCpuState(state)`. -/
def QueueSubmit_update (objects : List RHI_Sync_State) (object : Option Nat)
    (state : RHI_Sync_State) : List RHI_Sync_State :=
  match object with
  | none => objects
  | some pointer => SetCpuState objects pointer state

/-- `RHI_Device::QueueSubmit` (Vulkan_Device.cpp, lines 685-721) on the sync
objects; the queue type and the wait flags only go into the backend call.
`cmd_buffer` is the value of the pointer (0 for `nullptr`), a null semaphore or
fence is `none`, `vk_success` tells whether `vkQueueSubmit` returns
`VK_SUCCESS`. The result is `none` for undefined behaviour, an error with the
message and the sync objects at that point for a failed assertion, and the sync
objects on return otherwise. -/
def RHI_Device.QueueSubmit (sync : RHI_SyncObjects)
    (cmd_buffer : Nat) (wait_semaphore signal_semaphore signal_fence : Option Nat)
    (vk_success : Bool) : Option (Except (String × RHI_SyncObjects) RHI_SyncObjects) :=
  if cmd_buffer = 0 then
    some (Except.error ("Invalid command buffer", sync))
  else
    match QueueSubmit_validate sync.semaphores wait_semaphore RHI_Sync_State.Idle with
    | none => none
    | some false =>
      some (Except.error
        ("Wait semaphore is in an idle state and will never be signaled", sync))
    | some true =>
      match QueueSubmit_validate sync.semaphores signal_semaphore RHI_Sync_State.Submitted with
      | none => none
      | some false =>
        some (Except.error ("Signal semaphore is already in a signaled state.", sync))
      | some true =>
        match QueueSubmit_validate sync.fences signal_fence RHI_Sync_State.Submitted with
        | none => none
        | some false =>
          some (Except.error ("Signal fence is already in a signaled state.", sync))
        | some true =>
          if vk_success then
            let semaphores1 :=
              QueueSubmit_update sync.semaphores wait_semaphore RHI_Sync_State.Idle
            let semaphores2 :=
              QueueSubmit_update semaphores1 signal_semaphore RHI_Sync_State.Submitted
            let fences1 := QueueSubmit_update sync.fences signal_fence RHI_Sync_State.Submitted
            some (Except.ok { semaphores := semaphores2, fences := fences1 })
          else
            some (Except.error
              ("vkQueueSubmit(static_cast<VkQueue>(GetQueue(type)), 1, &submit_info, " ++
                "static_cast<VkFence>(vk_signal_fence)) == VK_SUCCESS", sync))

/-- Size of the static array `vk_wait_semaphores` of `QueuePresent`
(Vulkan_Device.cpp, line 658). -/
def vk_wait_semaphores_size : Nat := 3

/-- Outcome of the first loop of `QueuePresent`. -/
inductive QueuePresent_check where
  | passed
  | assertion_failed
  | undefined_behaviour
  deriving DecidableEq, Repr

/-- The first loop of `QueuePresent` (lines 662-666), from index `i` on: assert
that the semaphore is Submitted, then store its resource in
`vk_wait_semaphores[i]`, which is undefined past the end of the array. -/
def QueuePresent_validate (semaphores : List RHI_Sync_State) :
    Nat → List Nat → QueuePresent_check
  | _, [] => QueuePresent_check.passed
  | i, pointer :: rest =>
    match GetCpuState semaphores pointer with
    | none => QueuePresent_check.undefined_behaviour
    | some state =>
      if state ≠ RHI_Sync_State.Submitted then QueuePresent_check.assertion_failed
      else if vk_wait_semaphores_size ≤ i then QueuePresent_check.undefined_behaviour
      else QueuePresent_validate semaphores (i + 1) rest

/-- The second loop of `QueuePresent` (lines 679-682). -/
def QueuePresent_update : List RHI_Sync_State → List Nat → List RHI_Sync_State
  | semaphores, [] => semaphores
  | semaphores, pointer :: rest =>
    QueuePresent_update (SetCpuState semaphores pointer RHI_Sync_State.Idle) rest

/-- `RHI_Device::QueuePresent` (Vulkan_Device.cpp, lines 656-683) on the sync
objects. `vk_success` tells whether `vkQueuePresentKHR` returns `VK_SUCCESS`.
Results as for `QueueSubmit`. -/
def RHI_Device.QueuePresent (sync : RHI_SyncObjects) (wait_semaphores : List Nat)
    (vk_success : Bool) : Option (Except (String × RHI_SyncObjects) RHI_SyncObjects) :=
  match QueuePresent_validate sync.semaphores 0 wait_semaphores with
  | QueuePresent_check.undefined_behaviour => none
  | QueuePresent_check.assertion_failed =>
    some (Except.error ("The wait semaphore hasn't been signaled", sync))
  | QueuePresent_check.passed =>
    if vk_success then
      some (Except.ok
        { sync with semaphores := QueuePresent_update sync.semaphores wait_semaphores })
    else
      some (Except.error ("Failed to present", sync))

/-! ## The capacity of the descriptor pool -/

/-- `RHI_Device::SetDescriptorSetCapacity` (Vulkan_Device.cpp, lines 754-798) on
the members of the device. `vk_success` tells whether `vkCreateDescriptorPool`
returns `VK_SUCCESS`. -/
def RHI_Device.SetDescriptorSetCapacity (dev : RHI_Device) (descriptor_set_capacity : Nat)
    (vk_success : Bool) : Except (String × RHI_Device) RHI_Device :=
  let descriptor_set_capacity1 :=
    if descriptor_set_capacity = 0 then dev.m_descriptor_set_capacity
    else descriptor_set_capacity
  if vk_success then
    let dev1 := { dev with m_descriptor_set_capacity := descriptor_set_capacity1 }
    Except.ok { dev1 with
      profiler := dev1.profiler.map (fun p =>
        { p with
          m_descriptor_set_count := 0
          m_descriptor_set_capacity := dev1.m_descriptor_set_capacity }) }
  else
    Except.error ("Failed to create descriptor pool.", dev)

/-- The descriptor members of a device when its constructor returns
(Vulkan_Device.cpp, line 432, with the member initialisers of RHI_Device.h,
lines 124-126): an empty map, and the capacity set by
`SetDescriptorSetCapacity(2048)`. -/
def RHI_Device.construct (profiler : Option Profiler) (vk_success : Bool) :
    Except (String × RHI_Device) RHI_Device :=
  RHI_Device.SetDescriptorSetCapacity
    { m_descriptor_sets := [], m_descriptor_set_capacity := 0, profiler := profiler }
    2048 vk_success

/-- A call made on a device: `GetDescriptorSet()` of a layout in a given binding
state, or `SetDescriptorSetCapacity(n)`. -/
inductive RHI_Device_call where
  | GetDescriptorSet (l : RHI_DescriptorSetLayout)
  | SetDescriptorSetCapacity (descriptor_set_capacity : Nat)
  deriving DecidableEq, Repr

/-- The device after a sequence of calls, each of which returns (the backend
calls succeed); stops at the first failed assertion. -/
def RHI_Device.calls (hasher : Nat → Nat) :
    List RHI_Device_call → RHI_Device → Except (String × RHI_Device) RHI_Device
  | [], dev => Except.ok dev
  | RHI_Device_call.GetDescriptorSet l :: rest, dev =>
    match l.GetDescriptorSet hasher dev with
    | Except.error e => Except.error e
    | Except.ok (_, _, dev1) => RHI_Device.calls hasher rest dev1
  | RHI_Device_call.SetDescriptorSetCapacity n :: rest, dev =>
    match dev.SetDescriptorSetCapacity n true with
    | Except.error e => Except.error e
    | Except.ok dev1 => RHI_Device.calls hasher rest dev1

/-- The layout `l1` is the layout `l` except possibly for `m_needs_to_bind` and for
descriptors of type `type` at slot `slot`: name, hash, number and order of the
descriptors are those of `l`, every descriptor of another type or at another
slot is the same, and if `l` has no descriptor of that type at that slot then
`l1` is `l`, `m_needs_to_bind` included. -/
def RHI_DescriptorSetLayout.WritesOnly (l l1 : RHI_DescriptorSetLayout)
    (type : RHI_Descriptor_Type) (slot : Nat) : Prop :=
  l1.m_name = l.m_name ∧ l1.m_hash = l.m_hash ∧
  l1.m_descriptors.length = l.m_descriptors.length ∧
  (∀ (i : Nat) (d : RHI_Descriptor), l.m_descriptors[i]? = some d →
    (d.type ≠ type ∨ d.slot ≠ slot) → l1.m_descriptors[i]? = some d) ∧
  ((∀ d ∈ l.m_descriptors, d.type ≠ type ∨ d.slot ≠ slot) → l1 = l)

/-- A call of one of the four setters of a layout, with its arguments. -/
inductive Setter_call where
  | SetConstantBuffer (slot : Nat) (constant_buffer : RHI_ConstantBuffer)
  | SetStructuredBuffer (slot : Nat) (structured_buffer : RHI_StructuredBuffer)
  | SetSampler (slot : Nat) (sampler : Nat)
  | SetTexture (slot : Nat) (texture : RHI_Texture) (mip_index mip_range : Nat)

/-- The layout after a setter call, or the failed assertion of `SetTexture`. -/
def RHI_DescriptorSetLayout.call (l : RHI_DescriptorSetLayout) :
    Setter_call → Except (String × RHI_DescriptorSetLayout) RHI_DescriptorSetLayout
  | Setter_call.SetConstantBuffer slot constant_buffer =>
    Except.ok (l.SetConstantBuffer slot constant_buffer)
  | Setter_call.SetStructuredBuffer slot structured_buffer =>
    Except.ok (l.SetStructuredBuffer slot structured_buffer)
  | Setter_call.SetSampler slot sampler => Except.ok (l.SetSampler slot sampler)
  | Setter_call.SetTexture slot texture mip_index mip_range =>
    l.SetTexture slot texture mip_index mip_range

/-- The layout after a sequence of setter calls; stops at the first failed
assertion. -/
def RHI_DescriptorSetLayout.calls :
    List Setter_call → RHI_DescriptorSetLayout →
      Except (String × RHI_DescriptorSetLayout) RHI_DescriptorSetLayout
  | [], l => Except.ok l
  | c :: rest, l =>
    match l.call c with
    | Except.error e => Except.error e
    | Except.ok l1 => RHI_DescriptorSetLayout.calls rest l1

/-- The descriptor a setter call addresses: the first descriptor of the layout
with the setter's type at the shifted slot, if there is one. -/
def Setter_call.target (c : Setter_call) (l : RHI_DescriptorSetLayout) : Option RHI_Descriptor :=
  match c with
  | Setter_call.SetConstantBuffer slot _ =>
    l.m_descriptors.find? (fun d =>
      decide (d.type = RHI_Descriptor_Type.ConstantBuffer ∧
        d.slot = (slot + rhi_shader_shift_register_b) % UINT32_SIZE))
  | Setter_call.SetStructuredBuffer slot _ =>
    l.m_descriptors.find? (fun d =>
      decide (d.type = RHI_Descriptor_Type.StructuredBuffer ∧
        d.slot = (slot + rhi_shader_shift_register_u) % UINT32_SIZE))
  | Setter_call.SetSampler slot _ =>
    l.m_descriptors.find? (fun d =>
      decide (d.type = RHI_Descriptor_Type.Sampler ∧
        d.slot = (slot + rhi_shader_shift_register_s) % UINT32_SIZE))
  | Setter_call.SetTexture slot texture mip_index _ =>
    l.m_descriptors.find? (fun d =>
      decide (d.type = SetTexture_type (SetTexture_layout texture mip_index)) &&
        decide (d.slot =
          (slot + SetTexture_shift (SetTexture_layout texture mip_index)) % UINT32_SIZE))

/-- The setter call re-applies the value already bound: the descriptor it
addresses, if any, already holds the resource pointer and, for a buffer, the
dynamic offset and range, for a texture, the mip and mip range of the call. -/
def Setter_call.rebinds (c : Setter_call) (l : RHI_DescriptorSetLayout) : Bool :=
  match c.target l with
  | none => true
  | some d =>
    match c with
    | Setter_call.SetConstantBuffer _ constant_buffer =>
      decide (d.data = constant_buffer.address ∧
        d.dynamic_offset = constant_buffer.GetOffset ∧ d.range = constant_buffer.GetStride)
    | Setter_call.SetStructuredBuffer _ structured_buffer =>
      decide (d.data = structured_buffer.address ∧
        d.dynamic_offset = structured_buffer.GetOffset ∧ d.range = structured_buffer.GetStride)
    | Setter_call.SetSampler _ sampler => decide (d.data = sampler)
    | Setter_call.SetTexture _ texture mip_index mip_range =>
      decide (d.data = texture.address ∧ d.mip = mip_index ∧ d.mip_range = mip_range)

/-- Every call of the sequence re-applies the value bound at the time it is
made. -/
def Setter_call.rebinds_all : List Setter_call → RHI_DescriptorSetLayout → Bool
  | [], _ => true
  | c :: rest, l =>
    c.rebinds l &&
      match l.call c with
      | Except.error _ => true
      | Except.ok l1 => Setter_call.rebinds_all rest l1

/-! ## Physical device selection (`Vulkan_Device.cpp`) -/

/-- `VK_QUEUE_GRAPHICS_BIT` of the Vulkan headers. -/
def VK_QUEUE_GRAPHICS_BIT : Nat := 1

/-- `VK_QUEUE_COMPUTE_BIT` of the Vulkan headers. -/
def VK_QUEUE_COMPUTE_BIT : Nat := 2

/-- `VK_QUEUE_TRANSFER_BIT` of the Vulkan headers. -/
def VK_QUEUE_TRANSFER_BIT : Nat := 4

/-- The loop
`for (i = 0; i < size; i++) if (test(queue_family_properties[i].queueFlags)) { *index = i; return true; }`
of `get_queue_family_index`, run on the families from position `i` on: the
index it stores when it returns, `none` when it runs to the end of the list.
A family is given by its `queueFlags`. -/
def first_queue_family (test : Nat → Bool) : List Nat → Nat → Option Nat
  | [], _ => none
  | queueFlags :: rest, i =>
    if test queueFlags then some i else first_queue_family test rest (i + 1)

/-- The lambda `get_queue_family_index` of
`RHI_Device::SelectPrimaryPhysicalDevice`: the returned flag together with the
value of `*index` after the call (`index` is the value before the call, left
alone when the lambda returns false). -/
def get_queue_family_index (queue_flags : Nat) (queue_family_properties : List Nat)
    (index : Nat) : Bool × Nat :=
  let dedicated_compute : Option Nat :=
    if queue_flags &&& VK_QUEUE_COMPUTE_BIT ≠ 0 then
      first_queue_family
        (fun queueFlags =>
          decide (queueFlags &&& queue_flags ≠ 0) &&
            decide (queueFlags &&& VK_QUEUE_GRAPHICS_BIT = 0))
        queue_family_properties 0
    else none
  match dedicated_compute with
  | some i => (true, i)
  | none =>
    let dedicated_transfer : Option Nat :=
      if queue_flags &&& VK_QUEUE_TRANSFER_BIT ≠ 0 then
        first_queue_family
          (fun queueFlags =>
            decide (queueFlags &&& queue_flags ≠ 0) &&
              decide (queueFlags &&& VK_QUEUE_GRAPHICS_BIT = 0) &&
              decide (queueFlags &&& VK_QUEUE_COMPUTE_BIT = 0))
          queue_family_properties 0
      else none
    match dedicated_transfer with
    | some i => (true, i)
    | none =>
      match first_queue_family (fun queueFlags => decide (queueFlags &&& queue_flags ≠ 0))
          queue_family_properties 0 with
      | some i => (true, i)
      | none => (false, index)

/-- Modelled from the spec: `PhysicalDevice` is declared in `RHI_PhysicalDevice.h`,
which is not part of the sources at hand. What device selection uses of an
entry of `m_physical_devices`: the handle `GetData` returns and the
`queueFlags` of the queue families
`vkGetPhysicalDeviceQueueFamilyProperties` reports for it. -/
structure PhysicalDevice where
  data : Nat
  queue_family_properties : List Nat
  deriving DecidableEq, Repr

/-- The members of `RHI_Device` (and of its context) that device selection
writes: the three queue family indices, the index of the primary physical
device (0 by default, `RHI_Device.h` line 150) and
`m_rhi_context->device_physical` (`none` is the null handle). -/
structure RHI_Device_selection where
  m_queue_graphics_index : Nat
  m_queue_compute_index : Nat
  m_queue_copy_index : Nat
  m_physical_device_index : Nat
  device_physical : Option Nat
  deriving DecidableEq, Repr

/-- The selection members as the constructor finds them: the in-class
initialisers of `RHI_Device.h` (lines 119-121 and 150) and a null device
handle. -/
def RHI_Device_selection.initial : RHI_Device_selection :=
  { m_queue_graphics_index := 0, m_queue_compute_index := 0, m_queue_copy_index := 0,
    m_physical_device_index := 0, device_physical := none }

/-- Modelled from the spec: `RHI_Device::SetQueueIndex` is declared in
`RHI_Device.h` (line 51) but its body is not part of the sources at hand; it
stores the index in the member of the given queue type. -/
def RHI_Device_selection.SetQueueIndex (s : RHI_Device_selection) (type : RHI_Queue_Type)
    (index : Nat) : RHI_Device_selection :=
  match type with
  | RHI_Queue_Type.Graphics => { s with m_queue_graphics_index := index }
  | RHI_Queue_Type.Compute => { s with m_queue_compute_index := index }
  | RHI_Queue_Type.Copy => { s with m_queue_copy_index := index }
  | _ => s

/-- Modelled from the spec: `RHI_Device::SetPrimaryPhysicalDevice` is declared in
`RHI_Device.h` (line 110) but its body is not part of the sources at hand; it
stores the index of the primary physical device. -/
def RHI_Device_selection.SetPrimaryPhysicalDevice (s : RHI_Device_selection) (index : Nat) :
    RHI_Device_selection :=
  { s with m_physical_device_index := index }

/-- The lambda `get_queue_family_indices` of
`RHI_Device::SelectPrimaryPhysicalDevice`: graphics, then compute, then copy;
the first queue type without a family makes it return false, the indices
stored until then stay stored. -/
def get_queue_family_indices (s : RHI_Device_selection) (queue_families_properties : List Nat) :
    Bool × RHI_Device_selection :=
  let index := 0
  match get_queue_family_index VK_QUEUE_GRAPHICS_BIT queue_families_properties index with
  | (false, _) => (false, s)
  | (true, index) =>
    let s := s.SetQueueIndex RHI_Queue_Type.Graphics index
    match get_queue_family_index VK_QUEUE_COMPUTE_BIT queue_families_properties index with
    | (false, _) => (false, s)
    | (true, index) =>
      let s := s.SetQueueIndex RHI_Queue_Type.Compute index
      match get_queue_family_index VK_QUEUE_TRANSFER_BIT queue_families_properties index with
      | (false, _) => (false, s)
      | (true, index) => (true, s.SetQueueIndex RHI_Queue_Type.Copy index)

/-- The device loop of `RHI_Device::SelectPrimaryPhysicalDevice` from position
`device_index` on: the first device for which `get_queue_family_indices`
returns true becomes the primary device and ends the loop. -/
def SelectPrimaryPhysicalDevice_loop :
    List PhysicalDevice → Nat → RHI_Device_selection → RHI_Device_selection
  | [], _, s => s
  | device :: rest, device_index, s =>
    match get_queue_family_indices s device.queue_family_properties with
    | (true, s1) =>
      { s1.SetPrimaryPhysicalDevice device_index with device_physical := some device.data }
    | (false, s1) => SelectPrimaryPhysicalDevice_loop rest (device_index + 1) s1

/-- `RHI_Device::DetectDisplayModes` (`Vulkan_Device.cpp` lines 637-654): it
registers display modes with the display (not modelled) and returns true on
every path. -/
def RHI_Device.DetectDisplayModes : Bool := true

/-- `RHI_Device::SelectPrimaryPhysicalDevice` (`Vulkan_Device.cpp` lines
530-635): the device loop, then `return DetectDisplayModes(...)`. -/
def RHI_Device.SelectPrimaryPhysicalDevice (m_physical_devices : List PhysicalDevice)
    (s : RHI_Device_selection) : Bool × RHI_Device_selection :=
  let s1 := SelectPrimaryPhysicalDevice_loop m_physical_devices 0 s
  (RHI_Device.DetectDisplayModes, s1)

/-- The two assertions of the constructor of `RHI_Device` on physical devices
(`Vulkan_Device.cpp` lines 240-242). `detected` is what
`DetectPhysicalDevices` returns, `m_physical_devices` the list it has filled. -/
def RHI_Device.construct_physical_devices (detected : Bool)
    (m_physical_devices : List PhysicalDevice) (s : RHI_Device_selection) :
    Except (String × RHI_Device_selection) RHI_Device_selection :=
  if !detected then Except.error ("Failed to detect any devices", s)
  else
    match RHI_Device.SelectPrimaryPhysicalDevice m_physical_devices s with
    | (false, s1) => Except.error ("Failed to find a suitable device", s1)
    | (true, s1) => Except.ok s1

/-! ## Formats (`RHI_Definition.h`) -/

/-- `enum RHI_Format` (`RHI_Definition.h` lines 182-217), in declaration
order. -/
inductive RHI_Format
  | RHI_Format_R8_Unorm
  | RHI_Format_R8_Uint
  | RHI_Format_R16_Unorm
  | RHI_Format_R16_Uint
  | RHI_Format_R16_Float
  | RHI_Format_R32_Uint
  | RHI_Format_R32_Float
  | RHI_Format_R8G8_Unorm
  | RHI_Format_R16G16_Float
  | RHI_Format_R32G32_Float
  | RHI_Format_R11G11B10_Float
  | RHI_Format_R32G32B32_Float
  | RHI_Format_R8G8B8A8_Unorm
  | RHI_Format_R10G10B10A2_Unorm
  | RHI_Format_R16G16B16A16_Unorm
  | RHI_Format_R16G16B16A16_Snorm
  | RHI_Format_R16G16B16A16_Float
  | RHI_Format_R32G32B32A32_Float
  | RHI_Format_D16_Unorm
  | RHI_Format_D32_Float
  | RHI_Format_D32_Float_S8X24_Uint
  | RHI_Format_BC7
  | RHI_Format_ASTC
  | RHI_Format_B8R8G8A8_Unorm
  | RHI_Format_Undefined
  deriving DecidableEq, Repr

/-- Every enumerator of `RHI_Format`, in declaration order. -/
def RHI_Format.all : List RHI_Format :=
  [ RHI_Format_R8_Unorm, RHI_Format_R8_Uint, RHI_Format_R16_Unorm, RHI_Format_R16_Uint,
    RHI_Format_R16_Float, RHI_Format_R32_Uint, RHI_Format_R32_Float, RHI_Format_R8G8_Unorm,
    RHI_Format_R16G16_Float, RHI_Format_R32G32_Float, RHI_Format_R11G11B10_Float,
    RHI_Format_R32G32B32_Float, RHI_Format_R8G8B8A8_Unorm, RHI_Format_R10G10B10A2_Unorm,
    RHI_Format_R16G16B16A16_Unorm, RHI_Format_R16G16B16A16_Snorm,
    RHI_Format_R16G16B16A16_Float, RHI_Format_R32G32B32A32_Float, RHI_Format_D16_Unorm,
    RHI_Format_D32_Float, RHI_Format_D32_Float_S8X24_Uint, RHI_Format_BC7, RHI_Format_ASTC,
    RHI_Format_B8R8G8A8_Unorm, RHI_Format_Undefined ]

/-- The name under which each enumerator is declared in `enum RHI_Format`. -/
def RHI_Format.enumerator_name : RHI_Format → String
  | RHI_Format_R8_Unorm => "RHI_Format_R8_Unorm"
  | RHI_Format_R8_Uint => "RHI_Format_R8_Uint"
  | RHI_Format_R16_Unorm => "RHI_Format_R16_Unorm"
  | RHI_Format_R16_Uint => "RHI_Format_R16_Uint"
  | RHI_Format_R16_Float => "RHI_Format_R16_Float"
  | RHI_Format_R32_Uint => "RHI_Format_R32_Uint"
  | RHI_Format_R32_Float => "RHI_Format_R32_Float"
  | RHI_Format_R8G8_Unorm => "RHI_Format_R8G8_Unorm"
  | RHI_Format_R16G16_Float => "RHI_Format_R16G16_Float"
  | RHI_Format_R32G32_Float => "RHI_Format_R32G32_Float"
  | RHI_Format_R11G11B10_Float => "RHI_Format_R11G11B10_Float"
  | RHI_Format_R32G32B32_Float => "RHI_Format_R32G32B32_Float"
  | RHI_Format_R8G8B8A8_Unorm => "RHI_Format_R8G8B8A8_Unorm"
  | RHI_Format_R10G10B10A2_Unorm => "RHI_Format_R10G10B10A2_Unorm"
  | RHI_Format_R16G16B16A16_Unorm => "RHI_Format_R16G16B16A16_Unorm"
  | RHI_Format_R16G16B16A16_Snorm => "RHI_Format_R16G16B16A16_Snorm"
  | RHI_Format_R16G16B16A16_Float => "RHI_Format_R16G16B16A16_Float"
  | RHI_Format_R32G32B32A32_Float => "RHI_Format_R32G32B32A32_Float"
  | RHI_Format_D16_Unorm => "RHI_Format_D16_Unorm"
  | RHI_Format_D32_Float => "RHI_Format_D32_Float"
  | RHI_Format_D32_Float_S8X24_Uint => "RHI_Format_D32_Float_S8X24_Uint"
  | RHI_Format_BC7 => "RHI_Format_BC7"
  | RHI_Format_ASTC => "RHI_Format_ASTC"
  | RHI_Format_B8R8G8A8_Unorm => "RHI_Format_B8R8G8A8_Unorm"
  | RHI_Format_Undefined => "RHI_Format_Undefined"

/-- `rhi_format_to_string` (`RHI_Definition.h` lines 402-432): the switch has
22 cases; a format without a case falls out of the switch onto
`assert(false && "Unsupported format")`, modelled as the error (where
assertions are compiled out the function returns the empty string there). -/
def rhi_format_to_string (result : RHI_Format) : Except String String :=
  match result with
  | RHI_Format.RHI_Format_R8_Unorm => Except.ok "RHI_Format_R8_Unorm"
  | RHI_Format.RHI_Format_R8_Uint => Except.ok "RHI_Format_R8_Uint"
  | RHI_Format.RHI_Format_R16_Unorm => Except.ok "RHI_Format_R16_Unorm"
  | RHI_Format.RHI_Format_R16_Uint => Except.ok "RHI_Format_R16_Uint"
  | RHI_Format.RHI_Format_R16_Float => Except.ok "RHI_Format_R16_Float"
  | RHI_Format.RHI_Format_R32_Uint => Except.ok "RHI_Format_R32_Uint"
  | RHI_Format.RHI_Format_R32_Float => Except.ok "RHI_Format_R32_Float"
  | RHI_Format.RHI_Format_R8G8_Unorm => Except.ok "RHI_Format_R8G8_Unorm"
  | RHI_Format.RHI_Format_R16G16_Float => Except.ok "RHI_Format_R16G16_Float"
  | RHI_Format.RHI_Format_R32G32_Float => Except.ok "RHI_Format_R32G32_Float"
  | RHI_Format.RHI_Format_R11G11B10_Float => Except.ok "RHI_Format_R11G11B10_Float"
  | RHI_Format.RHI_Format_R32G32B32_Float => Except.ok "RHI_Format_R32G32B32_Float"
  | RHI_Format.RHI_Format_R8G8B8A8_Unorm => Except.ok "RHI_Format_R8G8B8A8_Unorm"
  | RHI_Format.RHI_Format_R10G10B10A2_Unorm => Except.ok "RHI_Format_R10G10B10A2_Unorm"
  | RHI_Format.RHI_Format_R16G16B16A16_Unorm => Except.ok "RHI_Format_R16G16B16A16_Unorm"
  | RHI_Format.RHI_Format_R16G16B16A16_Snorm => Except.ok "RHI_Format_R16G16B16A16_Snorm"
  | RHI_Format.RHI_Format_R16G16B16A16_Float => Except.ok "RHI_Format_R16G16B16A16_Float"
  | RHI_Format.RHI_Format_R32G32B32A32_Float => Except.ok "RHI_Format_R32G32B32A32_Float"
  | RHI_Format.RHI_Format_D32_Float => Except.ok "RHI_Format_D32_Float"
  | RHI_Format.RHI_Format_D32_Float_S8X24_Uint => Except.ok "RHI_Format_D32_Float_S8X24_Uint"
  | RHI_Format.RHI_Format_BC7 => Except.ok "RHI_Format_BC7"
  | RHI_Format.RHI_Format_Undefined => Except.ok "RHI_Format_Undefined"
  | _ => Except.error "Unsupported format"

/-! ## Pipeline state (`RHI_PipelineState.cpp`) -/

/-- `enum class RHI_PrimitiveTopology_Mode` (`RHI_Definition.h` lines 115-120). -/
inductive RHI_PrimitiveTopology_Mode
  | TriangleList
  | LineList
  | Undefined
  deriving DecidableEq, Repr

/-- `rhi_max_render_target_count` (`RHI_Definition.h` line 335). -/
def rhi_max_render_target_count : Nat := 8

/-- Modelled from the spec: `RHI_Shader` is declared in `RHI_Shader.h`, which is
not part of the sources at hand. What `IsValid` uses of a shader: whether it is
compiled. -/
structure RHI_Shader where
  IsCompiled : Bool
  deriving DecidableEq, Repr

/-- Modelled from the spec: `RHI_PipelineState` is declared in
`RHI_PipelineState.h`, which is not part of the sources at hand. The members
`IsValid` reads: pointers are natural numbers (0 is `nullptr`), shader pointers
are optional shaders (`none` is `nullptr`), the array of color targets is
indexed by `Fin rhi_max_render_target_count`. -/
structure RHI_PipelineState where
  shader_compute : Option RHI_Shader
  shader_vertex : Option RHI_Shader
  shader_pixel : Option RHI_Shader
  render_target_color_textures : Fin rhi_max_render_target_count → Nat
  render_target_depth_texture : Nat
  render_target_swapchain : Nat
  rasterizer_state : Nat
  blend_state : Nat
  depth_stencil_state : Nat
  primitive_topology : RHI_PrimitiveTopology_Mode

/-- `RHI_PipelineState::IsValid` (`RHI_PipelineState.cpp` lines 52-89). -/
def RHI_PipelineState.IsValid (p : RHI_PipelineState) : Bool :=
  let has_shader_compute :=
    match p.shader_compute with
    | some shader => shader.IsCompiled
    | none => false
  let has_shader_vertex :=
    match p.shader_vertex with
    | some shader => shader.IsCompiled
    | none => false
  let has_shader_pixel :=
    match p.shader_pixel with
    | some shader => shader.IsCompiled
    | none => false
  let has_render_target :=
    decide (p.render_target_color_textures ⟨0, by decide⟩ ≠ 0) ||
      decide (p.render_target_depth_texture ≠ 0)
  let has_backbuffer := decide (p.render_target_swapchain ≠ 0)
  let has_graphics_states :=
    decide (p.rasterizer_state ≠ 0) && decide (p.blend_state ≠ 0) &&
      decide (p.depth_stencil_state ≠ 0) &&
      decide (p.primitive_topology ≠ RHI_PrimitiveTopology_Mode.Undefined)
  let is_graphics_pso := (has_shader_vertex || has_shader_pixel) && !has_shader_compute
  -- There must be at least one shader
  if !has_shader_compute && !has_shader_vertex && !has_shader_pixel then false
  -- If this is a graphics pso then there must be graphics states
  else if is_graphics_pso && !has_graphics_states then false
  -- If this is a graphics pso then there must be a render target
  else if is_graphics_pso && !has_render_target && !has_backbuffer then
    if !has_render_target && !has_backbuffer then false
    else if has_render_target && has_backbuffer then false
    else true
  else true

/-! ## Structured buffers (`Vulkan_StructuredBuffer.cpp`) -/

/-- The constructor of `RHI_StructuredBuffer` (`Vulkan_StructuredBuffer.cpp`
lines 34-59). `min_alignment` is what `GetMinStorageBufferOffsetAllignment`
returns, `m_mapped_data` what `get_mapped_data_from_buffer` returns for the
buffer just created, `address` the address of the object under construction.
The alignment is computed in `size_t` (64 bits), with `~x` as `2^64 - 1 - x`.
Modelled from the spec: `RHI_StructuredBuffer.h` is not part of the sources at
hand; as in `RHI_ConstantBuffer.h` the members `m_stride`, `m_offset` and
`m_element_count` are taken to be `uint32_t` with `m_offset = 0` and
`m_reset_offset = true` as in-class initialisers. -/
def RHI_StructuredBuffer.construct (address stride element_count min_alignment
    m_mapped_data : Nat) : RHI_StructuredBuffer :=
  let m_stride := stride
  let m_element_count := element_count
  let m_stride :=
    if min_alignment > 0 then
      ((m_stride + min_alignment - 1) % UINT64_SIZE
        &&& (UINT64_SIZE - 1 - (min_alignment - 1))) % UINT32_SIZE
    else m_stride
  { address := address,
    m_stride := m_stride,
    m_offset := 0,
    m_element_count := m_element_count,
    m_object_size_gpu := m_stride * m_element_count % UINT32_SIZE,
    m_reset_offset := true,
    m_mapped_data := m_mapped_data }

/-- `RHI_StructuredBuffer::Update` (`Vulkan_StructuredBuffer.cpp` lines 71-88).
The three assertions come first, then the offset advances (or is reset), then
`memcpy` and `FlushAllocation` run on the `m_stride` bytes that start at
`m_offset` of the returned buffer. -/
def RHI_StructuredBuffer.Update (b : RHI_StructuredBuffer) (data_cpu : Nat) :
    Except (String × RHI_StructuredBuffer) RHI_StructuredBuffer :=
  if data_cpu = 0 then Except.error ("Invalid update data", b)
  else if b.m_mapped_data = 0 then Except.error ("Invalid mapped data", b)
  else if ¬ ((b.m_offset + b.m_stride) % UINT32_SIZE ≤ b.m_object_size_gpu) then
    Except.error ("Out of memory", b)
  else
    -- Advance offset
    let b1 := { b with m_offset := (b.m_offset + b.m_stride) % UINT32_SIZE }
    let b2 := if b1.m_reset_offset then { b1 with m_offset := 0, m_reset_offset := false } else b1
    Except.ok b2

/-- The byte range `[first, last)` of the mapped buffer that the `memcpy` and the
flush of the `Update` call that returned `b` have covered. -/
def RHI_StructuredBuffer.copied_range (b : RHI_StructuredBuffer) : Nat × Nat :=
  (b.m_offset, b.m_offset + b.m_stride)

/-- A sequence of `Update` calls, one for each pointer of the list, stopping at
the first call that fails an assertion. -/
def RHI_StructuredBuffer.Updates :
    List Nat → RHI_StructuredBuffer → Except (String × RHI_StructuredBuffer) RHI_StructuredBuffer
  | [], b => Except.ok b
  | data_cpu :: rest, b =>
    match b.Update data_cpu with
    | Except.error e => Except.error e
    | Except.ok b1 => RHI_StructuredBuffer.Updates rest b1

/-! ## The allocation table (`Vulkan_Device.cpp`) -/

/-- `VK_MEMORY_PROPERTY_HOST_VISIBLE_BIT` of the Vulkan headers. -/
def VK_MEMORY_PROPERTY_HOST_VISIBLE_BIT : Nat := 0x2

/-- `VK_MEMORY_PROPERTY_HOST_CACHED_BIT` of the Vulkan headers. -/
def VK_MEMORY_PROPERTY_HOST_CACHED_BIT : Nat := 0x8

/-- `VK_BUFFER_USAGE_TRANSFER_SRC_BIT` of the Vulkan headers. -/
def VK_BUFFER_USAGE_TRANSFER_SRC_BIT : Nat := 0x1

/-- `VK_BUFFER_USAGE_TRANSFER_DST_BIT` of the Vulkan headers. -/
def VK_BUFFER_USAGE_TRANSFER_DST_BIT : Nat := 0x2

/-- `VK_BUFFER_USAGE_UNIFORM_BUFFER_BIT` of the Vulkan headers. -/
def VK_BUFFER_USAGE_UNIFORM_BUFFER_BIT : Nat := 0x10

/-- `VK_BUFFER_USAGE_STORAGE_BUFFER_BIT` of the Vulkan headers. -/
def VK_BUFFER_USAGE_STORAGE_BUFFER_BIT : Nat := 0x20

/-- `VK_BUFFER_USAGE_INDEX_BUFFER_BIT` of the Vulkan headers. -/
def VK_BUFFER_USAGE_INDEX_BUFFER_BIT : Nat := 0x40

/-- `VK_BUFFER_USAGE_VERTEX_BUFFER_BIT` of the Vulkan headers. -/
def VK_BUFFER_USAGE_VERTEX_BUFFER_BIT : Nat := 0x80

/-- `VMA_ALLOCATION_CREATE_MAPPED_BIT` of the allocator's header. -/
def VMA_ALLOCATION_CREATE_MAPPED_BIT : Nat := 0x4

/-- `VMA_ALLOCATION_CREATE_HOST_ACCESS_SEQUENTIAL_WRITE_BIT` of the allocator's
header. -/
def VMA_ALLOCATION_CREATE_HOST_ACCESS_SEQUENTIAL_WRITE_BIT : Nat := 0x400

/-- `VMA_ALLOCATION_CREATE_HOST_ACCESS_RANDOM_BIT` of the allocator's header. -/
def VMA_ALLOCATION_CREATE_HOST_ACCESS_RANDOM_BIT : Nat := 0x800

/-- `m.erase(key)` on a `std::unordered_map`: drop the entry under `key`. -/
def map_erase {α : Type} : List (Nat × α) → Nat → List (Nat × α)
  | [], _ => []
  | (k, v) :: rest, key => if k = key then map_erase rest key else (k, v) :: map_erase rest key

/-- The assertion message of
`SP_ASSERT(is_mappable && "Can't map, ...")` in `CreateBuffer`. -/
def not_mappable_message : String :=
  "Can\x27t map, you need to create a buffer, with a VK_MEMORY_PROPERTY_HOST_VISIBLE_BIT memory flag."

/-- The value of `allocation_create_info.flags` that `CreateBuffer` passes to
`vmaCreateBuffer` (`Vulkan_Device.cpp` lines 822-858). -/
def CreateBuffer_allocation_flags (usage memory_property_flags : Nat) : Nat :=
  let is_buffer_storage := decide (usage &&& VK_BUFFER_USAGE_STORAGE_BUFFER_BIT ≠ 0)
  let is_buffer_constant := decide (usage &&& VK_BUFFER_USAGE_UNIFORM_BUFFER_BIT ≠ 0)
  let is_buffer_index := decide (usage &&& VK_BUFFER_USAGE_INDEX_BUFFER_BIT ≠ 0)
  let is_buffer_vertex := decide (usage &&& VK_BUFFER_USAGE_VERTEX_BUFFER_BIT ≠ 0)
  let is_buffer_staging := decide (usage &&& VK_BUFFER_USAGE_TRANSFER_SRC_BIT ≠ 0)
  let is_mappable := decide (memory_property_flags &&& VK_MEMORY_PROPERTY_HOST_VISIBLE_BIT ≠ 0)
  let is_transfer_source := decide (usage &&& VK_BUFFER_USAGE_TRANSFER_SRC_BIT ≠ 0)
  let is_transfer_destination := decide (usage &&& VK_BUFFER_USAGE_TRANSFER_DST_BIT ≠ 0)
  let is_transfer_buffer := is_transfer_source || is_transfer_destination
  let map_on_creation :=
    is_buffer_storage || is_buffer_constant || is_buffer_index || is_buffer_vertex
  let flags := 0
  if is_buffer_staging then flags ||| VMA_ALLOCATION_CREATE_HOST_ACCESS_RANDOM_BIT
  else
    let flags :=
      flags ||| (if is_mappable then VMA_ALLOCATION_CREATE_HOST_ACCESS_SEQUENTIAL_WRITE_BIT else 0)
    let flags :=
      flags ||| (if map_on_creation && !is_transfer_buffer then VMA_ALLOCATION_CREATE_MAPPED_BIT
        else 0)
    flags ||| (if is_buffer_constant || is_buffer_storage then VK_MEMORY_PROPERTY_HOST_CACHED_BIT
      else 0)

/-- `RHI_Device::CreateBuffer` (`Vulkan_Device.cpp` lines 820-895) on the
allocation table `m_allocations` (resource handle to allocation). The allocator
is a parameter: `vmaCreateBuffer size usage requiredFlags flags` is
`some (buffer, allocation)` when the call returns `VK_SUCCESS` and writes these
two handles, `none` otherwise; `vmaMapMemory` and `vmaFlushAllocation` tell
whether these calls return `VK_SUCCESS`. `data_initial` is a pointer (0 is
`nullptr`). The result is the value of the reference `resource` and the table
after the call; an error carries them as they are when the assertion fails. -/
def RHI_Device.CreateBuffer (m_allocations : List (Nat × Nat)) (resource : Nat)
    (size usage memory_property_flags data_initial : Nat)
    (vmaCreateBuffer : Nat → Nat → Nat → Nat → Option (Nat × Nat))
    (vmaMapMemory vmaFlushAllocation : Bool) :
    Except (String × Nat × List (Nat × Nat)) (Nat × List (Nat × Nat)) :=
  let is_mappable := decide (memory_property_flags &&& VK_MEMORY_PROPERTY_HOST_VISIBLE_BIT ≠ 0)
  -- Create the buffer
  match vmaCreateBuffer size usage memory_property_flags
      (CreateBuffer_allocation_flags usage memory_property_flags) with
  | none => Except.error ("Failed to created buffer", resource, m_allocations)
  | some (buffer, allocation) =>
    let resource := buffer
    -- If a pointer to the buffer data has been passed, map the buffer and copy over the data
    if data_initial ≠ 0 then
      if !is_mappable then Except.error (not_mappable_message, resource, m_allocations)
      else if !vmaMapMemory then
        Except.error ("Failed to map allocation", resource, m_allocations)
      else if !vmaFlushAllocation then
        Except.error ("Failed to flush allocation", resource, m_allocations)
      else
        -- Keep allocation reference
        Except.ok (resource, map_assign m_allocations resource allocation)
    else
      -- Keep allocation reference
      Except.ok (resource, map_assign m_allocations resource allocation)

/-- `RHI_Device::DestroyBuffer` (`Vulkan_Device.cpp` lines 897-911): the value of
the reference `resource` and the table after the call. A non-null handle that
has no entry makes `get_allocation_from_resource` dereference the end
iterator, which is undefined: `none`. -/
def RHI_Device.DestroyBuffer (m_allocations : List (Nat × Nat)) (resource : Nat) :
    Option (Nat × List (Nat × Nat)) :=
  if resource = 0 then some (resource, m_allocations)
  else
    match map_find m_allocations resource with
    | none => none
    | some allocation =>
      if allocation ≠ 0 then some (0, map_erase m_allocations resource)
      else some (resource, m_allocations)

/-- `RHI_Device::CreateTexture` (`Vulkan_Device.cpp` lines 913-931).
`vmaCreateImage` is `some (image, allocation)` when the allocator call returns
`VK_SUCCESS` and writes these two handles, `none` otherwise. -/
def RHI_Device.CreateTexture (m_allocations : List (Nat × Nat)) (resource : Nat)
    (vmaCreateImage : Option (Nat × Nat)) :
    Except (String × Nat × List (Nat × Nat)) (Nat × List (Nat × Nat)) :=
  match vmaCreateImage with
  | none => Except.error ("Failed to allocate texture", resource, m_allocations)
  | some (image, allocation) =>
    let resource := image
    -- Keep allocation reference
    Except.ok (resource, map_assign m_allocations resource allocation)

/-- `RHI_Device::DestroyTexture` (`Vulkan_Device.cpp` lines 933-946): as
`DestroyBuffer`, except that a null handle fails an assertion. -/
def RHI_Device.DestroyTexture (m_allocations : List (Nat × Nat)) (resource : Nat) :
    Option (Except (String × Nat × List (Nat × Nat)) (Nat × List (Nat × Nat))) :=
  if resource = 0 then some (Except.error ("Resource is null", resource, m_allocations))
  else
    match map_find m_allocations resource with
    | none => none
    | some allocation =>
      if allocation ≠ 0 then some (Except.ok (0, map_erase m_allocations resource))
      else some (Except.ok (resource, m_allocations))

/-- The allocator part of the destructor of `RHI_Device` (`Vulkan_Device.cpp`
lines 462-469): with an allocator, the table has to be empty. -/
def RHI_Device.destruct_allocator (m_allocator : Nat) (m_allocations : List (Nat × Nat)) :
    Except String Unit :=
  if m_allocator ≠ 0 then
    if m_allocations.isEmpty then Except.ok () else Except.error "There are still allocations"
  else Except.ok ()

/-- One call on the allocation table. The create calls are those for which the
allocator calls succeed: `vmaCreateBuffer` or `vmaCreateImage` writes the given
buffer or image handle and allocation, and `vmaMapMemory` and
`vmaFlushAllocation`, when `CreateBuffer` reaches them, return `VK_SUCCESS`. -/
inductive Allocation_call
  | CreateBuffer (size usage memory_property_flags data_initial buffer allocation : Nat)
  | DestroyBuffer (resource : Nat)
  | CreateTexture (image allocation : Nat)
  | DestroyTexture (resource : Nat)
  deriving DecidableEq, Repr

/-- The table after one call; `none` is undefined behaviour, an error a failed
assertion. -/
def RHI_Device.allocation_call (m_allocations : List (Nat × Nat)) :
    Allocation_call → Option (Except (String × Nat × List (Nat × Nat)) (List (Nat × Nat)))
  | Allocation_call.CreateBuffer size usage memory_property_flags data_initial buffer
      allocation =>
    match RHI_Device.CreateBuffer m_allocations 0 size usage memory_property_flags data_initial
        (fun _ _ _ _ => some (buffer, allocation)) true true with
    | Except.error e => some (Except.error e)
    | Except.ok (_, table) => some (Except.ok table)
  | Allocation_call.DestroyBuffer resource =>
    match RHI_Device.DestroyBuffer m_allocations resource with
    | none => none
    | some (_, table) => some (Except.ok table)
  | Allocation_call.CreateTexture image allocation =>
    match RHI_Device.CreateTexture m_allocations 0 (some (image, allocation)) with
    | Except.error e => some (Except.error e)
    | Except.ok (_, table) => some (Except.ok table)
  | Allocation_call.DestroyTexture resource =>
    match RHI_Device.DestroyTexture m_allocations resource with
    | none => none
    | some (Except.error e) => some (Except.error e)
    | some (Except.ok (_, table)) => some (Except.ok table)

/-- A sequence of calls on the allocation table, stopping at the first that is
undefined or fails an assertion. -/
def RHI_Device.allocation_calls :
    List Allocation_call → List (Nat × Nat) →
      Option (Except (String × Nat × List (Nat × Nat)) (List (Nat × Nat)))
  | [], m_allocations => some (Except.ok m_allocations)
  | c :: rest, m_allocations =>
    match RHI_Device.allocation_call m_allocations c with
    | some (Except.ok table) => RHI_Device.allocation_calls rest table
    | other => other

/-! ## Entities (`Entity.cpp`) -/

/-- Modelled from the spec: `enum class ComponentType` is declared in
`IComponent.h`, which is not part of the sources at hand. Its enumerators are
those the switch of `Entity::AddComponent` names, taken in that order, with
`Undefined` last. -/
inductive ComponentType
  | AudioListener
  | AudioSource
  | Camera
  | Collider
  | Constraint
  | Light
  | Renderable
  | RigidBody
  | SoftBody
  | Environment
  | Transform
  | Terrain
  | ReflectionProbe
  | Undefined
  deriving DecidableEq, Repr

/-- The cast `static_cast<uint32_t>(type)`: the position of the enumerator. -/
def ComponentType.to_uint32 : ComponentType → Nat
  | AudioListener => 0
  | AudioSource => 1
  | Camera => 2
  | Collider => 3
  | Constraint => 4
  | Light => 5
  | Renderable => 6
  | RigidBody => 7
  | SoftBody => 8
  | Environment => 9
  | Transform => 10
  | Terrain => 11
  | ReflectionProbe => 12
  | Undefined => 13

/-- The cast `static_cast<ComponentType>(value)`: the enumerator with that
value, `none` for a value that belongs to no enumerator. -/
def ComponentType.of_uint32 : Nat → Option ComponentType
  | 0 => some AudioListener
  | 1 => some AudioSource
  | 2 => some Camera
  | 3 => some Collider
  | 4 => some Constraint
  | 5 => some Light
  | 6 => some Renderable
  | 7 => some RigidBody
  | 8 => some SoftBody
  | 9 => some Environment
  | 10 => some Transform
  | 11 => some Terrain
  | 12 => some ReflectionProbe
  | 13 => some Undefined
  | _ => none

/-- Modelled from the spec: `IComponent` is declared in `IComponent.h`, which is
not part of the sources at hand. What serialization uses of a component: its
type (`GetType`) and its object id (`GetObjectId`). -/
structure IComponent where
  m_type : ComponentType
  m_object_id : Nat
  deriving DecidableEq, Repr

/-- The component slots of an `Entity`, the array `m_components`; `none` is a
null pointer. -/
structure Entity where
  m_components : List (Option IComponent)
  deriving DecidableEq, Repr

/-- The `count` bytes of the object representation of an unsigned integer, lowest
byte first. -/
def le_bytes : Nat → Nat → List Nat
  | 0, _ => []
  | count + 1, value => value % 256 :: le_bytes count (value / 256)

/-- The unsigned integer whose object representation the bytes are, lowest byte
first. -/
def le_value : List Nat → Nat
  | [] => 0
  | byte :: rest => byte + 256 * le_value rest

/-- Modelled from the spec: `FileStream` is declared in `IO/FileStream.h`, which
is not part of the sources at hand. A stream is the list of the bytes that are
written, or that remain to be read; `Write` of a `uint32_t` appends the 4 bytes
of its object representation. -/
def FileStream.Write_uint32 (stream : List Nat) (value : Nat) : List Nat :=
  stream ++ le_bytes 4 value

/-- Modelled from the spec: `FileStream::Write` of a `uint64_t` appends the 8
bytes of its object representation. -/
def FileStream.Write_uint64 (stream : List Nat) (value : Nat) : List Nat :=
  stream ++ le_bytes 8 value

/-- Modelled from the spec: `FileStream::Read` of a `uint32_t` takes 4 bytes from
the stream: the value read and the bytes that remain. Reading past the end of
the stream is not modelled: `none`. -/
def FileStream.Read_uint32 (stream : List Nat) : Option (Nat × List Nat) :=
  if stream.length < 4 then none else some (le_value (stream.take 4), stream.drop 4)

/-- Modelled from the spec: `FileStream::Read` of a `uint64_t` takes 8 bytes from
the stream. Reading past the end of the stream is not modelled: `none`. -/
def FileStream.Read_uint64 (stream : List Nat) : Option (Nat × List Nat) :=
  if stream.length < 8 then none else some (le_value (stream.take 8), stream.drop 8)

/-- Modelled from the spec: the template `Entity::AddComponent<T>(id)` is
declared in `Entity.h`, which is not part of the sources at hand. The entity
holds at most one component of each type, in the slot of the type: the call
returns the component the slot holds, after putting a new component with the
given id there when the slot is empty. -/
def Entity.AddComponent_T (e : Entity) (type : ComponentType) (id : Nat) : Entity × IComponent :=
  match e.m_components[type.to_uint32]? with
  | some (some component) => (e, component)
  | _ =>
    let component : IComponent := { m_type := type, m_object_id := id }
    ({ m_components := e.m_components.set type.to_uint32 (some component) }, component)

/-- `Entity::AddComponent(type, id)` (`Entity.cpp` lines 291-320): the switch
over the component type, then `SP_ASSERT(component != nullptr)`. `none` is a
value of the type that belongs to no enumerator (the `default` case). -/
def Entity.AddComponent (e : Entity) (type : Option ComponentType) (id : Nat) :
    Except (String × Entity) (Entity × IComponent) :=
  let component : Option (Entity × IComponent) :=
    match type with
    | some ComponentType.AudioListener => some (e.AddComponent_T ComponentType.AudioListener id)
    | some ComponentType.AudioSource => some (e.AddComponent_T ComponentType.AudioSource id)
    | some ComponentType.Camera => some (e.AddComponent_T ComponentType.Camera id)
    | some ComponentType.Collider => some (e.AddComponent_T ComponentType.Collider id)
    | some ComponentType.Constraint => some (e.AddComponent_T ComponentType.Constraint id)
    | some ComponentType.Light => some (e.AddComponent_T ComponentType.Light id)
    | some ComponentType.Renderable => some (e.AddComponent_T ComponentType.Renderable id)
    | some ComponentType.RigidBody => some (e.AddComponent_T ComponentType.RigidBody id)
    | some ComponentType.SoftBody => some (e.AddComponent_T ComponentType.SoftBody id)
    | some ComponentType.Environment => some (e.AddComponent_T ComponentType.Environment id)
    | some ComponentType.Transform => some (e.AddComponent_T ComponentType.Transform id)
    | some ComponentType.Terrain => some (e.AddComponent_T ComponentType.Terrain id)
    | some ComponentType.ReflectionProbe =>
      some (e.AddComponent_T ComponentType.ReflectionProbe id)
    | some ComponentType.Undefined => none
    | none => none
  match component with
  | none => Except.error ("component != nullptr", e)
  | some r => Except.ok r

/-- The number of slots of the array `m_components`. Modelled from the spec:
`Entity.h` is not part of the sources at hand; there is one slot for each
component type other than `Undefined`. -/
def Entity.component_slots : Nat := 13

/-- The component part of the constructor of `Entity` (`Entity.cpp` lines
48-57): every slot is nulled, then the transform is added. -/
def Entity.construct (transform_id : Nat) : Entity :=
  let e : Entity := { m_components := List.replicate Entity.component_slots none }
  (e.AddComponent_T ComponentType.Transform transform_id).1

/-- The first loop of the COMPONENTS block of `Entity::Serialize` (`Entity.cpp`
lines 165-177) over the given slots: type and id of a component, the type
`Undefined` alone for a null slot. -/
def Serialize_components_loop : List (Option IComponent) → List Nat → List Nat
  | [], stream => stream
  | some component :: rest, stream =>
    let stream := FileStream.Write_uint32 stream component.m_type.to_uint32
    let stream := FileStream.Write_uint64 stream component.m_object_id
    Serialize_components_loop rest stream
  | none :: rest, stream =>
    let stream := FileStream.Write_uint32 stream ComponentType.Undefined.to_uint32
    Serialize_components_loop rest stream

/-- What `Entity::Serialize` writes on the types and ids of the components. -/
def Entity.Serialize_components (e : Entity) (stream : List Nat) : List Nat :=
  Serialize_components_loop e.m_components stream

/-- The first loop of the COMPONENTS block of `Entity::Deserialize` (`Entity.cpp`
lines 224-238), for the given number of remaining iterations: the entity and
the bytes that remain. An error is the failed assertion of `AddComponent`. -/
def Deserialize_components_loop :
    Nat → Entity → List Nat → Option (Except (String × Entity) (Entity × List Nat))
  | 0, e, stream => some (Except.ok (e, stream))
  | n + 1, e, stream =>
    -- Type
    match FileStream.Read_uint32 stream with
    | none => none
    | some (component_type, stream) =>
      if component_type = ComponentType.Undefined.to_uint32 then
        -- Id
        match FileStream.Read_uint64 stream with
        | none => none
        | some (component_id, stream) =>
          match e.AddComponent (ComponentType.of_uint32 component_type) component_id with
          | Except.error err => some (Except.error err)
          | Except.ok (e1, _) => Deserialize_components_loop n e1 stream
      else Deserialize_components_loop n e stream

/-- What `Entity::Deserialize` does on the types and ids of the components: one
iteration for each slot of `m_components`. -/
def Entity.Deserialize_components (e : Entity) (stream : List Nat) :
    Option (Except (String × Entity) (Entity × List Nat)) :=
  Deserialize_components_loop e.m_components.length e stream

/-! ## The resource cache (`ResourceCache.h`) -/

/-- Modelled from the spec: `IResource` is declared in `IResource.h`, which is
not part of the sources at hand. What `ResourceCache::Remove` uses of a
resource: its object id, its name and its type (the value of the
`ResourceType` enumerator). -/
structure IResource where
  m_object_id : Nat
  m_resource_name : String
  m_resource_type : Nat
  deriving DecidableEq, Repr

/-- Modelled from the spec: `ResourceCache::IsCached(name, type)` is declared in
`ResourceCache.h` (line 189) but its body is not part of the sources at hand;
it tells whether the cache holds a resource of that name and type. -/
def ResourceCache.IsCached (m_resources : List IResource) (resource_name : String)
    (resource_type : Nat) : Bool :=
  m_resources.any
    (fun resource =>
      decide (resource.m_resource_name = resource_name) &&
        decide (resource.m_resource_type = resource_type))

/-- The idiom `v.erase(std::remove_if(v.begin(), v.end(), pred), v.end())`: the
elements for which the predicate is false, in their order. -/
def erase_remove_if {α : Type} (pred : α → Bool) (v : List α) : List α :=
  v.filter (fun x => !pred x)

/-- `ResourceCache::Remove` (`ResourceCache.h` lines 147-166): the cache after
the call. `IsCached` is the answer of the member function of that name on the
cache; `resource` is the shared pointer passed (`none` is null). The lambda
given to `remove_if` captures nothing and names its parameter `resource` too:
both sides of its comparison read the cache entry. -/
def ResourceCache.Remove (IsCached : String → Nat → Bool) (m_resources : List IResource)
    (resource : Option IResource) : List IResource :=
  match resource with
  | none => m_resources
  | some resource =>
    if !IsCached resource.m_resource_name resource.m_resource_type then m_resources
    else
      erase_remove_if
        (fun resource => decide (resource.m_object_id = resource.m_object_id))
        m_resources

/-! ## States used in the statements below -/

/-- The lists of a pool are stored pool-major: the list at position `i` is built
on backing pool `i / m_cmd_list_count`. `AllocateCommandLists` on an empty pool
establishes this and `Step` keeps it. -/
def RHI_CommandPool.PoolMajor (s : RHI_CommandPool) : Prop :=
  ∀ i, i < s.m_cmd_lists.length →
    (s.m_cmd_lists[i]?).map RHI_CommandList.cmd_pool = some (i / s.m_cmd_list_count)

instance (s : RHI_CommandPool) : Decidable s.PoolMajor := by
  unfold RHI_CommandPool.PoolMajor
  infer_instance

/-- The command list `AllocateCommandLists` builds for the pair
`(index_cmd_pool, index_cmd_list)` of a pool called `m_name`. -/
def allocated_list (queue_type : RHI_Queue_Type) (m_name : String)
    (index_cmd_pool index_cmd_list : Nat) : RHI_CommandList :=
  { queue_type := queue_type
    index := index_cmd_list
    cmd_pool := index_cmd_pool
    name := cmd_list_name m_name index_cmd_pool index_cmd_list
    state := RHI_CommandListState.Idle }

/-- What `AllocateCommandLists(Graphics, 2, 2)` leaves in a pool constructed with
the name "cmd": four lists and four backing pools. -/
def pool_2x2 : RHI_CommandPool :=
  { m_name := "cmd"
    m_cmd_lists :=
      [allocated_list RHI_Queue_Type.Graphics "cmd" 0 0,
       allocated_list RHI_Queue_Type.Graphics "cmd" 0 1,
       allocated_list RHI_Queue_Type.Graphics "cmd" 1 0,
       allocated_list RHI_Queue_Type.Graphics "cmd" 1 1]
    m_rhi_resources := List.replicate 4 RHI_Queue_Type.Graphics
    m_cmd_list_count := 2
    m_cmd_pool_count := 2
    m_cmd_list_index := 0
    m_cmd_pool_index := 0
    m_first_step := true }

/-- The pool `pool_2x2` after the priming call to `Step`, with every list
submitted to the GPU. -/
def pool_2x2_submitted : RHI_CommandPool :=
  { pool_2x2 with
    m_cmd_lists := pool_2x2.m_cmd_lists.map
      (fun cl => { cl with state := RHI_CommandListState.Submitted })
    m_first_step := false }

/-- The pool `pool_2x2_submitted` after one more call to `Step`: the two lists of
backing pool 0 have been waited on, the two lists of backing pool 1 are still
Submitted. -/
def pool_2x2_waited : RHI_CommandPool :=
  { pool_2x2_submitted with
    m_cmd_lists :=
      [allocated_list RHI_Queue_Type.Graphics "cmd" 0 0,
       allocated_list RHI_Queue_Type.Graphics "cmd" 0 1,
       { allocated_list RHI_Queue_Type.Graphics "cmd" 1 0 with
         state := RHI_CommandListState.Submitted },
       { allocated_list RHI_Queue_Type.Graphics "cmd" 1 1 with
         state := RHI_CommandListState.Submitted }] }

/-- A constant-buffer slot bound to a buffer at address 49122527254680 with
range 575778. -/
def descriptor_a : RHI_Descriptor :=
  { type := RHI_Descriptor_Type.ConstantBuffer, slot := 100, data := 49122527254680,
    dynamic_offset := 0, range := 575778, mip := 0, mip_range := 0,
    layout := RHI_Image_Layout.Undefined }

/-- The same slot bound to another buffer, at address 49122527254672 with range
693086. -/
def descriptor_b : RHI_Descriptor :=
  { descriptor_a with data := 49122527254672, range := 693086 }

/-- The same slot bound to a buffer at address 101918376074224 with range
417843. -/
def descriptor_c : RHI_Descriptor :=
  { descriptor_a with data := 101918376074224, range := 417843 }

/-- The same slot bound to a buffer at address 19264307449112 with range
656102. -/
def descriptor_d : RHI_Descriptor :=
  { descriptor_a with data := 19264307449112, range := 656102 }

/-- A one-slot layout in the binding state given by `descriptor`; the flag
`needs_to_bind` is set after a setter call that changed the slot. -/
def layout_bound (descriptor : RHI_Descriptor) (needs_to_bind : Bool) :
    RHI_DescriptorSetLayout :=
  { m_name := "layout", m_descriptors := [descriptor], m_hash := 0,
    m_needs_to_bind := needs_to_bind }

/-- A device with an empty descriptor-set cache and the given pool capacity. -/
def device_empty (capacity : Nat) : RHI_Device :=
  { m_descriptor_sets := []
    m_descriptor_set_capacity := capacity
    profiler := some { m_descriptor_set_count := 0, m_descriptor_set_capacity := capacity } }

/-- The device `device_empty capacity` after `GetDescriptorSet` created the set
for the layout `layout_bound descriptor_a`, hashing with `std_hash_identity`. -/
def device_one (capacity : Nat) : RHI_Device :=
  { m_descriptor_sets :=
      [(12936306609644674506, { m_name := "layout", m_descriptors := [descriptor_a] })]
    m_descriptor_set_capacity := capacity
    profiler := some { m_descriptor_set_count := 1, m_descriptor_set_capacity := capacity } }

/-- The device `device_one capacity` after `GetDescriptorSet` also created the set
for the layout `layout_bound descriptor_c`, hashing with `std_hash_identity`. -/
def device_two (capacity : Nat) : RHI_Device :=
  { m_descriptor_sets :=
      [(12936306609644674506, { m_name := "layout", m_descriptors := [descriptor_a] }),
       (9079034125288959413, { m_name := "layout", m_descriptors := [descriptor_c] })]
    m_descriptor_set_capacity := capacity
    profiler := some { m_descriptor_set_count := 2, m_descriptor_set_capacity := capacity } }

/-- An unbound descriptor of the given type at the given slot. -/
def descriptor_unbound (type : RHI_Descriptor_Type) (slot : Nat) : RHI_Descriptor :=
  { type := type, slot := slot, data := 0, dynamic_offset := 0, range := 0, mip := 0,
    mip_range := 0, layout := RHI_Image_Layout.Undefined }

/-- A layout with one slot of each type: a sampler (s0), a sampled texture (t0),
a storage texture (u0), a constant buffer (b0) and a structured buffer (u1),
nothing bound yet. -/
def layout_five : RHI_DescriptorSetLayout :=
  { m_name := "five"
    m_descriptors :=
      [descriptor_unbound RHI_Descriptor_Type.Sampler 300,
       descriptor_unbound RHI_Descriptor_Type.Texture 200,
       descriptor_unbound RHI_Descriptor_Type.TextureStorage 0,
       descriptor_unbound RHI_Descriptor_Type.ConstantBuffer 100,
       descriptor_unbound RHI_Descriptor_Type.StructuredBuffer 1]
    m_hash := 77
    m_needs_to_bind := false }

/-- A constant buffer at address 4096 with stride 256, at offset 512. -/
def constant_buffer_x : RHI_ConstantBuffer :=
  { address := 4096, m_stride := 256, m_offset := 512, m_element_count := 8 }

/-- A structured buffer at address 8192 with stride 64, at offset 128. -/
def structured_buffer_x : RHI_StructuredBuffer :=
  { address := 8192, m_stride := 64, m_offset := 128, m_element_count := 16,
    m_object_size_gpu := 1024, m_reset_offset := false, m_mapped_data := 65536 }

/-- A shader-resource texture at address 12288 whose mips are all in layout
General. -/
def texture_general : RHI_Texture :=
  { address := 12288, GetLayout := fun _ => RHI_Image_Layout.General, IsSrv := true }

/-- A shader-resource texture at address 16384 whose mips are all in layout
Shader_Read_Only_Optimal. -/
def texture_sampled : RHI_Texture :=
  { address := 16384, GetLayout := fun _ => RHI_Image_Layout.Shader_Read_Only_Optimal,
    IsSrv := true }

/-- The layout `layout_five` with `constant_buffer_x` bound to b0, `structured_buffer_x` to
u1, the sampler at address 20480 to s0, `texture_sampled` to t0 and
`texture_general` to u0 (all mips), and `needs_to_bind` cleared as by
`GetDescriptorSet`. -/
def layout_five_bound : RHI_DescriptorSetLayout :=
  { m_name := "five"
    m_descriptors :=
      [{ descriptor_unbound RHI_Descriptor_Type.Sampler 300 with data := 20480 },
       { descriptor_unbound RHI_Descriptor_Type.Texture 200 with
         data := 16384, mip := rhi_all_mips,
         layout := RHI_Image_Layout.Shader_Read_Only_Optimal },
       { descriptor_unbound RHI_Descriptor_Type.TextureStorage 0 with
         data := 12288, mip := rhi_all_mips, layout := RHI_Image_Layout.General },
       { descriptor_unbound RHI_Descriptor_Type.ConstantBuffer 100 with
         data := 4096, dynamic_offset := 512, range := 256 },
       { descriptor_unbound RHI_Descriptor_Type.StructuredBuffer 1 with
         data := 8192, dynamic_offset := 128, range := 64 }]
    m_hash := 77
    m_needs_to_bind := false }

/-- The five setter calls that bind to `layout_five` what `layout_five_bound`
holds. -/
def five_calls : List Setter_call :=
  [Setter_call.SetConstantBuffer 0 constant_buffer_x,
   Setter_call.SetStructuredBuffer 1 structured_buffer_x,
   Setter_call.SetSampler 0 20480,
   Setter_call.SetTexture 0 texture_sampled rhi_all_mips 0,
   Setter_call.SetTexture 0 texture_general rhi_all_mips 0]

/-- The layout `layout_five` after `SetTexture(0, texture_general)`: the storage
texture slot u0 is bound. -/
def layout_five_storage : RHI_DescriptorSetLayout :=
  { layout_five with
    m_descriptors := layout_five.m_descriptors.set 2
      { descriptor_unbound RHI_Descriptor_Type.TextureStorage 0 with
        data := 12288, mip := rhi_all_mips, layout := RHI_Image_Layout.General }
    m_needs_to_bind := true }

/-- The layout `layout_five` after `SetTexture(0, texture_sampled)`: the sampled
texture slot t0 is bound. -/
def layout_five_sampled : RHI_DescriptorSetLayout :=
  { layout_five with
    m_descriptors := layout_five.m_descriptors.set 1
      { descriptor_unbound RHI_Descriptor_Type.Texture 200 with
        data := 16384, mip := rhi_all_mips,
        layout := RHI_Image_Layout.Shader_Read_Only_Optimal }
    m_needs_to_bind := true }

/-- The layout `layout_five_storage` after `SetTexture(0, texture_sampled)`: both
texture slots are bound. -/
def layout_five_both : RHI_DescriptorSetLayout :=
  { layout_five_storage with
    m_descriptors := layout_five_storage.m_descriptors.set 1
      { descriptor_unbound RHI_Descriptor_Type.Texture 200 with
        data := 16384, mip := rhi_all_mips,
        layout := RHI_Image_Layout.Shader_Read_Only_Optimal } }

/-- Five semaphores, the first four Submitted and the fifth Idle, and two fences,
the first Idle and the second Submitted. -/
def sync_five : RHI_SyncObjects :=
  { semaphores :=
      [RHI_Sync_State.Submitted, RHI_Sync_State.Submitted, RHI_Sync_State.Submitted,
       RHI_Sync_State.Submitted, RHI_Sync_State.Idle]
    fences := [RHI_Sync_State.Idle, RHI_Sync_State.Submitted] }

/-- A queue family whose `queueFlags` contain the bit `bit`. -/
def HasQueueBit (bit queueFlags : Nat) : Prop := queueFlags &&& bit ≠ 0

/-- Position `i` holds the lowest-index family of the list with property `p`. -/
def LowestFamily (p : Nat → Prop) (queue_family_properties : List Nat) (i : Nat) : Prop :=
  (∃ f, queue_family_properties[i]? = some f ∧ p f) ∧
    ∀ j g, j < i → queue_family_properties[j]? = some g → ¬ p g

/-- A physical device with a single queue family, which does graphics and
compute and does not report the transfer bit. -/
def device_without_transfer : PhysicalDevice :=
  { data := 1, queue_family_properties := [VK_QUEUE_GRAPHICS_BIT ||| VK_QUEUE_COMPUTE_BIT] }

/-- A graphics pipeline state with a compiled vertex shader, all graphics
states, the swapchain back buffer and color target 0 both set. -/
def pipeline_both_targets : RHI_PipelineState :=
  { shader_compute := none,
    shader_vertex := some { IsCompiled := true },
    shader_pixel := none,
    render_target_color_textures := fun i => if i.val = 0 then 100 else 0,
    render_target_depth_texture := 0,
    render_target_swapchain := 200,
    rasterizer_state := 1,
    blend_state := 2,
    depth_stencil_state := 3,
    primitive_topology := RHI_PrimitiveTopology_Mode.TriangleList }

/-- A physical device that has a graphics, a compute and a transfer queue
family: `get_queue_family_indices` returns true for it. -/
def PhysicalDevice.suitable (device : PhysicalDevice) : Bool :=
  (get_queue_family_indices RHI_Device_selection.initial device.queue_family_properties).1

/-- The handles that are live after a sequence of calls, given those live
before it: a create call adds its handle, a destroy call removes its handle. -/
def Allocation_call.live : List Allocation_call → List Nat → List Nat
  | [], handles => handles
  | Allocation_call.CreateBuffer _ _ _ _ buffer _ :: rest, handles =>
    Allocation_call.live rest (handles ++ [buffer])
  | Allocation_call.CreateTexture image _ :: rest, handles =>
    Allocation_call.live rest (handles ++ [image])
  | Allocation_call.DestroyBuffer resource :: rest, handles =>
    Allocation_call.live rest (handles.filter (fun h => h ≠ resource))
  | Allocation_call.DestroyTexture resource :: rest, handles =>
    Allocation_call.live rest (handles.filter (fun h => h ≠ resource))

/-- The table a sequence of calls is expected to leave: every create call adds
the entry of its handle and allocation, every destroy call removes the entry of
its handle, every other entry stays, in order. -/
def Allocation_call.table_after : List Allocation_call → List (Nat × Nat) → List (Nat × Nat)
  | [], table => table
  | Allocation_call.CreateBuffer _ _ _ _ buffer allocation :: rest, table =>
    Allocation_call.table_after rest (table ++ [(buffer, allocation)])
  | Allocation_call.CreateTexture image allocation :: rest, table =>
    Allocation_call.table_after rest (table ++ [(image, allocation)])
  | Allocation_call.DestroyBuffer resource :: rest, table =>
    Allocation_call.table_after rest (table.filter (fun e => e.1 ≠ resource))
  | Allocation_call.DestroyTexture resource :: rest, table =>
    Allocation_call.table_after rest (table.filter (fun e => e.1 ≠ resource))

/-- A sequence of calls in which every create call gets a non-null handle that
is not live and a non-null allocation from the allocator, a buffer created with
initial data is host-visible, and every destroy call is given a live handle (so
no resource is destroyed twice). -/
def Allocation_call.paired : List Allocation_call → List Nat → Bool
  | [], _ => true
  | Allocation_call.CreateBuffer _ _ memory_property_flags data_initial buffer allocation
      :: rest, handles =>
    decide (buffer ≠ 0) && decide (allocation ≠ 0) && decide (buffer ∉ handles) &&
      decide (data_initial ≠ 0 →
        memory_property_flags &&& VK_MEMORY_PROPERTY_HOST_VISIBLE_BIT ≠ 0) &&
      Allocation_call.paired rest (handles ++ [buffer])
  | Allocation_call.CreateTexture image allocation :: rest, handles =>
    decide (image ≠ 0) && decide (allocation ≠ 0) && decide (image ∉ handles) &&
      Allocation_call.paired rest (handles ++ [image])
  | Allocation_call.DestroyBuffer resource :: rest, handles =>
    decide (resource ∈ handles) &&
      Allocation_call.paired rest (handles.filter (fun h => h ≠ resource))
  | Allocation_call.DestroyTexture resource :: rest, handles =>
    decide (resource ∈ handles) &&
      Allocation_call.paired rest (handles.filter (fun h => h ≠ resource))

/-- A sequence of calls that creates a buffer with initial data, a texture and a
buffer without initial data, and destroys the three. -/
def calls_three_resources : List Allocation_call :=
  [Allocation_call.CreateBuffer 64 VK_BUFFER_USAGE_VERTEX_BUFFER_BIT
      VK_MEMORY_PROPERTY_HOST_VISIBLE_BIT 7000 7 70,
    Allocation_call.CreateTexture 9 90,
    Allocation_call.CreateBuffer 32 VK_BUFFER_USAGE_STORAGE_BUFFER_BIT 1 0 11 110,
    Allocation_call.DestroyBuffer 7,
    Allocation_call.DestroyTexture 9,
    Allocation_call.DestroyBuffer 11]

/-- A structured buffer of two elements of 16 bytes, on a device whose minimum
storage-buffer offset alignment is 16. -/
def structured_buffer_2x16 : RHI_StructuredBuffer :=
  RHI_StructuredBuffer.construct 1000 16 2 16 5000

/-- An entity whose only component is a transform with object id 77. -/
def entity_with_transform : Entity := Entity.construct 77

/-- A cached resource with object id 1. -/
def resource_a : IResource :=
  { m_object_id := 1, m_resource_name := "a", m_resource_type := 2 }

/-- A cached resource with object id 2. -/
def resource_b : IResource :=
  { m_object_id := 2, m_resource_name := "b", m_resource_type := 2 }

end Spartan

/-! # Theorems -/

namespace Spartan
open RHI_CommandListState

/-! ## The wait loop of `Step` -/

theorem waitSubmitted_spec : ∀ (count i : Nat) (lists lists1 : List RHI_CommandList)
    (events : List CommandPoolEvent),
    waitSubmitted i count lists = some (lists1, events) →
    lists1.length = lists.length ∧
    (∀ j, lists1[j]? =
      if i ≤ j ∧ j < i + count then
        (lists[j]?).map (fun cl => if cl.state = Submitted then cl.Wait else cl)
      else lists[j]?) ∧
    events = ((List.range' i count).filter
      (fun j => (lists[j]?).any (fun cl => decide (cl.state = Submitted)))).map
        CommandPoolEvent.Wait := by
  intro count
  induction count with
  | zero =>
    intro i lists lists1 events h
    simp [waitSubmitted] at h
    obtain ⟨rfl, rfl⟩ := h
    refine ⟨rfl, ?_, by simp⟩
    intro j
    have : ¬ (i ≤ j ∧ j < i + 0) := by omega
    rw [if_neg this]
  | succ n ih =>
    intro i lists lists1 events h
    rw [waitSubmitted] at h
    cases hget : lists[i]? with
    | none => simp [hget] at h
    | some cl =>
      simp only [hget] at h
      by_cases hs : cl.state = Submitted
      · simp only [hs, if_true] at h
        cases hrec : waitSubmitted (i + 1) n (lists.set i cl.Wait) with
        | none => simp [hrec] at h
        | some res =>
          obtain ⟨l1, ev1⟩ := res
          simp only [hrec, Option.some.injEq, Prod.mk.injEq] at h
          obtain ⟨rfl, rfl⟩ := h
          obtain ⟨hlen, hget1, hev⟩ := ih (i + 1) _ _ _ hrec
          refine ⟨by simpa using hlen, ?_, ?_⟩
          · intro j
            rw [hget1 j]
            by_cases hji : j = i
            · subst hji
              have hlt : j < lists.length := by
                by_contra hc
                rw [List.getElem?_eq_none (by omega)] at hget
                cases hget
              simp [hget, hs, hlt]
            · have hne : i ≠ j := fun h => hji h.symm
              rw [List.getElem?_set_ne hne]
              by_cases hc : i + 1 ≤ j ∧ j < i + 1 + n
              · have : i ≤ j ∧ j < i + (n + 1) := by omega
                simp [hc, this]
              · have : ¬ (i ≤ j ∧ j < i + (n + 1)) := by omega
                simp [hc, this]
          · rw [hev, List.range'_succ, List.filter_cons]
            simp only [hget, Option.any_some, hs, decide_True, if_true, List.map_cons]
            congr 2
            apply List.filter_congr
            intro j hj
            have : i ≠ j := by
              rw [List.mem_range'_1] at hj
              omega
            rw [List.getElem?_set_ne this]
      · simp only [hs, if_false] at h
        obtain ⟨hlen, hget1, hev⟩ := ih (i + 1) _ _ _ h
        refine ⟨hlen, ?_, ?_⟩
        · intro j
          rw [hget1 j]
          by_cases hji : j = i
          · subst hji
            simp [hget, hs]
          · by_cases hc : i + 1 ≤ j ∧ j < i + 1 + n
            · have : i ≤ j ∧ j < i + (n + 1) := by omega
              simp [hc, this]
            · have : ¬ (i ≤ j ∧ j < i + (n + 1)) := by omega
              simp [hc, this]
        · rw [hev, List.range'_succ, List.filter_cons]
          simp [hget, hs]

theorem waitSubmitted_total : ∀ (count i : Nat) (lists : List RHI_CommandList),
    i + count ≤ lists.length → ∃ res, waitSubmitted i count lists = some res := by
  intro count
  induction count with
  | zero => intro i lists _; exact ⟨_, rfl⟩
  | succ n ih =>
    intro i lists h
    rw [waitSubmitted]
    have hlt : i < lists.length := by omega
    rw [List.getElem?_eq_getElem hlt]
    simp only
    split
    · obtain ⟨res, hres⟩ := ih (i + 1) (lists.set i lists[i].Wait) (by simp; omega)
      rw [hres]
      exact ⟨_, rfl⟩
    · exact ih (i + 1) lists (by omega)


/-! ## `AllocateCommandLists` -/

theorem allocateLists_eq (qt : RHI_Queue_Type) (p : Nat) :
    ∀ (count from_index : Nat) (s : RHI_CommandPool),
    p ≤ s.m_rhi_resources.length →
    RHI_CommandPool.allocateLists qt p from_index count s = some { s with
      m_rhi_resources := s.m_rhi_resources ++ List.replicate count qt
      m_cmd_lists := s.m_cmd_lists ++
        (List.range' from_index count).map (allocated_list qt s.m_name p) } := by
  intro count
  induction count with
  | zero => intro from_index s _; simp [RHI_CommandPool.allocateLists]
  | succ n ih =>
    intro from_index s hp
    rw [RHI_CommandPool.allocateLists]
    have hlt : p < (s.CreateCommandPool qt).m_rhi_resources.length := by
      simp [RHI_CommandPool.CreateCommandPool]; omega
    simp only [RHI_CommandPool.allocateOne, hlt, if_true]
    rw [ih]
    · simp [RHI_CommandPool.CreateCommandPool, allocated_list, List.range'_succ,
        List.replicate_succ]
    · simp [RHI_CommandPool.CreateCommandPool]; omega

theorem range_chunk (qt : RHI_Queue_Type) (name : String) (L p : Nat) :
    (List.range' 0 L).map (allocated_list qt name p) =
      (List.range' (p * L) L).map (fun i => allocated_list qt name (i / L) (i % L)) := by
  rcases Nat.eq_zero_or_pos L with h0 | hpos
  · subst h0; simp
  · rw [List.range'_eq_map_range, List.range'_eq_map_range (p * L)]
    simp only [List.map_map]
    apply List.map_congr_left
    intro i hi
    rw [List.mem_range] at hi
    simp only [Function.comp, Nat.zero_add]
    rw [Nat.mul_comm p L, Nat.mul_add_div hpos, Nat.mul_add_mod, Nat.div_eq_of_lt hi,
      Nat.mod_eq_of_lt hi]
    simp

theorem allocatePools_eq (qt : RHI_Queue_Type) (L : Nat) :
    ∀ (count from_index : Nat) (s : RHI_CommandPool),
    (L = 0 ∨ from_index ≤ s.m_rhi_resources.length) →
    RHI_CommandPool.allocatePools qt L from_index count s = some { s with
      m_rhi_resources := s.m_rhi_resources ++ List.replicate (count * L) qt
      m_cmd_lists := s.m_cmd_lists ++
        (List.range' (from_index * L) (count * L)).map
          (fun i => allocated_list qt s.m_name (i / L) (i % L)) } := by
  intro count
  induction count with
  | zero => intro from_index s _; simp [RHI_CommandPool.allocatePools]
  | succ n ih =>
    intro from_index s h
    rw [RHI_CommandPool.allocatePools]
    rcases Nat.eq_zero_or_pos L with h0 | hpos
    · subst h0
      simp only [RHI_CommandPool.allocateLists]
      rw [ih _ _ (Or.inl rfl)]
      simp
    · have hle : from_index ≤ s.m_rhi_resources.length := by omega
      rw [allocateLists_eq qt from_index L 0 s hle]
      simp only
      rw [ih]
      · simp only [range_chunk, List.append_assoc, ← List.map_append, Option.some.injEq]
        have e1 : (n + 1) * L = L + n * L := by ring
        have e2 : (from_index + 1) * L = from_index * L + L := by ring
        rw [e1, e2, List.replicate_add]
        congr 3
        rw [List.range'_append_1]
        congr 1
        omega
      · right; simp; omega

/-- What `AllocateCommandLists` does, for every pool and every pair of counts:
it stores the counts, creates `cmd_pool_count * cmd_list_count` backing pools
and appends as many lists, the `i`-th new list being built on backing pool
`i / cmd_list_count` with list index `i % cmd_list_count`. -/
theorem AllocateCommandLists_eq (s : RHI_CommandPool) (qt : RHI_Queue_Type) (L P : Nat) :
    s.AllocateCommandLists qt L P = some { s with
      m_cmd_list_count := L
      m_cmd_pool_count := P
      m_rhi_resources := s.m_rhi_resources ++ List.replicate (P * L) qt
      m_cmd_lists := s.m_cmd_lists ++
        (List.range' 0 (P * L)).map (fun i => allocated_list qt s.m_name (i / L) (i % L)) } := by
  unfold RHI_CommandPool.AllocateCommandLists
  rw [allocatePools_eq qt L P 0 _ (Or.inr (Nat.zero_le _))]
  simp

/-- On a pool without lists and backing pools, `AllocateCommandLists` creates
`cmd_pool_count * cmd_list_count` lists stored pool-major, the list at position
`p * cmd_list_count + l` being built on backing pool `p` with list index `l`,
and it creates `cmd_pool_count * cmd_list_count` backing pools. -/
theorem AllocateCommandLists_empty (s : RHI_CommandPool) (qt : RHI_Queue_Type) (L P : Nat)
    (hlists : s.m_cmd_lists = []) (hres : s.m_rhi_resources = []) :
    ∃ s1, s.AllocateCommandLists qt L P = some s1 ∧
      s1.m_cmd_lists.length = P * L ∧
      s1.m_rhi_resources.length = P * L ∧
      s1.PoolMajor ∧
      s1.m_cmd_list_count = L ∧ s1.m_cmd_pool_count = P ∧
      s1.m_first_step = s.m_first_step ∧
      s1.m_cmd_list_index = s.m_cmd_list_index ∧ s1.m_cmd_pool_index = s.m_cmd_pool_index ∧
      ∀ p l, p < P → l < L →
        s1.m_cmd_lists[p * L + l]? = some (allocated_list qt s.m_name p l) := by
  refine ⟨_, AllocateCommandLists_eq s qt L P, ?_, ?_, ?_, rfl, rfl, rfl, rfl, rfl, ?_⟩
  · simp [hlists]
  · simp [hres]
  · intro i hi
    simp only [hlists, List.nil_append, List.length_map, List.length_range'] at hi
    simp [hlists, allocated_list, List.getElem?_range' , hi]
  · intro p l hp hl
    have hlt : p * L + l < P * L := by
      calc p * L + l < p * L + L := by omega
        _ = (p + 1) * L := by ring
        _ ≤ P * L := Nat.mul_le_mul_right L hp
    have hLpos : 0 < L := by omega
    have h1 : (p * L + l) / L = p := by
      rw [Nat.mul_comm p L, Nat.mul_add_div hLpos, Nat.div_eq_of_lt hl]; simp
    have h2 : (p * L + l) % L = l := by
      rw [Nat.mul_comm p L, Nat.mul_add_mod, Nat.mod_eq_of_lt hl]
    simp [hlists, List.getElem?_range', hlt, h1, h2]

/-- C5, evaluated on the code: `AllocateCommandLists(Graphics, 2, 2)` on a freshly
constructed pool creates 4 backing command pools (the claim expects
`cmd_pool_count = 2`) and 4 command lists. -/
theorem AllocateCommandLists_2x2_counts :
    ((RHI_CommandPool.construct "cmd").AllocateCommandLists RHI_Queue_Type.Graphics 2 2).map
        (fun s => (s.m_rhi_resources.length, s.m_cmd_lists.length)) = some (4, 4) := by
  decide

/-! ## `Step` -/

theorem pool_2x2_allocated :
    (RHI_CommandPool.construct "cmd").AllocateCommandLists RHI_Queue_Type.Graphics 2 2
      = some pool_2x2 := by
  decide

/-- C1, evaluated on the code: on the pool allocated with `cmd_list_count = 2`
and `cmd_pool_count = 2`, the first five calls to `Step` return false, true,
true, true, true (the claim expects false, false, false, false, true), and both
indices are 0 afterwards. -/
theorem Step_five_calls_2x2 :
    ((RHI_CommandPool.construct "cmd").AllocateCommandLists RHI_Queue_Type.Graphics 2 2).bind
        (fun s => (s.StepResults 5).map
          (fun r => (r.1, r.2.m_cmd_list_index, r.2.m_cmd_pool_index)))
      = some ([false, true, true, true, true], 0, 0) := by
  decide

/-- What `Step` does to the indices once the first-step flag is cleared: if it
returns, the list index is 0 and the pool index is unchanged. -/
theorem Step_indices (s s1 : RHI_CommandPool) (r : Bool) (events : List CommandPoolEvent)
    (hfirst : s.m_first_step = false) (hstep : s.Step = some (r, s1, events)) :
    s1.m_cmd_list_index = 0 ∧ s1.m_cmd_pool_index = s.m_cmd_pool_index ∧
      (r = true ↔ s.m_cmd_pool_index = 0) := by
  unfold RHI_CommandPool.Step at hstep
  simp only [hfirst, Bool.false_eq_true, if_false] at hstep
  by_cases hL : s.m_cmd_list_count = 0
  · simp [hL] at hstep
  · simp only [hL, if_false, ne_eq, not_true_eq_false, true_and] at hstep
    by_cases hp : s.m_cmd_pool_index = 0
    · simp only [hp, if_true] at hstep
      cases hw : waitSubmitted 0 s.m_cmd_list_count s.m_cmd_lists with
      | none => simp [hw] at hstep
      | some res =>
        obtain ⟨lists, evs⟩ := res
        simp only [hw, Option.some.injEq, Prod.mk.injEq] at hstep
        obtain ⟨rfl, rfl, rfl⟩ := hstep
        simp [hp]
    · simp only [hp, if_false, Option.some.injEq, Prod.mk.injEq] at hstep
      obtain ⟨rfl, rfl, rfl⟩ := hstep
      simp [hp]

/-- Once the first-step flag is cleared, `Step` returns a result on every pool
that has a non-zero list count and at least that many lists. What it leaves
unchanged: the counts, the number of lists and the backing pool of each list. -/
theorem Step_returns (s : RHI_CommandPool) (hL : s.m_cmd_list_count ≠ 0)
    (hlen : s.m_cmd_list_count ≤ s.m_cmd_lists.length) :
    ∃ r s1 events, s.Step = some (r, s1, events) ∧
      s1.m_first_step = false ∧
      s1.m_cmd_list_count = s.m_cmd_list_count ∧
      s1.m_cmd_lists.length = s.m_cmd_lists.length ∧
      ∀ j : Nat, (s1.m_cmd_lists[j]?).map RHI_CommandList.cmd_pool =
        (s.m_cmd_lists[j]?).map RHI_CommandList.cmd_pool := by
  unfold RHI_CommandPool.Step
  by_cases hfirst : s.m_first_step = true
  · simp [hfirst]
  · simp only [hfirst, Bool.false_eq_true, if_false, hL, ne_eq, not_true_eq_false, true_and]
    by_cases hp : s.m_cmd_pool_index = 0
    · simp only [hp, if_true]
      obtain ⟨res, hres⟩ := waitSubmitted_total s.m_cmd_list_count 0 s.m_cmd_lists (by omega)
      obtain ⟨lists, evs⟩ := res
      obtain ⟨hlen1, hget, _⟩ := waitSubmitted_spec _ _ _ _ _ hres
      rw [hres]
      refine ⟨true, _, _, rfl, rfl, rfl, hlen1, ?_⟩
      intro j
      simp only
      rw [hget j]
      split
      · cases s.m_cmd_lists[j]? with
        | none => rfl
        | some cl =>
          simp only [Option.map_some', Option.some.injEq]
          split <;> rfl
      · rfl
    · simp only [hp, if_false]
      exact ⟨false, _, _, rfl, rfl, rfl, rfl, fun _ => rfl⟩

theorem Step_keeps_PoolMajor (s s1 : RHI_CommandPool) (r : Bool)
    (events : List CommandPoolEvent) (hL : s.m_cmd_list_count ≠ 0)
    (hlen : s.m_cmd_list_count ≤ s.m_cmd_lists.length) (hmajor : s.PoolMajor)
    (hstep : s.Step = some (r, s1, events)) : s1.PoolMajor := by
  obtain ⟨r', s1', ev', hstep', _, hcount, hlen1, hpool⟩ := Step_returns s hL hlen
  rw [hstep] at hstep'
  simp only [Option.some.injEq, Prod.mk.injEq] at hstep'
  obtain ⟨rfl, rfl, rfl⟩ := hstep'
  intro i hi
  rw [hpool i, hcount]
  exact hmajor i (by omega)

/-- Every call to `Step` after the priming one returns true as long as the pool
index is 0, which `Step` never changes. -/
theorem StepResults_after_first : ∀ (k : Nat) (s : RHI_CommandPool),
    s.m_first_step = false → s.m_cmd_pool_index = 0 → s.m_cmd_list_count ≠ 0 →
    s.m_cmd_list_count ≤ s.m_cmd_lists.length →
    ∃ s1, s.StepResults k = some (List.replicate k true, s1) := by
  intro k
  induction k with
  | zero => intro s _ _ _ _; exact ⟨s, rfl⟩
  | succ n ih =>
    intro s hfirst hp hL hlen
    obtain ⟨r, s1, ev, hstep, hfirst1, hcount, hlen1, _⟩ := Step_returns s hL hlen
    obtain ⟨hli, hpi, hr⟩ := Step_indices s s1 r ev hfirst hstep
    have hrt : r = true := hr.mpr hp
    obtain ⟨s2, hs2⟩ := ih s1 hfirst1 (by omega) (by omega) (by omega)
    refine ⟨s2, ?_⟩
    rw [RHI_CommandPool.StepResults, hstep]
    simp only [hs2, hrt, List.replicate_succ]

/-- The results of `Step` on a freshly allocated pool, for every
`cmd_list_count >= 1` and `cmd_pool_count >= 1`: the first call returns false
and each of the following `k` calls returns true. -/
theorem StepResults_allocated (name : String) (qt : RHI_Queue_Type) (L P k : Nat)
    (hL : 1 ≤ L) (hP : 1 ≤ P) :
    ∃ s s1, (RHI_CommandPool.construct name).AllocateCommandLists qt L P = some s ∧
      s.StepResults (k + 1) = some (false :: List.replicate k true, s1) := by
  obtain ⟨s, halloc, hlen, _, _, hcount, _, hfirst, _, hpi, _⟩ :=
    AllocateCommandLists_empty (RHI_CommandPool.construct name) qt L P rfl rfl
  have hfirst' : s.m_first_step = true := by rw [hfirst]; rfl
  have hpi' : s.m_cmd_pool_index = 0 := by rw [hpi]; rfl
  have hLP : L ≤ P * L := Nat.le_mul_of_pos_left L (by omega)
  obtain ⟨s1, hs1⟩ := StepResults_after_first k { s with m_first_step := false } rfl
    hpi' (by simp only [hcount]; omega) (by simp only [hcount, hlen]; exact hLP)
  refine ⟨s, s1, halloc, ?_⟩
  have hpriming : s.Step = some (false, { s with m_first_step := false }, []) := by
    unfold RHI_CommandPool.Step
    simp [hfirst']
  rw [RHI_CommandPool.StepResults, hpriming]
  simp only [hs1]

/-- C2, evaluated on the code: in the pool `pool_2x2` with the first-step flag
cleared, `Step` from list index 0 leaves the list index at 0 (the claim expects
(0 + 1) mod 2 = 1), and from list index 1 it sets the list index to 0 but leaves
the pool index at 0 (the claim expects (0 + 1) mod 2 = 1). -/
theorem Step_indices_2x2 :
    (RHI_CommandPool.Step { pool_2x2 with m_first_step := false, m_cmd_list_index := 0 }).map
        (fun r => (r.2.1.m_cmd_list_index, r.2.1.m_cmd_pool_index)) = some (0, 0) ∧
    (RHI_CommandPool.Step { pool_2x2 with m_first_step := false, m_cmd_list_index := 1 }).map
        (fun r => (r.2.1.m_cmd_list_index, r.2.1.m_cmd_pool_index)) = some (0, 0) := by
  decide

/-- C3: a call to `Step` with the first-step flag set (the first call after
construction) returns false, makes no `Wait` and no `Reset` call, and changes
nothing in the pool except clearing the flag. -/
theorem Step_first_call (s : RHI_CommandPool) (hfirst : s.m_first_step = true) :
    s.Step = some (false, { s with m_first_step := false }, []) := by
  unfold RHI_CommandPool.Step
  simp [hfirst]

theorem Step_first_call_witness :
    pool_2x2.m_first_step = true ∧
      pool_2x2.Step = some (false, { pool_2x2 with m_first_step := false }, []) :=
  ⟨by decide, Step_first_call pool_2x2 (by decide)⟩

/-- C4: for a pool whose lists are stored pool-major, when `Step` returns true
its calls are `Wait` calls followed by one final `Reset` of the pool at the new
pool index; every list of that pool that was Submitted is among the `Wait`
calls, and no list of that pool is Submitted afterwards. When `Step` returns
false it makes no `Reset` call. -/
theorem Step_waits_before_reset (s s1 : RHI_CommandPool) (r : Bool)
    (events : List CommandPoolEvent) (hmajor : s.PoolMajor)
    (hstep : s.Step = some (r, s1, events)) :
    (r = true →
      ∃ waits : List Nat,
        events = waits.map CommandPoolEvent.Wait ++
          [CommandPoolEvent.Reset s1.m_cmd_pool_index] ∧
        (∀ i cl, s.m_cmd_lists[i]? = some cl → cl.cmd_pool = s1.m_cmd_pool_index →
          cl.state = Submitted → i ∈ waits) ∧
        (∀ cl ∈ s1.m_cmd_lists, cl.cmd_pool = s1.m_cmd_pool_index → cl.state ≠ Submitted)) ∧
    (r = false → ∀ p, CommandPoolEvent.Reset p ∉ events) := by
  unfold RHI_CommandPool.Step at hstep
  by_cases hfirst : s.m_first_step = true
  · simp only [hfirst, if_true, Option.some.injEq, Prod.mk.injEq] at hstep
    obtain ⟨rfl, rfl, rfl⟩ := hstep
    simp
  · simp only [hfirst, Bool.false_eq_true, if_false] at hstep
    by_cases hL : s.m_cmd_list_count = 0
    · simp [hL] at hstep
    · simp only [hL, if_false, ne_eq, not_true_eq_false, true_and] at hstep
      by_cases hp : s.m_cmd_pool_index = 0
      · simp only [hp, if_true] at hstep
        cases hw : waitSubmitted 0 s.m_cmd_list_count s.m_cmd_lists with
        | none => simp [hw] at hstep
        | some res =>
          obtain ⟨lists, evs⟩ := res
          simp only [hw, Option.some.injEq, Prod.mk.injEq] at hstep
          obtain ⟨rfl, rfl, rfl⟩ := hstep
          obtain ⟨hlen, hget, hev⟩ := waitSubmitted_spec _ _ _ _ _ hw
          have hLpos : 0 < s.m_cmd_list_count := Nat.pos_of_ne_zero hL
          refine ⟨fun _ => ⟨(List.range' 0 s.m_cmd_list_count).filter
            (fun j => (s.m_cmd_lists[j]?).any (fun cl => decide (cl.state = Submitted))),
            ?_, ?_, ?_⟩, by simp⟩
          · simp only [hev, hp]
          · intro i cl hi hpool hsub
            have hilt : i < s.m_cmd_lists.length := by
              by_contra hc
              rw [List.getElem?_eq_none (by omega)] at hi
              cases hi
            have hm := hmajor i hilt
            rw [hi] at hm
            simp only [Option.map_some', Option.some.injEq] at hm
            simp only [hp] at hpool
            have hiL : i < s.m_cmd_list_count := by
              have : i / s.m_cmd_list_count = 0 := by omega
              exact (Nat.div_eq_zero_iff hLpos).mp this
            simp only [List.mem_filter, List.mem_range'_1]
            refine ⟨by omega, ?_⟩
            simp [hi, hsub]
          · intro cl hcl hpool
            simp only [hp] at hpool
            obtain ⟨j, hj⟩ := List.mem_iff_getElem?.mp hcl
            simp only at hj
            rw [hget j] at hj
            by_cases hjL : j < s.m_cmd_list_count
            · have hc : 0 ≤ j ∧ j < 0 + s.m_cmd_list_count := by omega
              rw [if_pos hc] at hj
              cases horig : s.m_cmd_lists[j]? with
              | none => simp [horig] at hj
              | some cl0 =>
                simp only [horig, Option.map_some', Option.some.injEq] at hj
                by_cases hs0 : cl0.state = Submitted
                · simp only [hs0, if_true] at hj
                  rw [← hj]
                  simp [RHI_CommandList.Wait]
                · simp only [hs0, if_false] at hj
                  rw [← hj]
                  exact hs0
            · have hc : ¬ (0 ≤ j ∧ j < 0 + s.m_cmd_list_count) := by omega
              rw [if_neg hc] at hj
              have hjlt : j < s.m_cmd_lists.length := by
                by_contra hc2
                rw [List.getElem?_eq_none (by omega)] at hj
                cases hj
              have hm := hmajor j hjlt
              rw [hj] at hm
              simp only [Option.map_some', Option.some.injEq] at hm
              have : 0 < j / s.m_cmd_list_count :=
                Nat.div_pos (by omega) hLpos
              omega
      · simp only [hp, if_false, Option.some.injEq, Prod.mk.injEq] at hstep
        obtain ⟨rfl, rfl, rfl⟩ := hstep
        simp

theorem Step_waits_before_reset_witness :
    pool_2x2_submitted.PoolMajor ∧
    pool_2x2_submitted.Step = some (true, pool_2x2_waited,
      [CommandPoolEvent.Wait 0, CommandPoolEvent.Wait 1, CommandPoolEvent.Reset 0]) ∧
    ((true = true →
      ∃ waits : List Nat,
        [CommandPoolEvent.Wait 0, CommandPoolEvent.Wait 1, CommandPoolEvent.Reset 0] =
          waits.map CommandPoolEvent.Wait ++
            [CommandPoolEvent.Reset pool_2x2_waited.m_cmd_pool_index] ∧
        (∀ i cl, pool_2x2_submitted.m_cmd_lists[i]? = some cl →
          cl.cmd_pool = pool_2x2_waited.m_cmd_pool_index → cl.state = Submitted → i ∈ waits) ∧
        (∀ cl ∈ pool_2x2_waited.m_cmd_lists,
          cl.cmd_pool = pool_2x2_waited.m_cmd_pool_index → cl.state ≠ Submitted)) ∧
    (true = false → ∀ p, CommandPoolEvent.Reset p ∉
      [CommandPoolEvent.Wait 0, CommandPoolEvent.Wait 1, CommandPoolEvent.Reset 0])) :=
  ⟨by decide, by decide,
    Step_waits_before_reset pool_2x2_submitted pool_2x2_waited true
      [CommandPoolEvent.Wait 0, CommandPoolEvent.Wait 1, CommandPoolEvent.Reset 0]
      (by decide) (by decide)⟩

/-! ## The descriptor-set map -/

theorem map_assign_of_find_none {α : Type} : ∀ (m : List (Nat × α)) (key : Nat) (value : α),
    map_find m key = none → map_assign m key value = m ++ [(key, value)] := by
  intro m
  induction m with
  | nil => intro key value _; rfl
  | cons e rest ih =>
    intro key value h
    obtain ⟨k, v⟩ := e
    by_cases hk : k = key
    · simp [map_find, hk] at h
    · simp only [map_find, hk, if_false] at h
      simp [map_assign, hk, ih key value h]

theorem map_find_append_single {α : Type} : ∀ (m : List (Nat × α)) (key k : Nat) (value : α),
    map_find (m ++ [(key, value)]) k =
      match map_find m k with
      | some v => some v
      | none => if key = k then some value else none := by
  intro m
  induction m with
  | nil => intro key k value; simp [map_find]
  | cons e rest ih =>
    intro key k value
    obtain ⟨k0, v0⟩ := e
    by_cases hk : k0 = k
    · simp [map_find, hk]
    · simp [map_find, hk, ih key k value]

/-! ## `GetDescriptorSet` -/

/-- The device after `GetDescriptorSet` created a set for layout `l` under
`key`: the profiler has counted the new set and the map has one more entry. -/
theorem GetDescriptorSet_of_miss (hasher : Nat → Nat) (l : RHI_DescriptorSetLayout)
    (dev : RHI_Device)
    (hmiss : map_find dev.m_descriptor_sets (l.descriptor_set_hash hasher) = none)
    (hcap : dev.HasDescriptorSetCapacity = true) :
    l.GetDescriptorSet hasher dev =
      Except.ok (some (l.descriptor_set_hash hasher), l,
        { m_descriptor_sets := dev.m_descriptor_sets ++
            [(l.descriptor_set_hash hasher,
              { m_name := l.m_name, m_descriptors := l.m_descriptors })]
          m_descriptor_set_capacity := dev.m_descriptor_set_capacity
          profiler := (RHI_DescriptorSet.construct dev l.m_descriptors l.m_name).2.profiler }) := by
  have hassign := map_assign_of_find_none dev.m_descriptor_sets (l.descriptor_set_hash hasher)
    ({ m_name := l.m_name, m_descriptors := l.m_descriptors } : RHI_DescriptorSet) hmiss
  unfold RHI_DescriptorSetLayout.GetDescriptorSet
  simp only [hmiss, hcap, if_true, RHI_DescriptorSet.construct, hassign]

theorem GetDescriptorSet_of_hit (hasher : Nat → Nat) (l : RHI_DescriptorSetLayout)
    (dev : RHI_Device) (ds : RHI_DescriptorSet)
    (hhit : map_find dev.m_descriptor_sets (l.descriptor_set_hash hasher) = some ds) :
    l.GetDescriptorSet hasher dev =
      Except.ok (if l.m_needs_to_bind then some (l.descriptor_set_hash hasher) else none,
        { l with m_needs_to_bind := false }, dev) := by
  unfold RHI_DescriptorSetLayout.GetDescriptorSet
  simp only [hhit]
  cases hflag : l.m_needs_to_bind with
  | true => simp
  | false =>
    have : ({ l with m_needs_to_bind := false } : RHI_DescriptorSetLayout) = l := by
      cases l; simp_all
    simp [this]

theorem GetDescriptorSet_of_no_capacity (hasher : Nat → Nat) (l : RHI_DescriptorSetLayout)
    (dev : RHI_Device)
    (hmiss : map_find dev.m_descriptor_sets (l.descriptor_set_hash hasher) = none)
    (hcap : dev.HasDescriptorSetCapacity = false) :
    l.GetDescriptorSet hasher dev = Except.error (no_capacity_message, dev) := by
  unfold RHI_DescriptorSetLayout.GetDescriptorSet
  simp [hmiss, hcap]

/-- After a successful `GetDescriptorSet` the layout has the same slots and
structural hash, the map has an entry under the composite hash, every key that
was in the map still is, and a non-null result points at the entry under the
composite hash. -/
theorem GetDescriptorSet_ok (hasher : Nat → Nat) (l l1 : RHI_DescriptorSetLayout)
    (dev dev1 : RHI_Device) (p : Option Nat)
    (h : l.GetDescriptorSet hasher dev = Except.ok (p, l1, dev1)) :
    l1.descriptor_set_hash hasher = l.descriptor_set_hash hasher ∧
    map_find dev1.m_descriptor_sets (l.descriptor_set_hash hasher) ≠ none ∧
    (∀ key, map_find dev.m_descriptor_sets key ≠ none →
      map_find dev1.m_descriptor_sets key ≠ none) ∧
    (p ≠ none → p = some (l.descriptor_set_hash hasher)) := by
  cases hfind : map_find dev.m_descriptor_sets (l.descriptor_set_hash hasher) with
  | none =>
    cases hcap : dev.HasDescriptorSetCapacity with
    | false =>
      rw [GetDescriptorSet_of_no_capacity hasher l dev hfind hcap] at h
      cases h
    | true =>
      rw [GetDescriptorSet_of_miss hasher l dev hfind hcap] at h
      simp only [Except.ok.injEq, Prod.mk.injEq] at h
      obtain ⟨rfl, rfl, rfl⟩ := h
      refine ⟨rfl, ?_, ?_, fun _ => rfl⟩
      · simp [map_find_append_single, hfind]
      · intro key hkey
        simp only [map_find_append_single]
        cases hk : map_find dev.m_descriptor_sets key with
        | none => exact absurd hk hkey
        | some v => simp
  | some ds =>
    rw [GetDescriptorSet_of_hit hasher l dev ds hfind] at h
    simp only [Except.ok.injEq, Prod.mk.injEq] at h
    obtain ⟨rfl, rfl, rfl⟩ := h
    refine ⟨rfl, by simp [hfind], fun _ hkey => hkey, ?_⟩
    cases l.m_needs_to_bind <;> simp

/-- C6: on a cache miss with capacity available, `GetDescriptorSet` returns a
non-null pointer to the entry stored under the composite hash (`m_hash` folded
with `rhi_hash_combine` over each slot's data pointer, mip, mip range and range,
in slot order); the map afterwards is the old map plus exactly that one entry,
which holds the set built from the current slots, and every other key maps to
what it mapped to before. The layout is unchanged. -/
theorem GetDescriptorSet_miss (hasher : Nat → Nat) (l : RHI_DescriptorSetLayout)
    (dev : RHI_Device)
    (hmiss : map_find dev.m_descriptor_sets (l.descriptor_set_hash hasher) = none)
    (hcap : dev.HasDescriptorSetCapacity = true) :
    ∃ dev1 : RHI_Device,
      l.GetDescriptorSet hasher dev =
        Except.ok (some (l.descriptor_set_hash hasher), l, dev1) ∧
      l.descriptor_set_hash hasher =
        l.m_descriptors.foldl (fun hash d =>
          rhi_hash_combine hasher
            (rhi_hash_combine hasher
              (rhi_hash_combine hasher
                (rhi_hash_combine hasher hash (d.data % UINT64_SIZE))
                (d.mip % UINT64_SIZE))
              (d.mip_range % UINT64_SIZE))
            (d.range % UINT64_SIZE)) l.m_hash ∧
      dev1.m_descriptor_sets = dev.m_descriptor_sets ++
        [(l.descriptor_set_hash hasher,
          { m_name := l.m_name, m_descriptors := l.m_descriptors })] ∧
      dev1.m_descriptor_sets.length = dev.m_descriptor_sets.length + 1 ∧
      map_find dev1.m_descriptor_sets (l.descriptor_set_hash hasher) =
        some { m_name := l.m_name, m_descriptors := l.m_descriptors } ∧
      (∀ key, key ≠ l.descriptor_set_hash hasher →
        map_find dev1.m_descriptor_sets key = map_find dev.m_descriptor_sets key) ∧
      dev1.m_descriptor_set_capacity = dev.m_descriptor_set_capacity := by
  refine ⟨_, GetDescriptorSet_of_miss hasher l dev hmiss hcap, rfl, rfl, ?_, ?_, ?_, rfl⟩
  · simp
  · simp only [map_find_append_single, hmiss]
    simp
  · intro key hkey
    simp only [map_find_append_single]
    cases map_find dev.m_descriptor_sets key with
    | none =>
      have hne : ¬ l.descriptor_set_hash hasher = key := fun h => hkey h.symm
      simp [hne]
    | some v => rfl

theorem GetDescriptorSet_miss_witness :
    map_find (device_empty 2).m_descriptor_sets
      ((layout_bound descriptor_a true).descriptor_set_hash std_hash_identity) = none ∧
    (device_empty 2).HasDescriptorSetCapacity = true ∧
    (layout_bound descriptor_a true).GetDescriptorSet std_hash_identity (device_empty 2) =
      Except.ok (some 12936306609644674506, layout_bound descriptor_a true, device_one 2) ∧
    ∃ dev1 : RHI_Device,
      (layout_bound descriptor_a true).GetDescriptorSet std_hash_identity (device_empty 2) =
        Except.ok
          (some ((layout_bound descriptor_a true).descriptor_set_hash std_hash_identity),
            layout_bound descriptor_a true, dev1) :=
  ⟨by decide, by decide, by decide,
    (GetDescriptorSet_miss std_hash_identity (layout_bound descriptor_a true) (device_empty 2)
      (by decide) (by decide)).imp (fun _ h => h.1)⟩

/-- C7, refuted as stated: with the set for `layout_bound descriptor_a` cached
and `needs_to_bind` clear, `GetDescriptorSet` returns null; and of two
consecutive calls on that layout, starting from an empty cache, the first
returns the new entry and the second returns null. -/
theorem GetDescriptorSet_hit_unflagged_is_null :
    map_find (device_one 2).m_descriptor_sets
        ((layout_bound descriptor_a false).descriptor_set_hash std_hash_identity) =
      some { m_name := "layout", m_descriptors := [descriptor_a] } ∧
    (layout_bound descriptor_a false).m_needs_to_bind = false ∧
    (layout_bound descriptor_a false).GetDescriptorSet std_hash_identity (device_one 2) =
      Except.ok (none, layout_bound descriptor_a false, device_one 2) ∧
    (layout_bound descriptor_a false).GetDescriptorSet std_hash_identity (device_empty 2) =
      Except.ok (some 12936306609644674506, layout_bound descriptor_a false, device_one 2) := by
  decide

/-- C7, amended: on a cache hit with `needs_to_bind` clear, `GetDescriptorSet`
returns null and changes neither the layout nor the device. Consequently, after
any successful call, an immediately following call is a cache hit that leaves
the device unchanged; it returns the entry under the same composite hash when
`needs_to_bind` is still set and null otherwise, and a non-null result of the
first call points at that same entry. -/
theorem GetDescriptorSet_twice (hasher : Nat → Nat) (l l1 : RHI_DescriptorSetLayout)
    (dev dev1 : RHI_Device) (p1 : Option Nat)
    (hfirst : l.GetDescriptorSet hasher dev = Except.ok (p1, l1, dev1)) :
    (map_find dev.m_descriptor_sets (l.descriptor_set_hash hasher) ≠ none →
      l.m_needs_to_bind = false → p1 = none ∧ l1 = l ∧ dev1 = dev) ∧
    l1.GetDescriptorSet hasher dev1 =
      Except.ok (if l1.m_needs_to_bind then some (l.descriptor_set_hash hasher) else none,
        { l1 with m_needs_to_bind := false }, dev1) ∧
    (p1 ≠ none → p1 = some (l.descriptor_set_hash hasher)) := by
  obtain ⟨hhash, hpresent, _, hptr⟩ := GetDescriptorSet_ok hasher l l1 dev dev1 p1 hfirst
  refine ⟨?_, ?_, hptr⟩
  · intro hhit hflag
    cases hfind : map_find dev.m_descriptor_sets (l.descriptor_set_hash hasher) with
    | none => exact absurd hfind hhit
    | some ds =>
      rw [GetDescriptorSet_of_hit hasher l dev ds hfind] at hfirst
      simp only [Except.ok.injEq, Prod.mk.injEq] at hfirst
      obtain ⟨rfl, rfl, rfl⟩ := hfirst
      refine ⟨by simp [hflag], ?_, rfl⟩
      cases l
      simp_all
  · cases hfind : map_find dev1.m_descriptor_sets (l.descriptor_set_hash hasher) with
    | none => exact absurd hfind hpresent
    | some ds =>
      rw [← hhash] at hfind
      rw [GetDescriptorSet_of_hit hasher l1 dev1 ds hfind, hhash]

theorem GetDescriptorSet_twice_witness :
    (layout_bound descriptor_a true).GetDescriptorSet std_hash_identity (device_empty 2) =
      Except.ok (some 12936306609644674506, layout_bound descriptor_a true, device_one 2) ∧
    (layout_bound descriptor_a true).GetDescriptorSet std_hash_identity (device_one 2) =
      Except.ok
        (if (layout_bound descriptor_a true).m_needs_to_bind then
            some ((layout_bound descriptor_a true).descriptor_set_hash std_hash_identity)
          else none,
          { layout_bound descriptor_a true with m_needs_to_bind := false }, device_one 2) ∧
    (layout_bound descriptor_a false).GetDescriptorSet std_hash_identity (device_one 2) =
      Except.ok (none, layout_bound descriptor_a false, device_one 2) ∧
    ((none : Option Nat) = none ∧ layout_bound descriptor_a false = layout_bound descriptor_a false ∧
      device_one 2 = device_one 2) :=
  ⟨by decide,
    (GetDescriptorSet_twice std_hash_identity (layout_bound descriptor_a true)
      (layout_bound descriptor_a true) (device_empty 2) (device_one 2)
      (some 12936306609644674506) (by decide)).2.1,
    by decide,
    (GetDescriptorSet_twice std_hash_identity (layout_bound descriptor_a false)
      (layout_bound descriptor_a false) (device_one 2) (device_one 2) none (by decide)).1
      (by decide) (by decide)⟩

/-- C8: on a cache hit with `needs_to_bind` set, `GetDescriptorSet` returns a
pointer to the cached set stored under the composite hash, clears
`needs_to_bind`, and leaves the device (hence the descriptor-set map) and the
slots, name and structural hash of the layout unchanged. -/
theorem GetDescriptorSet_hit_flagged (hasher : Nat → Nat) (l : RHI_DescriptorSetLayout)
    (dev : RHI_Device) (ds : RHI_DescriptorSet)
    (hhit : map_find dev.m_descriptor_sets (l.descriptor_set_hash hasher) = some ds)
    (hflag : l.m_needs_to_bind = true) :
    l.GetDescriptorSet hasher dev =
      Except.ok (some (l.descriptor_set_hash hasher),
        { m_name := l.m_name, m_descriptors := l.m_descriptors, m_hash := l.m_hash,
          m_needs_to_bind := false }, dev) := by
  rw [GetDescriptorSet_of_hit hasher l dev ds hhit]
  simp [hflag]

theorem GetDescriptorSet_hit_flagged_witness :
    map_find (device_one 2).m_descriptor_sets
        ((layout_bound descriptor_a true).descriptor_set_hash std_hash_identity) =
      some { m_name := "layout", m_descriptors := [descriptor_a] } ∧
    (layout_bound descriptor_a true).m_needs_to_bind = true ∧
    (layout_bound descriptor_a true).GetDescriptorSet std_hash_identity (device_one 2) =
      Except.ok (some ((layout_bound descriptor_a true).descriptor_set_hash std_hash_identity),
        { m_name := "layout", m_descriptors := [descriptor_a], m_hash := 0,
          m_needs_to_bind := false }, device_one 2) :=
  ⟨by decide, by decide,
    GetDescriptorSet_hit_flagged std_hash_identity (layout_bound descriptor_a true)
      (device_one 2) { m_name := "layout", m_descriptors := [descriptor_a] }
      (by decide) (by decide)⟩

/-! ## Collisions of the composite hash -/

theorem rhi_hash_combine_lt (hasher : Nat → Nat) (seed x : Nat) :
    rhi_hash_combine hasher seed x < UINT64_SIZE := by
  unfold rhi_hash_combine UINT64_SIZE
  exact Nat.xor_lt_two_pow (Nat.mod_lt _ (by positivity)) (Nat.mod_lt _ (by positivity))

theorem foldl_hash_descriptor_lt (hasher : Nat → Nat) :
    ∀ (ds : List RHI_Descriptor) (hash : Nat), hash < UINT64_SIZE →
      ds.foldl (hash_descriptor hasher) hash < UINT64_SIZE := by
  intro ds
  induction ds with
  | nil => intro hash h; exact h
  | cons d rest ih =>
    intro hash _
    exact ih _ (rhi_hash_combine_lt hasher _ _)

/-- Whatever `std::hash<uint64_t>` is, the composite hash cannot tell all
binding states apart: in every layout with at least one slot there are two
bindings of the first slot, differing in the resource pointer or the mip, with
the same composite hash. -/
theorem descriptor_set_hash_not_injective (hasher : Nat → Nat) (l : RHI_DescriptorSetLayout)
    (d : RHI_Descriptor) (rest : List RHI_Descriptor) :
    ∃ data1 mip1 data2 mip2 : Nat,
      data1 < UINT64_SIZE ∧ data2 < UINT64_SIZE ∧ mip1 < 2 ∧ mip2 < 2 ∧
      (data1 ≠ data2 ∨ mip1 ≠ mip2) ∧
      RHI_DescriptorSetLayout.descriptor_set_hash hasher
          { l with m_descriptors := { d with data := data1, mip := mip1 } :: rest } =
        RHI_DescriptorSetLayout.descriptor_set_hash hasher
          { l with m_descriptors := { d with data := data2, mip := mip2 } :: rest } := by
  let f : Fin UINT64_SIZE × Fin 2 → Fin UINT64_SIZE := fun x =>
    ⟨RHI_DescriptorSetLayout.descriptor_set_hash hasher
        { l with m_descriptors := { d with data := x.1.val, mip := x.2.val } :: rest },
      foldl_hash_descriptor_lt hasher rest _ (rhi_hash_combine_lt hasher _ _)⟩
  have hcard : Fintype.card (Fin UINT64_SIZE) < Fintype.card (Fin UINT64_SIZE × Fin 2) := by
    simp only [Fintype.card_prod, Fintype.card_fin, UINT64_SIZE]
    norm_num
  obtain ⟨x, y, hne, hxy⟩ := Fintype.exists_ne_map_eq_of_card_lt f hcard
  refine ⟨x.1.val, x.2.val, y.1.val, y.2.val, x.1.isLt, y.1.isLt, x.2.isLt, y.2.isLt, ?_,
    congrArg Fin.val hxy⟩
  by_contra hcon
  push_neg at hcon
  exact hne (Prod.ext (Fin.ext hcon.1) (Fin.ext hcon.2))

/-- C9, refuted as stated: the binding states `descriptor_a` and `descriptor_b`
of the same one-slot layout differ in resource pointer and range, yet have the
same composite hash under the identity `std::hash` (libstdc++, libc++); so do
`descriptor_c` and `descriptor_d` under the FNV-1a `std::hash` (Microsoft).
`GetDescriptorSet` after `descriptor_a` and then after `descriptor_b` returns
the same entry twice, and the map holds a single entry, built for
`descriptor_a`. -/
theorem descriptor_set_hash_collision :
    descriptor_a.data ≠ descriptor_b.data ∧ descriptor_a.range ≠ descriptor_b.range ∧
    (layout_bound descriptor_a true).descriptor_set_hash std_hash_identity =
      (layout_bound descriptor_b true).descriptor_set_hash std_hash_identity ∧
    descriptor_c.data ≠ descriptor_d.data ∧ descriptor_c.range ≠ descriptor_d.range ∧
    (layout_bound descriptor_c true).descriptor_set_hash std_hash_fnv1a =
      (layout_bound descriptor_d true).descriptor_set_hash std_hash_fnv1a ∧
    (layout_bound descriptor_a true).GetDescriptorSet std_hash_identity (device_empty 2) =
      Except.ok (some 12936306609644674506, layout_bound descriptor_a true, device_one 2) ∧
    (layout_bound descriptor_b true).GetDescriptorSet std_hash_identity (device_one 2) =
      Except.ok (some 12936306609644674506, layout_bound descriptor_b false, device_one 2) := by
  decide

/-- C9, amended: when `GetDescriptorSet` is called for one binding state and then
for another and both calls return a set, each returned pointer is the entry
under the composite hash of its binding state and both entries are in the map
afterwards; the two returned entries are distinct exactly when the two
composite hashes differ. -/
theorem GetDescriptorSet_distinct_iff (hasher : Nat → Nat)
    (l1 l2 l1' l2' : RHI_DescriptorSetLayout) (dev dev1 dev2 : RHI_Device)
    (p1 p2 : Option Nat)
    (h1 : l1.GetDescriptorSet hasher dev = Except.ok (p1, l1', dev1))
    (h2 : l2.GetDescriptorSet hasher dev1 = Except.ok (p2, l2', dev2))
    (hp1 : p1 ≠ none) (hp2 : p2 ≠ none) :
    p1 = some (l1.descriptor_set_hash hasher) ∧
    p2 = some (l2.descriptor_set_hash hasher) ∧
    map_find dev2.m_descriptor_sets (l1.descriptor_set_hash hasher) ≠ none ∧
    map_find dev2.m_descriptor_sets (l2.descriptor_set_hash hasher) ≠ none ∧
    (p1 ≠ p2 ↔ l1.descriptor_set_hash hasher ≠ l2.descriptor_set_hash hasher) := by
  obtain ⟨_, hin1, _, hptr1⟩ := GetDescriptorSet_ok hasher l1 l1' dev dev1 p1 h1
  obtain ⟨_, hin2, hkeep2, hptr2⟩ := GetDescriptorSet_ok hasher l2 l2' dev1 dev2 p2 h2
  have e1 := hptr1 hp1
  have e2 := hptr2 hp2
  refine ⟨e1, e2, hkeep2 _ hin1, hin2, ?_⟩
  rw [e1, e2]
  simp

theorem GetDescriptorSet_distinct_iff_witness :
    (layout_bound descriptor_a true).descriptor_set_hash std_hash_identity ≠
      (layout_bound descriptor_c true).descriptor_set_hash std_hash_identity ∧
    ((some 12936306609644674506 : Option Nat) ≠ some 9079034125288959413 ↔
      (layout_bound descriptor_a true).descriptor_set_hash std_hash_identity ≠
        (layout_bound descriptor_c true).descriptor_set_hash std_hash_identity) :=
  ⟨by decide,
    (GetDescriptorSet_distinct_iff std_hash_identity (layout_bound descriptor_a true)
      (layout_bound descriptor_c true) (layout_bound descriptor_a true)
      (layout_bound descriptor_c true) (device_empty 2) (device_one 2) (device_two 2)
      (some 12936306609644674506) (some 9079034125288959413)
      (by decide) (by decide) (by decide) (by decide)).2.2.2.2⟩

/-! ## Exhausting the descriptor pool -/

theorem GetDescriptorSet_each_misses (hasher : Nat → Nat) :
    ∀ (ls : List RHI_DescriptorSetLayout) (dev : RHI_Device),
    (∀ l ∈ ls, map_find dev.m_descriptor_sets (l.descriptor_set_hash hasher) = none) →
    (ls.map (RHI_DescriptorSetLayout.descriptor_set_hash hasher)).Nodup →
    dev.m_descriptor_sets.length + ls.length ≤ dev.m_descriptor_set_capacity →
    ∃ dev1, GetDescriptorSet_each hasher ls dev =
        Except.ok (ls.map (fun l => some (l.descriptor_set_hash hasher)), dev1) ∧
      dev1.m_descriptor_sets.length = dev.m_descriptor_sets.length + ls.length ∧
      dev1.m_descriptor_set_capacity = dev.m_descriptor_set_capacity ∧
      ∀ key, (∀ l ∈ ls, l.descriptor_set_hash hasher ≠ key) →
        map_find dev1.m_descriptor_sets key = map_find dev.m_descriptor_sets key := by
  intro ls
  induction ls with
  | nil => intro dev _ _ _; exact ⟨dev, rfl, rfl, rfl, fun _ _ => rfl⟩
  | cons l rest ih =>
    intro dev hmiss hnodup hcap
    simp only [List.map_cons, List.nodup_cons, List.mem_map, not_exists, not_and] at hnodup
    simp only [List.length_cons] at hcap
    have hmissl := hmiss l (List.mem_cons_self _ _)
    have hcapl : dev.HasDescriptorSetCapacity = true := by
      simp only [RHI_Device.HasDescriptorSetCapacity, decide_eq_true_eq]
      omega
    have hstep := GetDescriptorSet_of_miss hasher l dev hmissl hcapl
    obtain ⟨dev2, hrest, hlen2, hcap2, hfind2⟩ := ih
      { m_descriptor_sets := dev.m_descriptor_sets ++
          [(l.descriptor_set_hash hasher,
            { m_name := l.m_name, m_descriptors := l.m_descriptors })]
        m_descriptor_set_capacity := dev.m_descriptor_set_capacity
        profiler := (RHI_DescriptorSet.construct dev l.m_descriptors l.m_name).2.profiler }
      (by
        intro l' hl'
        simp only [map_find_append_single, hmiss l' (List.mem_cons_of_mem _ hl')]
        have hne : ¬ l.descriptor_set_hash hasher = l'.descriptor_set_hash hasher :=
          fun h => hnodup.1 l' hl' h.symm
        simp [hne])
      hnodup.2
      (by
        show (dev.m_descriptor_sets ++ [_]).length + rest.length ≤ dev.m_descriptor_set_capacity
        simp only [List.length_append, List.length_singleton]
        omega)
    simp only [List.length_append, List.length_singleton] at hlen2
    refine ⟨dev2, ?_, ?_, hcap2, ?_⟩
    · rw [GetDescriptorSet_each, hstep]
      simp only [hrest, List.map_cons]
    · rw [hlen2]
      simp only [List.length_append, List.length_singleton, List.length_cons]
      omega
    · intro key hkey
      rw [hfind2 key (fun l' hl' => hkey l' (List.mem_cons_of_mem _ hl'))]
      simp only [map_find_append_single]
      have hne : ¬ l.descriptor_set_hash hasher = key := hkey l (List.mem_cons_self _ _)
      cases map_find dev.m_descriptor_sets key <;> simp [hne]

/-- C10: on a cache miss with `HasDescriptorSetCapacity()` false,
`GetDescriptorSet` fails on the capacity assertion with the device, and so the
map, as it was. Hence, on a device with an empty cache and capacity N, after N
calls on layouts with pairwise distinct composite hashes, each of which returns
a set, a further call on a layout with yet another composite hash fails on the
capacity assertion. -/
theorem GetDescriptorSet_no_capacity (hasher : Nat → Nat) :
    (∀ (l : RHI_DescriptorSetLayout) (dev : RHI_Device),
      map_find dev.m_descriptor_sets (l.descriptor_set_hash hasher) = none →
      dev.HasDescriptorSetCapacity = false →
      l.GetDescriptorSet hasher dev = Except.error (no_capacity_message, dev)) ∧
    (∀ (ls : List RHI_DescriptorSetLayout) (l : RHI_DescriptorSetLayout) (dev : RHI_Device),
      dev.m_descriptor_sets = [] →
      ls.length = dev.m_descriptor_set_capacity →
      ((ls ++ [l]).map (RHI_DescriptorSetLayout.descriptor_set_hash hasher)).Nodup →
      ∃ dev1, GetDescriptorSet_each hasher ls dev =
          Except.ok (ls.map (fun l0 => some (l0.descriptor_set_hash hasher)), dev1) ∧
        dev1.m_descriptor_sets.length = dev.m_descriptor_set_capacity ∧
        l.GetDescriptorSet hasher dev1 = Except.error (no_capacity_message, dev1)) := by
  refine ⟨GetDescriptorSet_of_no_capacity hasher, ?_⟩
  intro ls l dev hempty hlen hnodup
  rw [List.map_append, List.nodup_append] at hnodup
  obtain ⟨hnd, _, hdisj⟩ := hnodup
  obtain ⟨dev1, hrun, hlen1, hcap1, hfind1⟩ := GetDescriptorSet_each_misses hasher ls dev
    (by intro l0 _; simp [hempty, map_find]) hnd (by simp [hempty, hlen])
  refine ⟨dev1, hrun, by simp [hlen1, hempty, hlen], ?_⟩
  apply GetDescriptorSet_of_no_capacity
  · rw [hfind1]
    · simp [hempty, map_find]
    · intro l0 hl0 heq
      exact hdisj (List.mem_map_of_mem _ hl0) (by simp [heq])
  · simp only [RHI_Device.HasDescriptorSetCapacity, decide_eq_false_iff_not]
    rw [hlen1, hcap1, hempty]
    simp [hlen]

theorem GetDescriptorSet_no_capacity_witness :
    (layout_bound descriptor_c true).GetDescriptorSet std_hash_identity (device_one 1) =
      Except.error (no_capacity_message, device_one 1) ∧
    (∃ dev1, GetDescriptorSet_each std_hash_identity [layout_bound descriptor_a true]
          (device_empty 1) =
        Except.ok ([layout_bound descriptor_a true].map
          (fun l0 => some (l0.descriptor_set_hash std_hash_identity)), dev1) ∧
      dev1.m_descriptor_sets.length = (device_empty 1).m_descriptor_set_capacity ∧
      (layout_bound descriptor_c true).GetDescriptorSet std_hash_identity dev1 =
        Except.error (no_capacity_message, dev1)) :=
  ⟨(GetDescriptorSet_no_capacity std_hash_identity).1 (layout_bound descriptor_c true)
      (device_one 1) (by decide) (by decide),
    (GetDescriptorSet_no_capacity std_hash_identity).2 [layout_bound descriptor_a true]
      (layout_bound descriptor_c true) (device_empty 1) (by decide) (by decide) (by decide)⟩

/-! ## `GetDynamicOffsets` and `ClearDescriptorData` -/

theorem GetDynamicOffsets_loop_eq : ∀ (ds : List RHI_Descriptor) (offsets : List Nat),
    GetDynamicOffsets_loop ds offsets =
      offsets ++ (ds.filter (fun d =>
        decide (d.type = RHI_Descriptor_Type.ConstantBuffer ∨
          d.type = RHI_Descriptor_Type.StructuredBuffer))).map RHI_Descriptor.dynamic_offset := by
  intro ds
  induction ds with
  | nil => intro offsets; simp [GetDynamicOffsets_loop]
  | cons d rest ih =>
    intro offsets
    rw [GetDynamicOffsets_loop]
    by_cases h : d.type = RHI_Descriptor_Type.StructuredBuffer ∨
        d.type = RHI_Descriptor_Type.ConstantBuffer
    · have h' : d.type = RHI_Descriptor_Type.ConstantBuffer ∨
          d.type = RHI_Descriptor_Type.StructuredBuffer := h.symm
      simp [h, h', ih, List.filter_cons]
    · have h' : ¬ (d.type = RHI_Descriptor_Type.ConstantBuffer ∨
          d.type = RHI_Descriptor_Type.StructuredBuffer) := fun hc => h hc.symm
      simp [h, h', ih, List.filter_cons]

/-- C15: whatever the output vector holds on entry, `GetDynamicOffsets` leaves in
it the `dynamic_offset` of the descriptors of type ConstantBuffer or
StructuredBuffer, in the order of the layout, and nothing else; its length is
the number of such descriptors. -/
theorem GetDynamicOffsets_eq (l : RHI_DescriptorSetLayout) (offsets : List Nat) :
    l.GetDynamicOffsets offsets =
      (l.m_descriptors.filter (fun d =>
        decide (d.type = RHI_Descriptor_Type.ConstantBuffer ∨
          d.type = RHI_Descriptor_Type.StructuredBuffer))).map RHI_Descriptor.dynamic_offset ∧
    (l.GetDynamicOffsets offsets).length =
      l.m_descriptors.countP (fun d =>
        decide (d.type = RHI_Descriptor_Type.ConstantBuffer ∨
          d.type = RHI_Descriptor_Type.StructuredBuffer)) := by
  have h : l.GetDynamicOffsets offsets =
      (l.m_descriptors.filter (fun d =>
        decide (d.type = RHI_Descriptor_Type.ConstantBuffer ∨
          d.type = RHI_Descriptor_Type.StructuredBuffer))).map RHI_Descriptor.dynamic_offset := by
    unfold RHI_DescriptorSetLayout.GetDynamicOffsets vector_clear
    rw [GetDynamicOffsets_loop_eq]
    simp
  refine ⟨h, ?_⟩
  rw [h, List.length_map, List.countP_eq_length_filter]

/-- C16: `ClearDescriptorData` sets `data` to null and `mip` to 0 in every
descriptor and leaves the other fields of each descriptor (type, slot,
dynamic_offset, range, mip_range, layout), the number and order of the
descriptors, the name, the hash and `needs_to_bind` of the layout, and the
device with its descriptor-set cache unchanged. -/
theorem ClearDescriptorData_eq (l : RHI_DescriptorSetLayout) (dev : RHI_Device) :
    (l.ClearDescriptorData dev).2 = dev ∧
    (l.ClearDescriptorData dev).1.m_name = l.m_name ∧
    (l.ClearDescriptorData dev).1.m_hash = l.m_hash ∧
    (l.ClearDescriptorData dev).1.m_needs_to_bind = l.m_needs_to_bind ∧
    (l.ClearDescriptorData dev).1.m_descriptors.length = l.m_descriptors.length ∧
    ∀ i : Nat, (l.ClearDescriptorData dev).1.m_descriptors[i]? =
      (l.m_descriptors[i]?).map (fun d =>
        { type := d.type, slot := d.slot, data := 0, dynamic_offset := d.dynamic_offset,
          range := d.range, mip := 0, mip_range := d.mip_range, layout := d.layout }) := by
  refine ⟨rfl, rfl, rfl, rfl, ?_, ?_⟩
  · simp [RHI_DescriptorSetLayout.ClearDescriptorData]
  · intro i
    simp [RHI_DescriptorSetLayout.ClearDescriptorData, List.getElem?_map]

/-! ## `SetDescriptorSetCapacity` -/

theorem SetDescriptorSetCapacity_ok (dev : RHI_Device) (n : Nat) :
    dev.SetDescriptorSetCapacity n true = Except.ok
      { m_descriptor_sets := dev.m_descriptor_sets
        m_descriptor_set_capacity := if n = 0 then dev.m_descriptor_set_capacity else n
        profiler := dev.profiler.map (fun _ =>
          { m_descriptor_set_count := 0
            m_descriptor_set_capacity := if n = 0 then dev.m_descriptor_set_capacity else n }) } := by
  simp [RHI_Device.SetDescriptorSetCapacity]

/-- C20: when pool creation succeeds, `SetDescriptorSetCapacity(n)` returns with
the capacity equal to `n` if `n > 0` and to its previous value if `n = 0`; in
both cases a profiler, when there is one, then records 0 descriptor sets and the
capacity of the device. The descriptor-set map is not touched. -/
theorem SetDescriptorSetCapacity_eq (dev : RHI_Device) (n : Nat) :
    ∃ dev1, dev.SetDescriptorSetCapacity n true = Except.ok dev1 ∧
      (0 < n → dev1.m_descriptor_set_capacity = n) ∧
      (n = 0 → dev1.m_descriptor_set_capacity = dev.m_descriptor_set_capacity) ∧
      dev1.profiler = dev.profiler.map (fun _ =>
        { m_descriptor_set_count := 0
          m_descriptor_set_capacity := dev1.m_descriptor_set_capacity }) ∧
      dev1.m_descriptor_sets = dev.m_descriptor_sets := by
  refine ⟨_, SetDescriptorSetCapacity_ok dev n, ?_, ?_, rfl, rfl⟩
  · intro h
    have : n ≠ 0 := by omega
    simp [this]
  · intro h
    simp [h]

theorem SetDescriptorSetCapacity_eq_witness :
    (device_two 2).SetDescriptorSetCapacity 64 true = Except.ok
      { m_descriptor_sets := (device_two 2).m_descriptor_sets
        m_descriptor_set_capacity := 64
        profiler := some { m_descriptor_set_count := 0, m_descriptor_set_capacity := 64 } } ∧
    (device_two 2).SetDescriptorSetCapacity 0 true = Except.ok
      { m_descriptor_sets := (device_two 2).m_descriptor_sets
        m_descriptor_set_capacity := 2
        profiler := some { m_descriptor_set_count := 0, m_descriptor_set_capacity := 2 } } ∧
    (∃ dev1, (device_two 2).SetDescriptorSetCapacity 64 true = Except.ok dev1 ∧
      (0 < 64 → dev1.m_descriptor_set_capacity = 64)) :=
  ⟨by decide, by decide,
    (SetDescriptorSetCapacity_eq (device_two 2) 64).imp (fun _ h => ⟨h.1, h.2.1⟩)⟩

/-! ## The setters of a layout -/

theorem bind_first_frame (m : RHI_Descriptor → Bool) (r : RHI_Descriptor → Bool → Bool)
    (w : RHI_Descriptor → RHI_Descriptor) : ∀ (ds : List RHI_Descriptor) (flag : Bool),
    (bind_first m r w ds flag).1.length = ds.length ∧
    (∀ (i : Nat) (d : RHI_Descriptor), ds[i]? = some d → m d = false →
      (bind_first m r w ds flag).1[i]? = some d) ∧
    ((∀ d ∈ ds, m d = false) → bind_first m r w ds flag = (ds, flag)) := by
  intro ds
  induction ds with
  | nil => intro flag; simp [bind_first]
  | cons d0 rest ih =>
    intro flag
    obtain ⟨hlen, hget, hnone⟩ := ih flag
    rw [bind_first]
    by_cases hm : m d0 = true
    · simp only [hm, if_true]
      refine ⟨by simp, ?_, ?_⟩
      · intro i d hi hd
        cases i with
        | zero =>
          simp only [List.getElem?_cons_zero, Option.some.injEq] at hi
          subst hi
          rw [hm] at hd
          cases hd
        | succ j => simpa using hi
      · intro hall
        have := hall d0 (List.mem_cons_self _ _)
        rw [hm] at this
        cases this
    · have hm' : m d0 = false := by simpa using hm
      simp only [hm', Bool.false_eq_true, if_false]
      refine ⟨by simp [hlen], ?_, ?_⟩
      · intro i d hi hd
        cases i with
        | zero => simpa using hi
        | succ j =>
          simp only [List.getElem?_cons_succ] at hi ⊢
          exact hget j d hi hd
      · intro hall
        rw [hnone (fun d hd => hall d (List.mem_cons_of_mem _ hd))]

theorem bind_first_flag (m : RHI_Descriptor → Bool) (r : RHI_Descriptor → Bool → Bool)
    (w : RHI_Descriptor → RHI_Descriptor) : ∀ (ds : List RHI_Descriptor) (flag : Bool),
    (bind_first m r w ds flag).2 =
      match ds.find? m with
      | none => flag
      | some d => r d flag := by
  intro ds
  induction ds with
  | nil => intro flag; rfl
  | cons d0 rest ih =>
    intro flag
    rw [bind_first]
    by_cases hm : m d0 = true
    · simp [hm, List.find?_cons]
    · have hm' : m d0 = false := by simpa using hm
      simp only [hm', Bool.false_eq_true, if_false, List.find?_cons]
      exact ih flag

theorem bind_first_type (m : RHI_Descriptor → Bool) (r : RHI_Descriptor → Bool → Bool)
    (w : RHI_Descriptor → RHI_Descriptor) (hw : ∀ d, (w d).type = d.type) :
    ∀ (ds : List RHI_Descriptor) (flag : Bool) (i : Nat),
    ((bind_first m r w ds flag).1[i]?).map RHI_Descriptor.type =
      (ds[i]?).map RHI_Descriptor.type := by
  intro ds
  induction ds with
  | nil => intro flag i; simp [bind_first]
  | cons d0 rest ih =>
    intro flag i
    rw [bind_first]
    by_cases hm : m d0 = true
    · simp only [hm, if_true]
      cases i with
      | zero => simp [hw]
      | succ j => simp
    · have hm' : m d0 = false := by simpa using hm
      simp only [hm', Bool.false_eq_true, if_false]
      cases i with
      | zero => simp
      | succ j => simpa using ih flag j

/-- What a loop of the shape `bind_first` writes only, in terms of
`WritesOnly`, when matching means having type `type` at slot `slot`. -/
theorem bind_first_WritesOnly (l : RHI_DescriptorSetLayout) (m : RHI_Descriptor → Bool)
    (r : RHI_Descriptor → Bool → Bool) (w : RHI_Descriptor → RHI_Descriptor)
    (type : RHI_Descriptor_Type) (slot : Nat)
    (hm : ∀ d, m d = true ↔ (d.type = type ∧ d.slot = slot)) :
    l.WritesOnly
      { l with
        m_descriptors := (bind_first m r w l.m_descriptors l.m_needs_to_bind).1
        m_needs_to_bind := (bind_first m r w l.m_descriptors l.m_needs_to_bind).2 }
      type slot := by
  obtain ⟨hlen, hget, hnone⟩ := bind_first_frame m r w l.m_descriptors l.m_needs_to_bind
  have hfalse : ∀ d, (d.type ≠ type ∨ d.slot ≠ slot) → m d = false := by
    intro d hd
    cases hmd : m d with
    | false => rfl
    | true =>
      have := (hm d).mp hmd
      rcases hd with h | h
      · exact absurd this.1 h
      · exact absurd this.2 h
  refine ⟨rfl, rfl, hlen, fun i d hi hd => hget i d hi (hfalse d hd), ?_⟩
  intro hall
  rw [hnone (fun d hd => hfalse d (hall d hd))]

/-- C12: each setter leaves the name, the hash and the number and order of the
descriptors alone, leaves unchanged every descriptor whose type is not the
setter's type or whose slot is not the slot number plus the setter's register
shift (in `uint32_t` arithmetic; b = 100, u = 0, s = 300, and for textures u = 0
with type TextureStorage when the texture's layout is General, t = 200 with type
Texture otherwise), and leaves the whole layout, `needs_to_bind` included,
unchanged when no descriptor has that type and slot. -/
theorem setters_WritesOnly :
    (∀ (l : RHI_DescriptorSetLayout) (slot : Nat) (constant_buffer : RHI_ConstantBuffer),
      l.WritesOnly (l.SetConstantBuffer slot constant_buffer)
        RHI_Descriptor_Type.ConstantBuffer ((slot + 100) % UINT32_SIZE)) ∧
    (∀ (l : RHI_DescriptorSetLayout) (slot : Nat) (structured_buffer : RHI_StructuredBuffer),
      l.WritesOnly (l.SetStructuredBuffer slot structured_buffer)
        RHI_Descriptor_Type.StructuredBuffer ((slot + 0) % UINT32_SIZE)) ∧
    (∀ (l : RHI_DescriptorSetLayout) (slot : Nat) (sampler : Nat),
      l.WritesOnly (l.SetSampler slot sampler)
        RHI_Descriptor_Type.Sampler ((slot + 300) % UINT32_SIZE)) ∧
    (∀ (l l1 : RHI_DescriptorSetLayout) (slot : Nat) (texture : RHI_Texture)
      (mip_index mip_range : Nat),
      l.SetTexture slot texture mip_index mip_range = Except.ok l1 →
      l.WritesOnly l1
        (if SetTexture_layout texture mip_index = RHI_Image_Layout.General then
          RHI_Descriptor_Type.TextureStorage else RHI_Descriptor_Type.Texture)
        ((slot + (if SetTexture_layout texture mip_index = RHI_Image_Layout.General then 0
          else 200)) % UINT32_SIZE)) := by
  refine ⟨?_, ?_, ?_, ?_⟩
  · intro l slot constant_buffer
    exact bind_first_WritesOnly l _ _ _ _ _ (by intro d; simp [rhi_shader_shift_register_b])
  · intro l slot structured_buffer
    exact bind_first_WritesOnly l _ _ _ _ _ (by intro d; simp [rhi_shader_shift_register_u])
  · intro l slot sampler
    exact bind_first_WritesOnly l _ _ _ _ _ (by intro d; simp [rhi_shader_shift_register_s])
  · intro l l1 slot texture mip_index mip_range h
    unfold RHI_DescriptorSetLayout.SetTexture at h
    simp only at h
    split at h
    · cases h
    · split at h
      · cases h
      · simp only [Except.ok.injEq] at h
        subst h
        exact bind_first_WritesOnly l _ _ _ _ _
          (by
            intro d
            simp [SetTexture_type, SetTexture_shift, rhi_shader_shift_register_u,
              rhi_shader_shift_register_t])

theorem setters_WritesOnly_witness :
    layout_five.SetTexture 0 texture_general rhi_all_mips 0 =
      Except.ok
        { layout_five with
          m_descriptors := layout_five.m_descriptors.set 2
            { descriptor_unbound RHI_Descriptor_Type.TextureStorage 0 with
              data := 12288, mip := rhi_all_mips, layout := RHI_Image_Layout.General }
          m_needs_to_bind := true } ∧
    layout_five.WritesOnly
      { layout_five with
        m_descriptors := layout_five.m_descriptors.set 2
          { descriptor_unbound RHI_Descriptor_Type.TextureStorage 0 with
            data := 12288, mip := rhi_all_mips, layout := RHI_Image_Layout.General }
        m_needs_to_bind := true }
      (if SetTexture_layout texture_general rhi_all_mips = RHI_Image_Layout.General then
        RHI_Descriptor_Type.TextureStorage else RHI_Descriptor_Type.Texture)
      ((0 + (if SetTexture_layout texture_general rhi_all_mips = RHI_Image_Layout.General
        then 0 else 200)) % UINT32_SIZE) :=
  ⟨by decide,
    setters_WritesOnly.2.2.2 layout_five _ 0 texture_general rhi_all_mips 0 (by decide)⟩

theorem call_rebinds_flag (c : Setter_call) (l l1 : RHI_DescriptorSetLayout)
    (hrebinds : c.rebinds l = true) (hcall : l.call c = Except.ok l1) :
    l1.m_needs_to_bind = l.m_needs_to_bind := by
  cases c with
  | SetConstantBuffer slot constant_buffer =>
    simp only [RHI_DescriptorSetLayout.call, Except.ok.injEq] at hcall
    subst hcall
    simp only [RHI_DescriptorSetLayout.SetConstantBuffer, bind_first_flag]
    simp only [Setter_call.rebinds, Setter_call.target] at hrebinds
    split
    · rfl
    · rename_i d hd
      simp only [hd, decide_eq_true_eq] at hrebinds
      simp [hrebinds.1, hrebinds.2.1, hrebinds.2.2]
  | SetStructuredBuffer slot structured_buffer =>
    simp only [RHI_DescriptorSetLayout.call, Except.ok.injEq] at hcall
    subst hcall
    simp only [RHI_DescriptorSetLayout.SetStructuredBuffer, bind_first_flag]
    simp only [Setter_call.rebinds, Setter_call.target] at hrebinds
    split
    · rfl
    · rename_i d hd
      simp only [hd, decide_eq_true_eq] at hrebinds
      simp [hrebinds.1, hrebinds.2.1, hrebinds.2.2]
  | SetSampler slot sampler =>
    simp only [RHI_DescriptorSetLayout.call, Except.ok.injEq] at hcall
    subst hcall
    simp only [RHI_DescriptorSetLayout.SetSampler, bind_first_flag]
    simp only [Setter_call.rebinds, Setter_call.target] at hrebinds
    split
    · rfl
    · rename_i d hd
      simp only [hd, decide_eq_true_eq] at hrebinds
      simp [hrebinds]
  | SetTexture slot texture mip_index mip_range =>
    simp only [RHI_DescriptorSetLayout.call] at hcall
    unfold RHI_DescriptorSetLayout.SetTexture at hcall
    simp only at hcall
    split at hcall
    · cases hcall
    · split at hcall
      · cases hcall
      · simp only [Except.ok.injEq] at hcall
        subst hcall
        simp only [bind_first_flag]
        simp only [Setter_call.rebinds, Setter_call.target] at hrebinds
        split
        · rfl
        · rename_i d hd
          simp only [hd, decide_eq_true_eq] at hrebinds
          simp [hrebinds.1, hrebinds.2.1, hrebinds.2.2]

/-- C13: starting from a layout with `needs_to_bind` false, after any finite
sequence of setter calls each of which re-applies to the slot it addresses the
value bound there at that time (same resource pointer and, for a buffer, same
dynamic offset and range, for a texture, same mip and mip range),
`needs_to_bind` is still false. A single call is the sequence of length one. -/
theorem rebinding_keeps_flag_clear : ∀ (cs : List Setter_call)
    (l l1 : RHI_DescriptorSetLayout), l.m_needs_to_bind = false →
    Setter_call.rebinds_all cs l = true → l.calls cs = Except.ok l1 →
    l1.m_needs_to_bind = false := by
  intro cs
  induction cs with
  | nil =>
    intro l l1 hflag _ hcalls
    simp only [RHI_DescriptorSetLayout.calls, Except.ok.injEq] at hcalls
    rw [← hcalls]
    exact hflag
  | cons c rest ih =>
    intro l l1 hflag hall hcalls
    simp only [Setter_call.rebinds_all, Bool.and_eq_true] at hall
    simp only [RHI_DescriptorSetLayout.calls] at hcalls
    cases hc : l.call c with
    | error e => simp [hc] at hcalls
    | ok l2 =>
      simp only [hc] at hcalls hall
      have hflag2 : l2.m_needs_to_bind = false := by
        rw [call_rebinds_flag c l l2 hall.1 hc]
        exact hflag
      exact ih l2 l1 hflag2 hall.2 hcalls

theorem rebinding_keeps_flag_clear_witness :
    layout_five_bound.m_needs_to_bind = false ∧
    Setter_call.rebinds_all five_calls layout_five_bound = true ∧
    layout_five_bound.calls five_calls = Except.ok layout_five_bound ∧
    layout_five_bound.m_needs_to_bind = false :=
  ⟨by decide, by decide, by decide,
    rebinding_keeps_flag_clear five_calls layout_five_bound layout_five_bound
      (by decide) (by decide) (by decide)⟩

/-- A successful `SetTexture` writes only descriptors of the type and at the
shifted slot selected by the texture's layout, and changes no descriptor's
type. -/
theorem SetTexture_ok (l l1 : RHI_DescriptorSetLayout) (slot : Nat) (texture : RHI_Texture)
    (mip_index mip_range : Nat)
    (h : l.SetTexture slot texture mip_index mip_range = Except.ok l1) :
    l.WritesOnly l1 (SetTexture_type (SetTexture_layout texture mip_index))
      ((slot + SetTexture_shift (SetTexture_layout texture mip_index)) % UINT32_SIZE) ∧
    (∀ i : Nat, (l1.m_descriptors[i]?).map RHI_Descriptor.type =
      (l.m_descriptors[i]?).map RHI_Descriptor.type) ∧
    (SetTexture_layout texture mip_index = RHI_Image_Layout.General ∨
      SetTexture_layout texture mip_index = RHI_Image_Layout.Shader_Read_Only_Optimal ∨
      SetTexture_layout texture mip_index = RHI_Image_Layout.Depth_Stencil_Read_Only_Optimal) ∧
    texture.IsSrv = true := by
  unfold RHI_DescriptorSetLayout.SetTexture at h
  simp only at h
  split at h
  · cases h
  · rename_i hlayout
    split at h
    · cases h
    · rename_i hsrv
      simp only [Except.ok.injEq] at h
      subst h
      refine ⟨bind_first_WritesOnly l _ _ _ _ _ (by intro d; simp), ?_, ?_, ?_⟩
      · intro i
        refine bind_first_type _ _ _ ?_ l.m_descriptors l.m_needs_to_bind i
        intro d
        rfl
      · exact Decidable.of_not_not hlayout
      · simpa using hsrv

/-- C14: on the same layout and slot number, `SetTexture` with a texture in
layout General changes at most descriptors of type TextureStorage at slot
`slot + rhi_shader_shift_register_u`, and with a texture in layout
Shader_Read_Only_Optimal or Depth_Stencil_Read_Only_Optimal at most descriptors
of type Texture at slot `slot + rhi_shader_shift_register_t` (sums in
`uint32_t`); no descriptor is changed by both calls, and when the second call
follows the first it leaves what the first one wrote in place. -/
theorem SetTexture_storage_or_sampled (l lg ls lgs : RHI_DescriptorSetLayout) (slot : Nat)
    (tg ts : RHI_Texture) (mip_g range_g mip_s range_s : Nat)
    (hg : SetTexture_layout tg mip_g = RHI_Image_Layout.General)
    (hs : SetTexture_layout ts mip_s = RHI_Image_Layout.Shader_Read_Only_Optimal ∨
      SetTexture_layout ts mip_s = RHI_Image_Layout.Depth_Stencil_Read_Only_Optimal)
    (hcg : l.SetTexture slot tg mip_g range_g = Except.ok lg)
    (hcs : l.SetTexture slot ts mip_s range_s = Except.ok ls)
    (hcgs : lg.SetTexture slot ts mip_s range_s = Except.ok lgs) :
    (∀ (i : Nat) (d : RHI_Descriptor), l.m_descriptors[i]? = some d →
      lg.m_descriptors[i]? ≠ some d →
      d.type = RHI_Descriptor_Type.TextureStorage ∧
        d.slot = (slot + rhi_shader_shift_register_u) % UINT32_SIZE) ∧
    (∀ (i : Nat) (d : RHI_Descriptor), l.m_descriptors[i]? = some d →
      ls.m_descriptors[i]? ≠ some d →
      d.type = RHI_Descriptor_Type.Texture ∧
        d.slot = (slot + rhi_shader_shift_register_t) % UINT32_SIZE) ∧
    (∀ i : Nat, lg.m_descriptors[i]? = l.m_descriptors[i]? ∨
      ls.m_descriptors[i]? = l.m_descriptors[i]?) ∧
    (∀ i : Nat, lg.m_descriptors[i]? ≠ l.m_descriptors[i]? →
      lgs.m_descriptors[i]? = lg.m_descriptors[i]?) := by
  obtain ⟨⟨_, _, hlen_g, hframe_g, _⟩, htype_g, _, _⟩ := SetTexture_ok l lg slot tg mip_g range_g hcg
  obtain ⟨⟨_, _, hlen_s, hframe_s, _⟩, _, _, _⟩ := SetTexture_ok l ls slot ts mip_s range_s hcs
  obtain ⟨⟨_, _, hlen_gs, hframe_gs, _⟩, _, _, _⟩ :=
    SetTexture_ok lg lgs slot ts mip_s range_s hcgs
  have hTs : SetTexture_type (SetTexture_layout ts mip_s) = RHI_Descriptor_Type.Texture := by
    rcases hs with h | h <;> simp [SetTexture_type, h]
  have hSs : SetTexture_shift (SetTexture_layout ts mip_s) = rhi_shader_shift_register_t := by
    rcases hs with h | h <;> simp [SetTexture_shift, h]
  have hTg : SetTexture_type (SetTexture_layout tg mip_g) =
      RHI_Descriptor_Type.TextureStorage := by simp [SetTexture_type, hg]
  have hSg : SetTexture_shift (SetTexture_layout tg mip_g) = rhi_shader_shift_register_u := by
    simp [SetTexture_shift, hg]
  rw [hTg, hSg] at hframe_g
  rw [hTs, hSs] at hframe_s hframe_gs
  have part1 : ∀ (i : Nat) (d : RHI_Descriptor), l.m_descriptors[i]? = some d →
      lg.m_descriptors[i]? ≠ some d →
      d.type = RHI_Descriptor_Type.TextureStorage ∧
        d.slot = (slot + rhi_shader_shift_register_u) % UINT32_SIZE := by
    intro i d hi hne
    by_contra hcon
    apply hne
    apply hframe_g i d hi
    by_cases ht : d.type = RHI_Descriptor_Type.TextureStorage
    · exact Or.inr (fun hslot => hcon ⟨ht, hslot⟩)
    · exact Or.inl ht
  have part2 : ∀ (i : Nat) (d : RHI_Descriptor), l.m_descriptors[i]? = some d →
      ls.m_descriptors[i]? ≠ some d →
      d.type = RHI_Descriptor_Type.Texture ∧
        d.slot = (slot + rhi_shader_shift_register_t) % UINT32_SIZE := by
    intro i d hi hne
    by_contra hcon
    apply hne
    apply hframe_s i d hi
    by_cases ht : d.type = RHI_Descriptor_Type.Texture
    · exact Or.inr (fun hslot => hcon ⟨ht, hslot⟩)
    · exact Or.inl ht
  have hnone : ∀ (a b : List RHI_Descriptor) (i : Nat), a.length = b.length →
      b[i]? = none → a[i]? = none := by
    intro a b i hab hb
    rw [List.getElem?_eq_none_iff] at hb ⊢
    omega
  refine ⟨part1, part2, ?_, ?_⟩
  · intro i
    cases hi : l.m_descriptors[i]? with
    | none => left; exact hnone _ _ i hlen_g hi
    | some d =>
      by_cases hd : d.type = RHI_Descriptor_Type.TextureStorage
      · right
        exact hframe_s i d hi (Or.inl (by rw [hd]; decide))
      · left
        exact hframe_g i d hi (Or.inl hd)
  · intro i hne
    cases hi : l.m_descriptors[i]? with
    | none => exact absurd (hnone _ _ i hlen_g hi) (by rw [hi] at hne; exact hne)
    | some d =>
      rw [hi] at hne
      have hd := (part1 i d hi hne).1
      cases hgi : lg.m_descriptors[i]? with
      | none => exact hnone _ _ i hlen_gs hgi
      | some dg =>
        have ht := htype_g i
        rw [hgi, hi] at ht
        simp only [Option.map_some', Option.some.injEq] at ht
        exact hframe_gs i dg hgi (Or.inl (by rw [ht, hd]; decide))

theorem SetTexture_storage_or_sampled_witness :
    layout_five.SetTexture 0 texture_general rhi_all_mips 0 = Except.ok layout_five_storage ∧
    layout_five.SetTexture 0 texture_sampled rhi_all_mips 0 = Except.ok layout_five_sampled ∧
    layout_five_storage.SetTexture 0 texture_sampled rhi_all_mips 0 =
      Except.ok layout_five_both ∧
    (∀ i : Nat, layout_five_storage.m_descriptors[i]? ≠ layout_five.m_descriptors[i]? →
      layout_five_both.m_descriptors[i]? = layout_five_storage.m_descriptors[i]?) :=
  ⟨by decide, by decide, by decide,
    (SetTexture_storage_or_sampled layout_five layout_five_storage layout_five_sampled
      layout_five_both 0 texture_general texture_sampled rhi_all_mips 0 rhi_all_mips 0
      (by decide) (by decide) (by decide) (by decide) (by decide)).2.2.2⟩


/-! ## `QueueSubmit` -/

theorem QueueSubmit_validate_spec (objects : List RHI_Sync_State) (object : Option Nat)
    (forbidden : RHI_Sync_State) (hvalid : ∀ p, object = some p → p < objects.length) :
    ∃ b, QueueSubmit_validate objects object forbidden = some b ∧
      (b = false ↔ ∃ p, object = some p ∧ GetCpuState objects p = some forbidden) := by
  cases object with
  | none => exact ⟨true, rfl, by simp⟩
  | some p =>
    have hp := hvalid p rfl
    simp only [QueueSubmit_validate, GetCpuState, List.getElem?_eq_getElem hp]
    refine ⟨_, rfl, ?_⟩
    simp [List.getElem?_eq_getElem hp]

theorem QueueSubmit_returns_inv (sync sync1 : RHI_SyncObjects) (cmd_buffer : Nat)
    (w s f : Option Nat) (vk_success : Bool)
    (h : RHI_Device.QueueSubmit sync cmd_buffer w s f vk_success = some (Except.ok sync1)) :
    cmd_buffer ≠ 0 ∧
    QueueSubmit_validate sync.semaphores w RHI_Sync_State.Idle = some true ∧
    QueueSubmit_validate sync.semaphores s RHI_Sync_State.Submitted = some true ∧
    QueueSubmit_validate sync.fences f RHI_Sync_State.Submitted = some true ∧
    vk_success = true ∧
    sync1 =
      { semaphores :=
          QueueSubmit_update (QueueSubmit_update sync.semaphores w RHI_Sync_State.Idle) s RHI_Sync_State.Submitted
        fences := QueueSubmit_update sync.fences f RHI_Sync_State.Submitted } := by
  unfold RHI_Device.QueueSubmit at h
  by_cases hc : cmd_buffer = 0
  · simp [hc] at h
  · simp only [hc, if_false] at h
    cases hw : QueueSubmit_validate sync.semaphores w RHI_Sync_State.Idle with
    | none => simp [hw] at h
    | some bw =>
      cases bw with
      | false => simp [hw] at h
      | true =>
        simp only [hw] at h
        cases hs : QueueSubmit_validate sync.semaphores s RHI_Sync_State.Submitted with
        | none => simp [hs] at h
        | some bs =>
          cases bs with
          | false => simp [hs] at h
          | true =>
            simp only [hs] at h
            cases hf : QueueSubmit_validate sync.fences f RHI_Sync_State.Submitted with
            | none => simp [hf] at h
            | some bf =>
              cases bf with
              | false => simp [hf] at h
              | true =>
                simp only [hf] at h
                cases vk_success with
                | false => simp at h
                | true =>
                  simp only [if_true, Option.some.injEq, Except.ok.injEq] at h
                  exact ⟨hc, rfl, rfl, rfl, rfl, h.symm⟩

theorem QueueSubmit_validate_true (objects : List RHI_Sync_State) (p : Nat)
    (forbidden : RHI_Sync_State)
    (h : QueueSubmit_validate objects (some p) forbidden = some true) :
    ∃ state, objects[p]? = some state ∧ state ≠ forbidden ∧ p < objects.length := by
  simp only [QueueSubmit_validate, GetCpuState] at h
  cases hp : objects[p]? with
  | none => simp [hp] at h
  | some state =>
    simp only [hp, Option.some.injEq, decide_eq_true_eq] at h
    refine ⟨state, rfl, h, ?_⟩
    by_contra hc
    rw [List.getElem?_eq_none (by omega)] at hp
    cases hp

/-- C17: with valid pointers and a succeeding backend submit, `QueueSubmit`
returns or fails on an assertion, and it fails exactly when the command buffer
is null, or a wait semaphore is given and is Idle, or a signal semaphore is
given and is Submitted, or a signal fence is given and is Submitted; at a
failure the semaphore and fence states are those on entry. -/
theorem QueueSubmit_fatal_iff (sync : RHI_SyncObjects) (cmd_buffer : Nat)
    (w s f : Option Nat)
    (hw : ∀ p, w = some p → p < sync.semaphores.length)
    (hs : ∀ p, s = some p → p < sync.semaphores.length)
    (hf : ∀ p, f = some p → p < sync.fences.length) :
    ∃ r, RHI_Device.QueueSubmit sync cmd_buffer w s f true = some r ∧
      ((∃ e, r = Except.error e) ↔
        (cmd_buffer = 0 ∨
          (∃ p, w = some p ∧ GetCpuState sync.semaphores p = some RHI_Sync_State.Idle) ∨
          (∃ p, s = some p ∧ GetCpuState sync.semaphores p = some RHI_Sync_State.Submitted) ∨
          (∃ p, f = some p ∧ GetCpuState sync.fences p = some RHI_Sync_State.Submitted))) ∧
      (∀ message sync1, r = Except.error (message, sync1) → sync1 = sync) := by
  obtain ⟨bw, hbw, hbw'⟩ := QueueSubmit_validate_spec sync.semaphores w RHI_Sync_State.Idle hw
  obtain ⟨bs, hbs, hbs'⟩ := QueueSubmit_validate_spec sync.semaphores s RHI_Sync_State.Submitted hs
  obtain ⟨bf, hbf, hbf'⟩ := QueueSubmit_validate_spec sync.fences f RHI_Sync_State.Submitted hf
  unfold RHI_Device.QueueSubmit
  by_cases hc : cmd_buffer = 0
  · simp [hc]
  · simp only [hc, if_false, hbw, hbs, hbf, false_or]
    cases bw with
    | false =>
      refine ⟨_, rfl, ?_, ?_⟩
      · simp [hbw'.mp rfl]
      · intro message sync1 h
        simp only [Except.error.injEq, Prod.mk.injEq] at h
        exact h.2.symm
    | true =>
      have hnw : ¬ ∃ p, w = some p ∧ GetCpuState sync.semaphores p = some RHI_Sync_State.Idle :=
        fun h => by simpa using hbw'.mpr h
      cases bs with
      | false =>
        refine ⟨_, rfl, ?_, ?_⟩
        · simp [hbs'.mp rfl]
        · intro message sync1 h
          simp only [Except.error.injEq, Prod.mk.injEq] at h
          exact h.2.symm
      | true =>
        have hns : ¬ ∃ p, s = some p ∧ GetCpuState sync.semaphores p = some RHI_Sync_State.Submitted :=
          fun h => by simpa using hbs'.mpr h
        cases bf with
        | false =>
          refine ⟨_, rfl, ?_, ?_⟩
          · simp [hbf'.mp rfl]
          · intro message sync1 h
            simp only [Except.error.injEq, Prod.mk.injEq] at h
            exact h.2.symm
        | true =>
          have hnf : ¬ ∃ p, f = some p ∧ GetCpuState sync.fences p = some RHI_Sync_State.Submitted :=
            fun h => by simpa using hbf'.mpr h
          refine ⟨_, rfl, ?_, ?_⟩
          · simp only [if_true, hnw, hns, hnf, or_self, iff_false]
            rintro ⟨e, he⟩
            cases he
          · intro message sync1 h
            simp at h

theorem QueueSubmit_fatal_iff_witness :
    RHI_Device.QueueSubmit sync_five 1 (some 0) (some 3) (some 0) true =
      some (Except.error ("Signal semaphore is already in a signaled state.", sync_five)) ∧
    RHI_Device.QueueSubmit sync_five 1 (some 0) (some 4) (some 0) true =
      some (Except.ok
        { semaphores := [RHI_Sync_State.Idle, RHI_Sync_State.Submitted, RHI_Sync_State.Submitted, RHI_Sync_State.Submitted, RHI_Sync_State.Submitted]
          fences := [RHI_Sync_State.Submitted, RHI_Sync_State.Submitted] }) ∧
    (∃ r, RHI_Device.QueueSubmit sync_five 1 (some 0) (some 3) (some 0) true = some r ∧
      ((∃ e, r = Except.error e) ↔
        ((1 : Nat) = 0 ∨
          (∃ p, some 0 = some p ∧ GetCpuState sync_five.semaphores p = some RHI_Sync_State.Idle) ∨
          (∃ p, some 3 = some p ∧ GetCpuState sync_five.semaphores p = some RHI_Sync_State.Submitted) ∨
          (∃ p, some 0 = some p ∧ GetCpuState sync_five.fences p = some RHI_Sync_State.Submitted))) ∧
      (∀ message sync1, r = Except.error (message, sync1) → sync1 = sync_five)) :=
  ⟨by decide, by decide,
    QueueSubmit_fatal_iff sync_five 1 (some 0) (some 3) (some 0)
      (by intro p h; cases h; decide) (by intro p h; cases h; decide)
      (by intro p h; cases h; decide)⟩

/-- C18: when `QueueSubmit` returns, the wait semaphore (if given) is Idle, the
signal semaphore (if given) is Submitted, the signal fence (if given) is
Submitted, and every other semaphore and fence has the state it had on entry;
no sync object is created or destroyed. -/
theorem QueueSubmit_ok (sync sync1 : RHI_SyncObjects) (cmd_buffer : Nat)
    (w s f : Option Nat) (vk_success : Bool)
    (h : RHI_Device.QueueSubmit sync cmd_buffer w s f vk_success = some (Except.ok sync1)) :
    (∀ p, w = some p → GetCpuState sync1.semaphores p = some RHI_Sync_State.Idle) ∧
    (∀ p, s = some p → GetCpuState sync1.semaphores p = some RHI_Sync_State.Submitted) ∧
    (∀ p, f = some p → GetCpuState sync1.fences p = some RHI_Sync_State.Submitted) ∧
    (∀ q, w ≠ some q → s ≠ some q →
      GetCpuState sync1.semaphores q = GetCpuState sync.semaphores q) ∧
    (∀ q, f ≠ some q → GetCpuState sync1.fences q = GetCpuState sync.fences q) ∧
    sync1.semaphores.length = sync.semaphores.length ∧
    sync1.fences.length = sync.fences.length := by
  obtain ⟨_, hw, hs, hf, _, rfl⟩ := QueueSubmit_returns_inv sync sync1 cmd_buffer w s f vk_success h
  simp only [GetCpuState]
  refine ⟨?_, ?_, ?_, ?_, ?_, ?_, ?_⟩
  · intro p hp
    subst hp
    obtain ⟨st, hst, hne, hlt⟩ := QueueSubmit_validate_true _ _ _ hw
    cases s with
    | none => simp [QueueSubmit_update, SetCpuState, hlt]
    | some q =>
      obtain ⟨st2, hst2, hne2, _⟩ := QueueSubmit_validate_true _ _ _ hs
      have hpq : q ≠ p := by
        intro hqp
        subst hqp
        rw [hst] at hst2
        simp only [Option.some.injEq] at hst2
        subst hst2
        cases st <;> simp_all
      simp [QueueSubmit_update, SetCpuState, List.getElem?_set_ne hpq, hlt]
  · intro q hq
    subst hq
    obtain ⟨st2, hst2, hne2, hlt⟩ := QueueSubmit_validate_true _ _ _ hs
    have hlen : q < (QueueSubmit_update sync.semaphores w RHI_Sync_State.Idle).length := by
      cases w <;> simp [QueueSubmit_update, SetCpuState, hlt]
    show ((QueueSubmit_update sync.semaphores w RHI_Sync_State.Idle).set q
      RHI_Sync_State.Submitted)[q]? = some RHI_Sync_State.Submitted
    exact List.getElem?_set_self hlen
  · intro p hp
    subst hp
    obtain ⟨st, hst, hne, hlt⟩ := QueueSubmit_validate_true _ _ _ hf
    simp [QueueSubmit_update, SetCpuState, hlt]
  · intro q hwq hsq
    have h1 : (QueueSubmit_update sync.semaphores w RHI_Sync_State.Idle)[q]? = sync.semaphores[q]? := by
      cases w with
      | none => rfl
      | some p =>
        have : p ≠ q := fun hpq => hwq (by rw [hpq])
        simp [QueueSubmit_update, SetCpuState, List.getElem?_set_ne this]
    cases s with
    | none => simpa [QueueSubmit_update] using h1
    | some p =>
      have : p ≠ q := fun hpq => hsq (by rw [hpq])
      simp only [QueueSubmit_update, SetCpuState] at h1 ⊢
      rw [List.getElem?_set_ne this]
      exact h1
  · intro q hfq
    cases f with
    | none => rfl
    | some p =>
      have : p ≠ q := fun hpq => hfq (by rw [hpq])
      simp [QueueSubmit_update, SetCpuState, List.getElem?_set_ne this]
  · cases w <;> cases s <;> simp [QueueSubmit_update, SetCpuState]
  · cases f <;> simp [QueueSubmit_update, SetCpuState]

theorem QueueSubmit_ok_witness :
    RHI_Device.QueueSubmit sync_five 1 (some 0) (some 4) (some 0) true =
      some (Except.ok
        { semaphores := [RHI_Sync_State.Idle, RHI_Sync_State.Submitted, RHI_Sync_State.Submitted, RHI_Sync_State.Submitted, RHI_Sync_State.Submitted]
          fences := [RHI_Sync_State.Submitted, RHI_Sync_State.Submitted] }) ∧
    (∀ p, some 0 = some p →
      GetCpuState [RHI_Sync_State.Idle, RHI_Sync_State.Submitted, RHI_Sync_State.Submitted, RHI_Sync_State.Submitted, RHI_Sync_State.Submitted] p = some RHI_Sync_State.Idle) :=
  ⟨by decide,
    (QueueSubmit_ok sync_five
      { semaphores := [RHI_Sync_State.Idle, RHI_Sync_State.Submitted, RHI_Sync_State.Submitted, RHI_Sync_State.Submitted, RHI_Sync_State.Submitted]
        fences := [RHI_Sync_State.Submitted, RHI_Sync_State.Submitted] }
      1 (some 0) (some 4) (some 0) true (by decide)).1⟩

/-! ## `QueuePresent` -/

theorem QueuePresent_validate_spec (semaphores : List RHI_Sync_State) :
    ∀ (ws : List Nat) (i : Nat), i + ws.length ≤ vk_wait_semaphores_size →
    (∀ p ∈ ws, p < semaphores.length) →
    QueuePresent_validate semaphores i ws =
      if ∀ p ∈ ws, GetCpuState semaphores p = some RHI_Sync_State.Submitted then QueuePresent_check.passed
      else QueuePresent_check.assertion_failed := by
  intro ws
  induction ws with
  | nil => intro i _ _; simp [QueuePresent_validate]
  | cons p rest ih =>
    intro i hlen hvalid
    simp only [List.length_cons] at hlen
    have hp := hvalid p (List.mem_cons_self _ _)
    rw [QueuePresent_validate]
    simp only [GetCpuState, List.getElem?_eq_getElem hp]
    by_cases hst : semaphores[p] = RHI_Sync_State.Submitted
    · have hi : ¬ vk_wait_semaphores_size ≤ i := by omega
      simp only [hst, ne_eq, not_true_eq_false, if_false, hi]
      rw [ih (i + 1) (by omega) (fun q hq => hvalid q (List.mem_cons_of_mem _ hq))]
      simp [GetCpuState, List.getElem?_eq_getElem hp, hst]
    · simp [hst, List.getElem?_eq_getElem hp]

theorem QueuePresent_update_spec : ∀ (ws : List Nat) (semaphores : List RHI_Sync_State),
    (QueuePresent_update semaphores ws).length = semaphores.length ∧
    ∀ q : Nat, (QueuePresent_update semaphores ws)[q]? =
      if q ∈ ws then (semaphores[q]?).map (fun _ => RHI_Sync_State.Idle) else semaphores[q]? := by
  intro ws
  induction ws with
  | nil => intro semaphores; simp [QueuePresent_update]
  | cons p rest ih =>
    intro semaphores
    obtain ⟨hlen, hget⟩ := ih (SetCpuState semaphores p RHI_Sync_State.Idle)
    rw [QueuePresent_update]
    refine ⟨by simpa [SetCpuState] using hlen, ?_⟩
    intro q
    rw [hget q]
    by_cases hqp : p = q
    · subst hqp
      by_cases hlt : p < semaphores.length
      · by_cases hr : p ∈ rest <;> simp [SetCpuState, hr, hlt]
      · have hn : semaphores[p]? = none := List.getElem?_eq_none (by omega)
        have hle : semaphores.length ≤ p := Nat.le_of_not_lt hlt
        by_cases hr : p ∈ rest <;> simp [SetCpuState, hr, hn, hle]
    · have hqp' : ¬ q = p := fun h => hqp h.symm
      simp only [SetCpuState, List.getElem?_set_ne hqp, List.mem_cons, hqp', false_or]

/-- C19: with four Submitted semaphores in the wait list `QueuePresent` stores
the fourth semaphore past the end of the three-element array
`vk_wait_semaphores`, so its behaviour is undefined instead of returning with
the four semaphores Idle; with a fifth semaphore that is Idle the same happens
before the assertion on the fifth is reached. -/
theorem QueuePresent_four_semaphores :
    (∀ p ∈ [0, 1, 2, 3], GetCpuState sync_five.semaphores p = some RHI_Sync_State.Submitted) ∧
    RHI_Device.QueuePresent sync_five [0, 1, 2, 3] true = none ∧
    GetCpuState sync_five.semaphores 4 = some RHI_Sync_State.Idle ∧
    RHI_Device.QueuePresent sync_five [0, 1, 2, 3, 4] true = none := by
  decide

/-- Within the size of `vk_wait_semaphores`: for every list of at most three
wait semaphores, all alive, `QueuePresent` fails on the assertion, with no
state changed, if some semaphore of the list is not Submitted; otherwise, the
backend present succeeding, it returns with every semaphore of the list Idle
and every other semaphore and every fence unchanged. -/
theorem QueuePresent_at_most_three (sync : RHI_SyncObjects) (ws : List Nat)
    (hlen : ws.length ≤ vk_wait_semaphores_size)
    (hvalid : ∀ p ∈ ws, p < sync.semaphores.length) :
    ((∃ p ∈ ws, GetCpuState sync.semaphores p ≠ some RHI_Sync_State.Submitted) →
      ∀ vk_success, RHI_Device.QueuePresent sync ws vk_success =
        some (Except.error ("The wait semaphore hasn't been signaled", sync))) ∧
    ((∀ p ∈ ws, GetCpuState sync.semaphores p = some RHI_Sync_State.Submitted) →
      ∃ sync1, RHI_Device.QueuePresent sync ws true = some (Except.ok sync1) ∧
        (∀ p ∈ ws, GetCpuState sync1.semaphores p = some RHI_Sync_State.Idle) ∧
        (∀ q, q ∉ ws → GetCpuState sync1.semaphores q = GetCpuState sync.semaphores q) ∧
        sync1.fences = sync.fences) := by
  have hv := QueuePresent_validate_spec sync.semaphores ws 0 (by omega) hvalid
  refine ⟨?_, ?_⟩
  · intro hsome vk_success
    have hnot : ¬ ∀ p ∈ ws, GetCpuState sync.semaphores p = some RHI_Sync_State.Submitted := by
      obtain ⟨p, hp, hne⟩ := hsome
      exact fun hall => hne (hall p hp)
    unfold RHI_Device.QueuePresent
    rw [hv, if_neg hnot]
  · intro hall
    obtain ⟨_, hget⟩ := QueuePresent_update_spec ws sync.semaphores
    refine ⟨{ sync with semaphores := QueuePresent_update sync.semaphores ws }, ?_, ?_, ?_, rfl⟩
    · unfold RHI_Device.QueuePresent
      rw [hv, if_pos hall]
      simp
    · intro p hp
      simp only [GetCpuState, hget p, hp, if_true]
      have := hall p hp
      simp only [GetCpuState] at this
      simp [this]
    · intro q hq
      simp only [GetCpuState, hget q, hq, if_false]

theorem QueuePresent_at_most_three_witness :
    RHI_Device.QueuePresent sync_five [0, 4] true =
      some (Except.error ("The wait semaphore hasn't been signaled", sync_five)) ∧
    RHI_Device.QueuePresent sync_five [0, 2, 3] true =
      some (Except.ok
        { semaphores := [RHI_Sync_State.Idle, RHI_Sync_State.Submitted, RHI_Sync_State.Idle, RHI_Sync_State.Idle, RHI_Sync_State.Idle]
          fences := [RHI_Sync_State.Idle, RHI_Sync_State.Submitted] }) ∧
    (∃ sync1, RHI_Device.QueuePresent sync_five [0, 2, 3] true = some (Except.ok sync1) ∧
        (∀ p ∈ [0, 2, 3], GetCpuState sync1.semaphores p = some RHI_Sync_State.Idle) ∧
        (∀ q, q ∉ [0, 2, 3] →
          GetCpuState sync1.semaphores q = GetCpuState sync_five.semaphores q) ∧
        sync1.fences = sync_five.fences) :=
  ⟨by decide, by decide,
    (QueuePresent_at_most_three sync_five [0, 2, 3] (by decide) (by decide)).2 (by decide)⟩

/-! ## Cache size and pool capacity -/

/-- `GetDescriptorSet` keeps the number of cached sets within the capacity. -/
theorem GetDescriptorSet_keeps_bound (hasher : Nat → Nat) (l l1 : RHI_DescriptorSetLayout)
    (dev dev1 : RHI_Device) (p : Option Nat)
    (hbound : dev.m_descriptor_sets.length ≤ dev.m_descriptor_set_capacity)
    (h : l.GetDescriptorSet hasher dev = Except.ok (p, l1, dev1)) :
    dev1.m_descriptor_sets.length ≤ dev1.m_descriptor_set_capacity := by
  cases hfind : map_find dev.m_descriptor_sets (l.descriptor_set_hash hasher) with
  | none =>
    cases hcap : dev.HasDescriptorSetCapacity with
    | false =>
      rw [GetDescriptorSet_of_no_capacity hasher l dev hfind hcap] at h
      cases h
    | true =>
      rw [GetDescriptorSet_of_miss hasher l dev hfind hcap] at h
      simp only [Except.ok.injEq, Prod.mk.injEq] at h
      obtain ⟨_, _, rfl⟩ := h
      simp only [RHI_Device.HasDescriptorSetCapacity, decide_eq_true_eq] at hcap
      simp only [List.length_append, List.length_singleton]
      omega
  | some ds =>
    rw [GetDescriptorSet_of_hit hasher l dev ds hfind] at h
    simp only [Except.ok.injEq, Prod.mk.injEq] at h
    obtain ⟨_, _, rfl⟩ := h
    exact hbound

/-- `SetDescriptorSetCapacity(n)` keeps the number of cached sets within the
capacity when `n` is 0 or at least the number of cached sets. -/
theorem SetDescriptorSetCapacity_keeps_bound (dev dev1 : RHI_Device) (n : Nat)
    (vk_success : Bool)
    (hbound : dev.m_descriptor_sets.length ≤ dev.m_descriptor_set_capacity)
    (hn : n = 0 ∨ dev.m_descriptor_sets.length ≤ n)
    (h : dev.SetDescriptorSetCapacity n vk_success = Except.ok dev1) :
    dev1.m_descriptor_sets.length ≤ dev1.m_descriptor_set_capacity := by
  cases vk_success with
  | false => simp [RHI_Device.SetDescriptorSetCapacity] at h
  | true =>
    rw [SetDescriptorSetCapacity_ok] at h
    simp only [Except.ok.injEq] at h
    subst h
    by_cases h0 : n = 0
    · simpa [h0] using hbound
    · rcases hn with hn | hn
      · exact absurd hn h0
      · simpa [h0] using hn

/-- C11, evaluated on the code: a device is constructed (capacity 2048),
`GetDescriptorSet` creates two sets, then `SetDescriptorSetCapacity(1)` is
called. The cache still holds the two sets while the capacity is 1 and the
profiler counts 0 sets. -/
theorem capacity_below_cache_after_shrink :
    RHI_Device.construct (some { m_descriptor_set_count := 0, m_descriptor_set_capacity := 0 })
        true = Except.ok (device_empty 2048) ∧
    (device_empty 2048).calls std_hash_identity
        [RHI_Device_call.GetDescriptorSet (layout_bound descriptor_a true),
         RHI_Device_call.GetDescriptorSet (layout_bound descriptor_c true),
         RHI_Device_call.SetDescriptorSetCapacity 1] =
      Except.ok
        { m_descriptor_sets := (device_two 2048).m_descriptor_sets
          m_descriptor_set_capacity := 1
          profiler := some { m_descriptor_set_count := 0, m_descriptor_set_capacity := 1 } } ∧
    (device_two 2048).m_descriptor_sets.length = 2 ∧
    ¬ (device_two 2048).m_descriptor_sets.length ≤ 1 := by
  decide

/-! ## Queue families and device selection -/

theorem first_queue_family_some (test : Nat → Bool) (p : Nat → Prop)
    (hp : ∀ f, test f = true ↔ p f) :
    ∀ (l : List Nat) (start i : Nat), first_queue_family test l start = some i →
      start ≤ i ∧ LowestFamily p l (i - start) := by
  intro l
  induction l with
  | nil => intro start i h; simp [first_queue_family] at h
  | cons f rest ih =>
    intro start i h
    unfold first_queue_family at h
    by_cases hf : test f = true
    · rw [if_pos hf] at h
      have hi : start = i := by simpa using h
      subst hi
      refine ⟨le_refl _, ⟨f, by simp, (hp f).1 hf⟩, ?_⟩
      intro j g hj
      omega
    · rw [if_neg hf] at h
      obtain ⟨hle, ⟨g, hg, hpg⟩, hlow⟩ := ih (start + 1) i h
      have hidx : i - start = (i - (start + 1)) + 1 := by omega
      refine ⟨by omega, ⟨g, ?_, hpg⟩, ?_⟩
      · rw [hidx]; simpa using hg
      · intro j g1 hj hg1
        rw [hidx] at hj
        cases j with
        | zero =>
          have : g1 = f := by simpa using hg1.symm
          subst this
          exact fun h1 => hf ((hp _).2 h1)
        | succ j =>
          exact hlow j g1 (by omega) (by simpa using hg1)

theorem first_queue_family_none (test : Nat → Bool) (p : Nat → Prop)
    (hp : ∀ f, test f = true ↔ p f) :
    ∀ (l : List Nat) (start : Nat), first_queue_family test l start = none →
      ∀ f ∈ l, ¬ p f := by
  intro l
  induction l with
  | nil => intro start _ f hf; simp at hf
  | cons g rest ih =>
    intro start h f hf
    unfold first_queue_family at h
    by_cases hg : test g = true
    · rw [if_pos hg] at h; simp at h
    · rw [if_neg hg] at h
      rcases List.mem_cons.1 hf with rfl | hmem
      · exact fun h1 => hg ((hp _).2 h1)
      · exact ih (start + 1) h f hmem

/-- The outcome of one loop of `get_queue_family_index`, in terms of the
property it tests. -/
theorem first_queue_family_cases (test : Nat → Bool) (p : Nat → Prop)
    (hp : ∀ f, test f = true ↔ p f) (l : List Nat) :
    (∃ i, first_queue_family test l 0 = some i ∧ LowestFamily p l i ∧ ∃ f ∈ l, p f) ∨
      (first_queue_family test l 0 = none ∧ ∀ f ∈ l, ¬ p f) := by
  cases h : first_queue_family test l 0 with
  | none => exact Or.inr ⟨rfl, first_queue_family_none test p hp l 0 h⟩
  | some i =>
    have hs := (first_queue_family_some test p hp l 0 i h).2
    refine Or.inl ⟨i, rfl, by simpa using hs, ?_⟩
    obtain ⟨⟨f, hf, hpf⟩, _⟩ := hs
    exact ⟨f, List.getElem?_mem hf, hpf⟩

/-- C24: for every list of queue families `get_queue_family_index` returns, for
the compute bit, the lowest-index family with compute and without graphics if
there is one and else the lowest-index family with compute; for the transfer
bit, the lowest-index family with transfer and with neither graphics nor
compute if there is one and else the lowest-index family with transfer; for the
graphics bit, the lowest-index family with graphics; and it returns false
(leaving the index alone) exactly when no family has the requested bit. -/
theorem get_queue_family_index_lowest (queue_family_properties : List Nat) (index : Nat) :
    (((∃ f ∈ queue_family_properties,
          HasQueueBit VK_QUEUE_COMPUTE_BIT f ∧ ¬ HasQueueBit VK_QUEUE_GRAPHICS_BIT f) →
        ∃ i, get_queue_family_index VK_QUEUE_COMPUTE_BIT queue_family_properties index
              = (true, i) ∧
          LowestFamily
            (fun f => HasQueueBit VK_QUEUE_COMPUTE_BIT f ∧ ¬ HasQueueBit VK_QUEUE_GRAPHICS_BIT f)
            queue_family_properties i) ∧
      ((¬ ∃ f ∈ queue_family_properties,
          HasQueueBit VK_QUEUE_COMPUTE_BIT f ∧ ¬ HasQueueBit VK_QUEUE_GRAPHICS_BIT f) →
        (∃ f ∈ queue_family_properties, HasQueueBit VK_QUEUE_COMPUTE_BIT f) →
        ∃ i, get_queue_family_index VK_QUEUE_COMPUTE_BIT queue_family_properties index
              = (true, i) ∧
          LowestFamily (HasQueueBit VK_QUEUE_COMPUTE_BIT) queue_family_properties i) ∧
      ((∀ f ∈ queue_family_properties, ¬ HasQueueBit VK_QUEUE_COMPUTE_BIT f) ↔
        get_queue_family_index VK_QUEUE_COMPUTE_BIT queue_family_properties index
          = (false, index))) ∧
    (((∃ f ∈ queue_family_properties,
          HasQueueBit VK_QUEUE_TRANSFER_BIT f ∧ ¬ HasQueueBit VK_QUEUE_GRAPHICS_BIT f ∧
            ¬ HasQueueBit VK_QUEUE_COMPUTE_BIT f) →
        ∃ i, get_queue_family_index VK_QUEUE_TRANSFER_BIT queue_family_properties index
              = (true, i) ∧
          LowestFamily
            (fun f => HasQueueBit VK_QUEUE_TRANSFER_BIT f ∧
              ¬ HasQueueBit VK_QUEUE_GRAPHICS_BIT f ∧ ¬ HasQueueBit VK_QUEUE_COMPUTE_BIT f)
            queue_family_properties i) ∧
      ((¬ ∃ f ∈ queue_family_properties,
          HasQueueBit VK_QUEUE_TRANSFER_BIT f ∧ ¬ HasQueueBit VK_QUEUE_GRAPHICS_BIT f ∧
            ¬ HasQueueBit VK_QUEUE_COMPUTE_BIT f) →
        (∃ f ∈ queue_family_properties, HasQueueBit VK_QUEUE_TRANSFER_BIT f) →
        ∃ i, get_queue_family_index VK_QUEUE_TRANSFER_BIT queue_family_properties index
              = (true, i) ∧
          LowestFamily (HasQueueBit VK_QUEUE_TRANSFER_BIT) queue_family_properties i) ∧
      ((∀ f ∈ queue_family_properties, ¬ HasQueueBit VK_QUEUE_TRANSFER_BIT f) ↔
        get_queue_family_index VK_QUEUE_TRANSFER_BIT queue_family_properties index
          = (false, index))) ∧
    (((∃ f ∈ queue_family_properties, HasQueueBit VK_QUEUE_GRAPHICS_BIT f) →
        ∃ i, get_queue_family_index VK_QUEUE_GRAPHICS_BIT queue_family_properties index
              = (true, i) ∧
          LowestFamily (HasQueueBit VK_QUEUE_GRAPHICS_BIT) queue_family_properties i) ∧
      ((∀ f ∈ queue_family_properties, ¬ HasQueueBit VK_QUEUE_GRAPHICS_BIT f) ↔
        get_queue_family_index VK_QUEUE_GRAPHICS_BIT queue_family_properties index
          = (false, index))) := by
  -- the three loops, in terms of what they test
  have hdc := first_queue_family_cases
    (fun queueFlags => decide (queueFlags &&& VK_QUEUE_COMPUTE_BIT ≠ 0) &&
      decide (queueFlags &&& VK_QUEUE_GRAPHICS_BIT = 0))
    (fun f => HasQueueBit VK_QUEUE_COMPUTE_BIT f ∧ ¬ HasQueueBit VK_QUEUE_GRAPHICS_BIT f)
    (by intro f; simp [HasQueueBit]) queue_family_properties
  have hdt := first_queue_family_cases
    (fun queueFlags => decide (queueFlags &&& VK_QUEUE_TRANSFER_BIT ≠ 0) &&
      decide (queueFlags &&& VK_QUEUE_GRAPHICS_BIT = 0) &&
      decide (queueFlags &&& VK_QUEUE_COMPUTE_BIT = 0))
    (fun f => HasQueueBit VK_QUEUE_TRANSFER_BIT f ∧ ¬ HasQueueBit VK_QUEUE_GRAPHICS_BIT f ∧
      ¬ HasQueueBit VK_QUEUE_COMPUTE_BIT f)
    (by intro f; simp [HasQueueBit, and_assoc]) queue_family_properties
  have hany : ∀ bit, _ := fun bit => first_queue_family_cases
    (fun queueFlags => decide (queueFlags &&& bit ≠ 0)) (HasQueueBit bit)
    (by intro f; simp [HasQueueBit]) queue_family_properties
  have hC : (VK_QUEUE_COMPUTE_BIT &&& VK_QUEUE_COMPUTE_BIT ≠ 0) = True := by decide
  have hCT : (VK_QUEUE_COMPUTE_BIT &&& VK_QUEUE_TRANSFER_BIT ≠ 0) = False := by decide
  have hTC : (VK_QUEUE_TRANSFER_BIT &&& VK_QUEUE_COMPUTE_BIT ≠ 0) = False := by decide
  have hT : (VK_QUEUE_TRANSFER_BIT &&& VK_QUEUE_TRANSFER_BIT ≠ 0) = True := by decide
  have hGC : (VK_QUEUE_GRAPHICS_BIT &&& VK_QUEUE_COMPUTE_BIT ≠ 0) = False := by decide
  have hGT : (VK_QUEUE_GRAPHICS_BIT &&& VK_QUEUE_TRANSFER_BIT ≠ 0) = False := by decide
  refine ⟨?_, ?_, ?_⟩
  · -- compute
    have hc := hany VK_QUEUE_COMPUTE_BIT
    unfold get_queue_family_index
    simp only [hC, hCT, if_true, if_false]
    rcases hdc with ⟨i, hi, hlow, hex⟩ | ⟨hnone, hno⟩
    · simp only [hi]
      refine ⟨fun _ => ⟨i, rfl, hlow⟩, fun h => absurd hex h, ?_⟩
      constructor
      · intro h
        obtain ⟨f, hf, hpf⟩ := hex
        exact absurd hpf.1 (h f hf)
      · intro h; simp at h
    · simp only [hnone]
      rcases hc with ⟨i, hi, hlow, hex⟩ | ⟨hnone2, hno2⟩
      · simp only [hi]
        refine ⟨fun h => ?_, fun _ _ => ⟨i, rfl, hlow⟩, ?_⟩
        · obtain ⟨f, hf, hpf⟩ := h
          exact absurd hpf (hno f hf)
        · constructor
          · intro h
            obtain ⟨f, hf, hpf⟩ := hex
            exact absurd hpf (h f hf)
          · intro h; simp at h
      · simp only [hnone2]
        refine ⟨fun h => ?_, fun _ h => ?_, ⟨fun _ => trivial, fun _ => hno2⟩⟩
        · obtain ⟨f, hf, hpf⟩ := h
          exact absurd hpf (hno f hf)
        · obtain ⟨f, hf, hpf⟩ := h
          exact absurd hpf (hno2 f hf)
  · -- transfer
    have hc := hany VK_QUEUE_TRANSFER_BIT
    unfold get_queue_family_index
    simp only [hT, hTC, if_true, if_false]
    rcases hdt with ⟨i, hi, hlow, hex⟩ | ⟨hnone, hno⟩
    · simp only [hi]
      refine ⟨fun _ => ⟨i, rfl, hlow⟩, fun h => absurd hex h, ?_⟩
      constructor
      · intro h
        obtain ⟨f, hf, hpf⟩ := hex
        exact absurd hpf.1 (h f hf)
      · intro h; simp at h
    · simp only [hnone]
      rcases hc with ⟨i, hi, hlow, hex⟩ | ⟨hnone2, hno2⟩
      · simp only [hi]
        refine ⟨fun h => ?_, fun _ _ => ⟨i, rfl, hlow⟩, ?_⟩
        · obtain ⟨f, hf, hpf⟩ := h
          exact absurd hpf (hno f hf)
        · constructor
          · intro h
            obtain ⟨f, hf, hpf⟩ := hex
            exact absurd hpf (h f hf)
          · intro h; simp at h
      · simp only [hnone2]
        refine ⟨fun h => ?_, fun _ h => ?_, ⟨fun _ => trivial, fun _ => hno2⟩⟩
        · obtain ⟨f, hf, hpf⟩ := h
          exact absurd hpf (hno f hf)
        · obtain ⟨f, hf, hpf⟩ := h
          exact absurd hpf (hno2 f hf)
  · -- graphics
    have hc := hany VK_QUEUE_GRAPHICS_BIT
    unfold get_queue_family_index
    simp only [hGC, hGT, if_false]
    rcases hc with ⟨i, hi, hlow, hex⟩ | ⟨hnone2, hno2⟩
    · simp only [hi]
      refine ⟨fun _ => ⟨i, rfl, hlow⟩, ?_⟩
      constructor
      · intro h
        obtain ⟨f, hf, hpf⟩ := hex
        exact absurd hpf (h f hf)
      · intro h; simp at h
    · simp only [hnone2]
      refine ⟨fun h => ?_, ⟨fun _ => trivial, fun _ => hno2⟩⟩
      obtain ⟨f, hf, hpf⟩ := h
      exact absurd hpf (hno2 f hf)

/-- Whether `get_queue_family_indices` succeeds depends on the queue families
alone. -/
theorem get_queue_family_indices_fst (s s1 : RHI_Device_selection) (families : List Nat) :
    (get_queue_family_indices s families).1 = (get_queue_family_indices s1 families).1 := by
  unfold get_queue_family_indices
  dsimp only
  generalize get_queue_family_index VK_QUEUE_GRAPHICS_BIT families 0 = r
  obtain ⟨b, i⟩ := r
  cases b
  · rfl
  · dsimp only
    generalize get_queue_family_index VK_QUEUE_COMPUTE_BIT families i = r
    obtain ⟨b, j⟩ := r
    cases b
    · rfl
    · dsimp only
      generalize get_queue_family_index VK_QUEUE_TRANSFER_BIT families j = r
      obtain ⟨b, k⟩ := r
      cases b
      · rfl
      · rfl

/-- The device loop selects the first suitable device of the list. -/
theorem SelectPrimaryPhysicalDevice_loop_first :
    ∀ (before : List PhysicalDevice) (device : PhysicalDevice) (after : List PhysicalDevice)
      (device_index : Nat) (s : RHI_Device_selection),
      (∀ d ∈ before, d.suitable = false) → device.suitable = true →
      (SelectPrimaryPhysicalDevice_loop (before ++ device :: after) device_index s
          ).m_physical_device_index = device_index + before.length ∧
        (SelectPrimaryPhysicalDevice_loop (before ++ device :: after) device_index s
          ).device_physical = some device.data := by
  intro before
  induction before with
  | nil =>
    intro device after device_index s _ hs
    have h1 : (get_queue_family_indices s device.queue_family_properties).1 = true := by
      rw [get_queue_family_indices_fst s RHI_Device_selection.initial]; exact hs
    cases hres : get_queue_family_indices s device.queue_family_properties with
    | mk ok s1 =>
      rw [hres] at h1
      simp only at h1
      subst h1
      simp [SelectPrimaryPhysicalDevice_loop, hres,
        RHI_Device_selection.SetPrimaryPhysicalDevice]
  | cons d rest ih =>
    intro device after device_index s hbefore hs
    have h1 : (get_queue_family_indices s d.queue_family_properties).1 = false := by
      rw [get_queue_family_indices_fst s RHI_Device_selection.initial]
      exact hbefore d (List.mem_cons_self _ _)
    cases hres : get_queue_family_indices s d.queue_family_properties with
    | mk ok s1 =>
      rw [hres] at h1
      simp only at h1
      subst h1
      have hrec := ih device after (device_index + 1) s1
        (fun x hx => hbefore x (List.mem_cons_of_mem _ hx)) hs
      simp only [List.cons_append, SelectPrimaryPhysicalDevice_loop, hres, List.length_cons]
      exact ⟨hrec.1.trans (by omega), hrec.2⟩

/-- C23: `SelectPrimaryPhysicalDevice` returns true for every list of physical
devices, because it returns what `DetectDisplayModes` returns. On the list that
holds only `device_without_transfer` no device has a graphics, a compute and a
transfer family (`get_queue_family_indices` returns false), yet
`SelectPrimaryPhysicalDevice` returns true, selects no device, and the
constructor passes the "Failed to find a suitable device" assertion. -/
theorem SelectPrimaryPhysicalDevice_never_false :
    (∀ (m_physical_devices : List PhysicalDevice) (s : RHI_Device_selection),
        (RHI_Device.SelectPrimaryPhysicalDevice m_physical_devices s).1 = true) ∧
      (get_queue_family_indices RHI_Device_selection.initial
          device_without_transfer.queue_family_properties).1 = false ∧
      RHI_Device.SelectPrimaryPhysicalDevice [device_without_transfer]
          RHI_Device_selection.initial
        = (true, RHI_Device_selection.initial) ∧
      RHI_Device.construct_physical_devices true [device_without_transfer]
          RHI_Device_selection.initial
        = Except.ok RHI_Device_selection.initial := by
  refine ⟨fun _ _ => rfl, by decide, by decide, by decide⟩

/-! ## Formats -/

/-- C25: `rhi_format_to_string` has no case for `RHI_Format_D16_Unorm`,
`RHI_Format_ASTC` and `RHI_Format_B8R8G8A8_Unorm`: on these three enumerators it
reaches the unsupported-format assertion; on each of the other 22 it returns
the enumerator's name. -/
theorem rhi_format_to_string_missing_cases :
    rhi_format_to_string RHI_Format.RHI_Format_D16_Unorm = Except.error "Unsupported format" ∧
      rhi_format_to_string RHI_Format.RHI_Format_ASTC = Except.error "Unsupported format" ∧
      rhi_format_to_string RHI_Format.RHI_Format_B8R8G8A8_Unorm
        = Except.error "Unsupported format" ∧
      ∀ f ∈ RHI_Format.all,
        f = RHI_Format.RHI_Format_D16_Unorm ∨ f = RHI_Format.RHI_Format_ASTC ∨
          f = RHI_Format.RHI_Format_B8R8G8A8_Unorm ∨
          rhi_format_to_string f = Except.ok f.enumerator_name := by
  refine ⟨rfl, rfl, rfl, ?_⟩
  decide

/-! ## Pipeline state -/

/-- C26: `IsValid` returns true for the graphics pipeline state
`pipeline_both_targets`, in which the swapchain back buffer and color target 0
are both set; more generally it returns true for every graphics pipeline state
with all graphics states and the back buffer set, whatever its render
targets. -/
theorem IsValid_both_targets :
    pipeline_both_targets.IsValid = true ∧
      pipeline_both_targets.render_target_swapchain ≠ 0 ∧
      pipeline_both_targets.render_target_color_textures ⟨0, by decide⟩ ≠ 0 ∧
      ∀ p : RHI_PipelineState,
        p.shader_vertex = some { IsCompiled := true } → p.shader_compute = none →
        p.rasterizer_state ≠ 0 → p.blend_state ≠ 0 → p.depth_stencil_state ≠ 0 →
        p.primitive_topology ≠ RHI_PrimitiveTopology_Mode.Undefined →
        p.render_target_swapchain ≠ 0 → p.IsValid = true := by
  refine ⟨by decide, by decide, by decide, ?_⟩
  intro p hv hc hr hb hd ht hs
  simp [RHI_PipelineState.IsValid, hv, hc, hr, hb, hd, ht, hs]

/-! ## Structured buffers -/

/-- Masking a 64-bit value with the complement of `2^k - 1` clears its `k` low
bits. -/
theorem and_not_low_mask (x k : Nat) (hx : x < 2 ^ 64) (hk : k ≤ 64) :
    x &&& (2 ^ 64 - 1 - (2 ^ k - 1)) = x / 2 ^ k * 2 ^ k := by
  have hpow : 2 ^ k - 1 < 2 ^ 64 := by
    have h1 : 2 ^ k ≤ 2 ^ 64 := Nat.pow_le_pow_right (by norm_num) hk
    have h2 : 0 < 2 ^ k := Nat.two_pow_pos k
    omega
  have hmask : 2 ^ 64 - 1 - (2 ^ k - 1) = 2 ^ 64 - ((2 ^ k - 1) + 1) := by omega
  rw [hmask, ← Nat.shiftRight_eq_div_pow, ← Nat.shiftLeft_eq]
  apply Nat.eq_of_testBit_eq
  intro i
  rw [Nat.testBit_and, Nat.testBit_two_pow_sub_succ hpow, Nat.testBit_two_pow_sub_one,
    Nat.testBit_shiftLeft, Nat.testBit_shiftRight]
  by_cases hik : i < k
  · simp [hik, Nat.not_le.2 hik]
  · have hki : k ≤ i := Nat.le_of_not_lt hik
    have heq : k + (i - k) = i := by omega
    simp only [hik, heq, hki, decide_True, decide_False, Bool.not_false, Bool.and_true,
      Bool.true_and, ge_iff_le]
    by_cases hi : i < 64
    · simp [hi]
    · have hlt : x < 2 ^ i :=
        lt_of_lt_of_le hx (Nat.pow_le_pow_right (by norm_num) (Nat.le_of_not_lt hi))
      simp [hi, Nat.testBit_lt_two_pow hlt]

/-- The stride the constructor stores for a power-of-two alignment, when the
aligned stride fits 32 bits. -/
theorem construct_stride_pow (address stride element_count k m_mapped_data : Nat)
    (hstride : stride + 2 ^ k ≤ UINT32_SIZE) :
    (RHI_StructuredBuffer.construct address stride element_count (2 ^ k) m_mapped_data).m_stride
      = (stride + 2 ^ k - 1) / 2 ^ k * 2 ^ k := by
  have hpos : 0 < 2 ^ k := Nat.two_pow_pos k
  have h32 : UINT32_SIZE = 2 ^ 32 := rfl
  have h64 : UINT64_SIZE = 2 ^ 64 := rfl
  have hk : k ≤ 64 := by
    by_contra hcon
    have h1 : 2 ^ 65 ≤ 2 ^ k := Nat.pow_le_pow_right (by norm_num) (by omega)
    have h2 : (2 : Nat) ^ 32 < 2 ^ 65 := by norm_num
    omega
  have hx : stride + 2 ^ k - 1 < 2 ^ 64 := by
    have h2 : (2 : Nat) ^ 32 < 2 ^ 64 := by norm_num
    omega
  have hle : (stride + 2 ^ k - 1) / 2 ^ k * 2 ^ k ≤ stride + 2 ^ k - 1 :=
    Nat.div_mul_le_self _ _
  show (if 2 ^ k > 0 then
      ((stride + 2 ^ k - 1) % UINT64_SIZE &&& (UINT64_SIZE - 1 - (2 ^ k - 1))) % UINT32_SIZE
    else stride) = _
  rw [if_pos hpos, h64, Nat.mod_eq_of_lt hx, and_not_low_mask _ k hx hk, h32]
  apply Nat.mod_eq_of_lt
  omega

/-- C28: for a minimum storage-buffer offset alignment `a` that is 0 or a
power of two, and when neither the aligned stride nor the object size
overflows 32 bits, the constructor of `RHI_StructuredBuffer` leaves the
requested stride unchanged for `a = 0`, sets the stride to the smallest multiple
of `a` that is at least the requested stride for `a > 0`, and sets the GPU
object size to the stored stride times the element count. -/
theorem construct_aligns_stride (address stride element_count min_alignment m_mapped_data : Nat)
    (ha : min_alignment = 0 ∨ ∃ k, min_alignment = 2 ^ k)
    (hstride : stride + min_alignment ≤ UINT32_SIZE)
    (hsize :
      (RHI_StructuredBuffer.construct address stride element_count min_alignment
        m_mapped_data).m_stride * element_count < UINT32_SIZE) :
    (min_alignment = 0 →
        (RHI_StructuredBuffer.construct address stride element_count min_alignment
          m_mapped_data).m_stride = stride) ∧
      (0 < min_alignment →
        min_alignment ∣
            (RHI_StructuredBuffer.construct address stride element_count min_alignment
              m_mapped_data).m_stride ∧
          stride ≤
            (RHI_StructuredBuffer.construct address stride element_count min_alignment
              m_mapped_data).m_stride ∧
          ∀ m, min_alignment ∣ m → stride ≤ m →
            (RHI_StructuredBuffer.construct address stride element_count min_alignment
              m_mapped_data).m_stride ≤ m) ∧
      (RHI_StructuredBuffer.construct address stride element_count min_alignment
          m_mapped_data).m_element_count = element_count ∧
      (RHI_StructuredBuffer.construct address stride element_count min_alignment
          m_mapped_data).m_object_size_gpu
        = (RHI_StructuredBuffer.construct address stride element_count min_alignment
            m_mapped_data).m_stride * element_count := by
  refine ⟨?_, ?_, rfl, ?_⟩
  · intro h0
    subst h0
    rfl
  · intro hpos
    rcases ha with h0 | ⟨k, hk⟩
    · omega
    · subst hk
      rw [construct_stride_pow address stride element_count k m_mapped_data hstride]
      clear hsize hstride
      generalize 2 ^ k = a at hpos ⊢
      have hmod := Nat.div_add_mod (stride + a - 1) a
      have hlt := Nat.mod_lt (stride + a - 1) hpos
      have hcomm : a * ((stride + a - 1) / a) = (stride + a - 1) / a * a := Nat.mul_comm _ _
      refine ⟨Dvd.intro_left _ rfl, by omega, ?_⟩
      intro m hdvd hle
      obtain ⟨q, rfl⟩ := hdvd
      rw [Nat.mul_comm a q]
      apply Nat.mul_le_mul_right
      apply Nat.le_of_lt_succ
      rw [Nat.div_lt_iff_lt_mul hpos]
      have hq : Nat.succ q * a = a * q + a := by
        rw [Nat.succ_mul, Nat.mul_comm]
      omega
  · exact Nat.mod_eq_of_lt hsize

theorem construct_aligns_stride_witness :
    (RHI_StructuredBuffer.construct 1000 20 3 16 5000).m_stride = 32 ∧
      (RHI_StructuredBuffer.construct 1000 20 3 16 5000).m_object_size_gpu = 96 ∧
      16 ∣ (RHI_StructuredBuffer.construct 1000 20 3 16 5000).m_stride ∧
      20 ≤ (RHI_StructuredBuffer.construct 1000 20 3 16 5000).m_stride ∧
      ∀ m, 16 ∣ m → 20 ≤ m → (RHI_StructuredBuffer.construct 1000 20 3 16 5000).m_stride ≤ m :=
  ⟨by decide, by decide,
    (construct_aligns_stride 1000 20 3 16 5000 (Or.inr ⟨4, by norm_num⟩) (by decide)
      (by decide)).2.1 (by decide)⟩

/-- C27: on a structured buffer of two elements of 16 bytes (size 32) the first
three `Update` calls pass their assertions, and the third copies and flushes
the 16 bytes that start at offset 32, which lie past the end of the buffer. -/
theorem Update_copies_past_end :
    structured_buffer_2x16.m_stride = 16 ∧
      structured_buffer_2x16.m_element_count = 2 ∧
      structured_buffer_2x16.m_object_size_gpu = 32 ∧
      ∃ b, RHI_StructuredBuffer.Updates [7000, 7000, 7000] structured_buffer_2x16 = Except.ok b ∧
        b.copied_range = (32, 48) ∧ b.m_object_size_gpu = 32 ∧
        ¬ (b.m_offset + b.m_stride ≤ b.m_object_size_gpu) := by
  refine ⟨by decide, by decide, by decide,
    { address := 1000, m_stride := 16, m_offset := 32, m_element_count := 2,
      m_object_size_gpu := 32, m_reset_offset := false, m_mapped_data := 5000 },
    by decide, by decide, by decide, by decide⟩

/-! ## The allocation table -/

theorem map_find_none_iff {α : Type} : ∀ (m : List (Nat × α)) (key : Nat),
    map_find m key = none ↔ key ∉ m.map Prod.fst := by
  intro m
  induction m with
  | nil => intro key; simp [map_find]
  | cons e rest ih =>
    intro key
    obtain ⟨k, v⟩ := e
    by_cases hk : k = key
    · simp [map_find, hk]
    · have hk2 : ¬ key = k := fun h => hk h.symm
      simp [map_find, hk, hk2, ih key]

theorem map_find_some_mem {α : Type} : ∀ (m : List (Nat × α)) (key : Nat) (value : α),
    map_find m key = some value → (key, value) ∈ m := by
  intro m
  induction m with
  | nil => intro key value h; simp [map_find] at h
  | cons e rest ih =>
    intro key value h
    obtain ⟨k, v⟩ := e
    by_cases hk : k = key
    · simp only [map_find, hk, if_true, Option.some.injEq] at h
      simp [hk, h]
    · simp only [map_find, hk, if_false] at h
      exact List.mem_cons_of_mem _ (ih key value h)

theorem map_erase_eq_filter {α : Type} : ∀ (m : List (Nat × α)) (key : Nat),
    map_erase m key = m.filter (fun e => decide (e.1 ≠ key)) := by
  intro m
  induction m with
  | nil => intro key; rfl
  | cons e rest ih =>
    intro key
    obtain ⟨k, v⟩ := e
    by_cases hk : k = key
    · simp [map_erase, hk, ih key]
    · simp [map_erase, hk, ih key]

theorem map_erase_keys {α : Type} (m : List (Nat × α)) (key : Nat) :
    (map_erase m key).map Prod.fst = (m.map Prod.fst).filter (fun h => decide (h ≠ key)) := by
  rw [map_erase_eq_filter, List.filter_map]
  rfl

theorem map_erase_of_find_none {α : Type} (m : List (Nat × α)) (key : Nat)
    (h : map_find m key = none) : map_erase m key = m := by
  rw [map_erase_eq_filter, List.filter_eq_self]
  intro e he
  have hkey := (map_find_none_iff m key).1 h
  have hne : e.1 ≠ key := by
    intro heq
    exact hkey (heq ▸ List.mem_map_of_mem Prod.fst he)
  simpa using hne

/-- Erasing the key that was just assigned to a table without it gives the
table back. -/
theorem map_erase_assign {α : Type} (m : List (Nat × α)) (key : Nat) (value : α)
    (h : map_find m key = none) : map_erase (map_assign m key value) key = m := by
  rw [map_assign_of_find_none m key value h, map_erase_eq_filter, List.filter_append,
    ← map_erase_eq_filter, map_erase_of_find_none m key h]
  simp

theorem map_find_assign_self {α : Type} (m : List (Nat × α)) (key : Nat) (value : α)
    (h : map_find m key = none) : map_find (map_assign m key value) key = some value := by
  rw [map_assign_of_find_none m key value h, map_find_append_single, h]
  simp

/-- The outcome of `CreateBuffer` on every path: the first allocator call or
check that fails names the assertion, and only a call that passes them all
records the entry. -/
theorem CreateBuffer_cases (m_allocations : List (Nat × Nat))
    (resource size usage memory_property_flags data_initial : Nat)
    (vmaCreateBuffer : Nat → Nat → Nat → Nat → Option (Nat × Nat))
    (vmaMapMemory vmaFlushAllocation : Bool) :
    RHI_Device.CreateBuffer m_allocations resource size usage memory_property_flags
        data_initial vmaCreateBuffer vmaMapMemory vmaFlushAllocation
      = match vmaCreateBuffer size usage memory_property_flags
            (CreateBuffer_allocation_flags usage memory_property_flags) with
        | none => Except.error ("Failed to created buffer", resource, m_allocations)
        | some (buffer, allocation) =>
          if data_initial = 0 then
            Except.ok (buffer, map_assign m_allocations buffer allocation)
          else if memory_property_flags &&& VK_MEMORY_PROPERTY_HOST_VISIBLE_BIT = 0 then
            Except.error (not_mappable_message, buffer, m_allocations)
          else if vmaMapMemory = false then
            Except.error ("Failed to map allocation", buffer, m_allocations)
          else if vmaFlushAllocation = false then
            Except.error ("Failed to flush allocation", buffer, m_allocations)
          else Except.ok (buffer, map_assign m_allocations buffer allocation) := by
  unfold RHI_Device.CreateBuffer
  cases vmaCreateBuffer size usage memory_property_flags
      (CreateBuffer_allocation_flags usage memory_property_flags) with
  | none => rfl
  | some r =>
    obtain ⟨buffer, allocation⟩ := r
    by_cases hd : data_initial = 0
    · simp [hd]
    · by_cases hf : memory_property_flags &&& VK_MEMORY_PROPERTY_HOST_VISIBLE_BIT = 0
      · simp [hd, hf]
      · cases vmaMapMemory <;> cases vmaFlushAllocation <;> simp [hd, hf]

/-- A create call for which the allocator calls succeed, and whose buffer is
host-visible when initial data is given, adds the entry of the new handle. -/
theorem CreateBuffer_returns (m_allocations : List (Nat × Nat))
    (resource size usage memory_property_flags data_initial buffer allocation : Nat)
    (vmaCreateBuffer : Nat → Nat → Nat → Nat → Option (Nat × Nat))
    (vmaMapMemory vmaFlushAllocation : Bool)
    (hcreate : vmaCreateBuffer size usage memory_property_flags
      (CreateBuffer_allocation_flags usage memory_property_flags) = some (buffer, allocation))
    (hinitial : data_initial ≠ 0 →
      memory_property_flags &&& VK_MEMORY_PROPERTY_HOST_VISIBLE_BIT ≠ 0 ∧
        vmaMapMemory = true ∧ vmaFlushAllocation = true) :
    RHI_Device.CreateBuffer m_allocations resource size usage memory_property_flags
        data_initial vmaCreateBuffer vmaMapMemory vmaFlushAllocation
      = Except.ok (buffer, map_assign m_allocations buffer allocation) := by
  rw [CreateBuffer_cases, hcreate]
  by_cases hd : data_initial = 0
  · simp [hd]
  · obtain ⟨hf, hm, hfl⟩ := hinitial hd
    simp [hd, hf, hm, hfl]

theorem DestroyBuffer_of_entry (m_allocations : List (Nat × Nat)) (resource allocation : Nat)
    (hres : resource ≠ 0) (hfind : map_find m_allocations resource = some allocation)
    (halloc : allocation ≠ 0) :
    RHI_Device.DestroyBuffer m_allocations resource
      = some (0, map_erase m_allocations resource) := by
  simp [RHI_Device.DestroyBuffer, hres, hfind, halloc]

theorem DestroyTexture_of_entry (m_allocations : List (Nat × Nat)) (resource allocation : Nat)
    (hres : resource ≠ 0) (hfind : map_find m_allocations resource = some allocation)
    (halloc : allocation ≠ 0) :
    RHI_Device.DestroyTexture m_allocations resource
      = some (Except.ok (0, map_erase m_allocations resource)) := by
  simp [RHI_Device.DestroyTexture, hres, hfind, halloc]

/-- The outcome of the destroy calls on the paths that erase nothing: a null
handle makes `DestroyBuffer` return at once and `DestroyTexture` fail its
assertion, a handle without an entry is undefined, an entry with a null
allocation is left alone. -/
theorem Destroy_without_erase (m_allocations : List (Nat × Nat)) (resource : Nat) :
    RHI_Device.DestroyBuffer m_allocations 0 = some (0, m_allocations) ∧
      RHI_Device.DestroyTexture m_allocations 0
        = some (Except.error ("Resource is null", 0, m_allocations)) ∧
      (resource ≠ 0 → map_find m_allocations resource = none →
        RHI_Device.DestroyBuffer m_allocations resource = none ∧
          RHI_Device.DestroyTexture m_allocations resource = none) ∧
      (resource ≠ 0 → map_find m_allocations resource = some 0 →
        RHI_Device.DestroyBuffer m_allocations resource = some (resource, m_allocations) ∧
          RHI_Device.DestroyTexture m_allocations resource
            = some (Except.ok (resource, m_allocations))) := by
  refine ⟨by simp [RHI_Device.DestroyBuffer], by simp [RHI_Device.DestroyTexture], ?_, ?_⟩
  · intro hres hfind
    simp [RHI_Device.DestroyBuffer, RHI_Device.DestroyTexture, hres, hfind]
  · intro hres hfind
    simp [RHI_Device.DestroyBuffer, RHI_Device.DestroyTexture, hres, hfind]

/-- `CreateTexture` records the entry exactly when the allocator creates the
image. -/
theorem CreateTexture_cases (m_allocations : List (Nat × Nat)) (resource image allocation : Nat) :
    RHI_Device.CreateTexture m_allocations resource none
        = Except.error ("Failed to allocate texture", resource, m_allocations) ∧
      RHI_Device.CreateTexture m_allocations resource (some (image, allocation))
        = Except.ok (image, map_assign m_allocations image allocation) :=
  ⟨rfl, rfl⟩

/-- The teardown assertion passes exactly when there is no allocator or the
table is empty. -/
theorem destruct_allocator_iff (m_allocator : Nat) (m_allocations : List (Nat × Nat)) :
    RHI_Device.destruct_allocator m_allocator m_allocations = Except.ok () ↔
      (m_allocator = 0 ∨ m_allocations = []) := by
  unfold RHI_Device.destruct_allocator
  by_cases h : m_allocator = 0
  · simp [h]
  · cases m_allocations with
    | nil => simp [h]
    | cons e rest => simp [h]

/-- The entries of a table whose handles and allocations are all non-null. -/
theorem map_find_of_key (m : List (Nat × Nat)) (key : Nat)
    (hkey : key ∈ m.map Prod.fst) (hnz : ∀ e ∈ m, e.1 ≠ 0 ∧ e.2 ≠ 0) :
    key ≠ 0 ∧ ∃ allocation, map_find m key = some allocation ∧ allocation ≠ 0 := by
  cases hfind : map_find m key with
  | none => exact absurd hkey ((map_find_none_iff m key).1 hfind)
  | some allocation =>
    have hmem := map_find_some_mem m key allocation hfind
    exact ⟨(hnz _ hmem).1, allocation, rfl, (hnz _ hmem).2⟩

/-- The handles of the expected table are the live handles. -/
theorem table_after_keys : ∀ (calls : List Allocation_call) (m : List (Nat × Nat)),
    (Allocation_call.table_after calls m).map Prod.fst
      = Allocation_call.live calls (m.map Prod.fst) := by
  intro calls
  induction calls with
  | nil => intro m; rfl
  | cons c rest ih =>
    intro m
    cases c with
    | CreateBuffer size usage memory_property_flags data_initial buffer allocation =>
      simp only [Allocation_call.table_after, Allocation_call.live, ih]
      simp
    | CreateTexture image allocation =>
      simp only [Allocation_call.table_after, Allocation_call.live, ih]
      simp
    | DestroyBuffer resource =>
      simp only [Allocation_call.table_after, Allocation_call.live, ih, List.filter_map]
      rfl
    | DestroyTexture resource =>
      simp only [Allocation_call.table_after, Allocation_call.live, ih, List.filter_map]
      rfl

/-- A paired sequence of calls runs to its end without undefined behaviour or
failed assertion, and leaves the expected table. -/
theorem allocation_calls_paired : ∀ (calls : List Allocation_call) (m : List (Nat × Nat)),
    (∀ e ∈ m, e.1 ≠ 0 ∧ e.2 ≠ 0) →
    Allocation_call.paired calls (m.map Prod.fst) = true →
    RHI_Device.allocation_calls calls m
      = some (Except.ok (Allocation_call.table_after calls m)) := by
  intro calls
  induction calls with
  | nil => intro m _ _; rfl
  | cons c rest ih =>
    intro m hnz hp
    have hcreate : ∀ handle allocation, handle ≠ 0 → allocation ≠ 0 →
        handle ∉ m.map Prod.fst →
        Allocation_call.paired rest (m.map Prod.fst ++ [handle]) = true →
        RHI_Device.allocation_calls rest (map_assign m handle allocation)
          = some (Except.ok (Allocation_call.table_after rest (m ++ [(handle, allocation)]))) := by
      intro handle allocation hh ha hfresh hrest
      have hnone := (map_find_none_iff m handle).2 hfresh
      rw [map_assign_of_find_none m handle allocation hnone]
      apply ih
      · intro e he
        rcases List.mem_append.1 he with h1 | h1
        · exact hnz e h1
        · have : e = (handle, allocation) := by simpa using h1
          subst this
          exact ⟨hh, ha⟩
      · simpa using hrest
    have hdestroy : ∀ resource,
        Allocation_call.paired rest ((m.map Prod.fst).filter (fun h => decide (h ≠ resource)))
          = true →
        RHI_Device.allocation_calls rest (map_erase m resource)
          = some (Except.ok
              (Allocation_call.table_after rest (m.filter (fun e => decide (e.1 ≠ resource))))) := by
      intro resource hrest
      rw [map_erase_eq_filter]
      apply ih
      · intro e he
        exact hnz e (List.mem_filter.1 he).1
      · rw [← map_erase_eq_filter, map_erase_keys]; exact hrest
    cases c with
    | CreateBuffer size usage memory_property_flags data_initial buffer allocation =>
      simp only [Allocation_call.paired, Bool.and_eq_true, decide_eq_true_eq] at hp
      obtain ⟨⟨⟨⟨hh, ha⟩, hfresh⟩, hmappable⟩, hrest⟩ := hp
      have hstep : RHI_Device.allocation_call m
          (Allocation_call.CreateBuffer size usage memory_property_flags data_initial buffer
            allocation)
          = some (Except.ok (map_assign m buffer allocation)) := by
        simp only [RHI_Device.allocation_call]
        rw [CreateBuffer_returns m 0 size usage memory_property_flags data_initial buffer
          allocation (fun _ _ _ _ => some (buffer, allocation)) true true rfl
          (fun hd => ⟨hmappable hd, rfl, rfl⟩)]
      simp only [RHI_Device.allocation_calls, hstep, Allocation_call.table_after]
      exact hcreate buffer allocation hh ha hfresh hrest
    | CreateTexture image allocation =>
      simp only [Allocation_call.paired, Bool.and_eq_true, decide_eq_true_eq] at hp
      obtain ⟨⟨⟨hh, ha⟩, hfresh⟩, hrest⟩ := hp
      have hstep : RHI_Device.allocation_call m (Allocation_call.CreateTexture image allocation)
          = some (Except.ok (map_assign m image allocation)) := rfl
      simp only [RHI_Device.allocation_calls, hstep, Allocation_call.table_after]
      exact hcreate image allocation hh ha hfresh hrest
    | DestroyBuffer resource =>
      simp only [Allocation_call.paired, Bool.and_eq_true, decide_eq_true_eq] at hp
      obtain ⟨hlive, hrest⟩ := hp
      obtain ⟨hres, allocation, hfind, halloc⟩ := map_find_of_key m resource hlive hnz
      have hstep : RHI_Device.allocation_call m (Allocation_call.DestroyBuffer resource)
          = some (Except.ok (map_erase m resource)) := by
        simp only [RHI_Device.allocation_call]
        rw [DestroyBuffer_of_entry m resource allocation hres hfind halloc]
      simp only [RHI_Device.allocation_calls, hstep, Allocation_call.table_after]
      exact hdestroy resource hrest
    | DestroyTexture resource =>
      simp only [Allocation_call.paired, Bool.and_eq_true, decide_eq_true_eq] at hp
      obtain ⟨hlive, hrest⟩ := hp
      obtain ⟨hres, allocation, hfind, halloc⟩ := map_find_of_key m resource hlive hnz
      have hstep : RHI_Device.allocation_call m (Allocation_call.DestroyTexture resource)
          = some (Except.ok (map_erase m resource)) := by
        simp only [RHI_Device.allocation_call]
        rw [DestroyTexture_of_entry m resource allocation hres hfind halloc]
      simp only [RHI_Device.allocation_calls, hstep, Allocation_call.table_after]
      exact hdestroy resource hrest

/-- C21, refuted as stated: when the allocator fails to create the buffer,
`CreateBuffer` called with non-null initial data and memory property flags
without the host-visible bit stops on the "Failed to created buffer"
assertion, which comes before the mappability assertion. -/
theorem CreateBuffer_creation_fails_first :
    (7000 : Nat) ≠ 0 ∧ 1 &&& VK_MEMORY_PROPERTY_HOST_VISIBLE_BIT = 0 ∧
      RHI_Device.CreateBuffer [(5, 50)] 0 64 VK_BUFFER_USAGE_VERTEX_BUFFER_BIT 1 7000
          (fun _ _ _ _ => none) true true
        = Except.error ("Failed to created buffer", 0, [(5, 50)]) ∧
      "Failed to created buffer" ≠ not_mappable_message := by
  decide

/-- C21, amended: for every size and usage, `CreateBuffer` called with non-null
initial data and memory property flags without the host-visible bit fails an
assertion and leaves the allocation table as it was: the mappability assertion
when the allocator has created the buffer, the "Failed to created buffer"
assertion when it has not. With null initial data the mappability check is not
evaluated: whatever the memory property flags, the call returns and records
the entry when the allocator has created the buffer, and fails on "Failed to
created buffer" when it has not. -/
theorem CreateBuffer_not_mappable (m_allocations : List (Nat × Nat))
    (resource size usage memory_property_flags data_initial : Nat)
    (vmaCreateBuffer : Nat → Nat → Nat → Nat → Option (Nat × Nat))
    (vmaMapMemory vmaFlushAllocation : Bool)
    (hdata : data_initial ≠ 0)
    (hflags : memory_property_flags &&& VK_MEMORY_PROPERTY_HOST_VISIBLE_BIT = 0) :
    (∀ buffer allocation,
        vmaCreateBuffer size usage memory_property_flags
            (CreateBuffer_allocation_flags usage memory_property_flags)
          = some (buffer, allocation) →
        RHI_Device.CreateBuffer m_allocations resource size usage memory_property_flags
            data_initial vmaCreateBuffer vmaMapMemory vmaFlushAllocation
          = Except.error (not_mappable_message, buffer, m_allocations)) ∧
      (vmaCreateBuffer size usage memory_property_flags
            (CreateBuffer_allocation_flags usage memory_property_flags) = none →
        RHI_Device.CreateBuffer m_allocations resource size usage memory_property_flags
            data_initial vmaCreateBuffer vmaMapMemory vmaFlushAllocation
          = Except.error ("Failed to created buffer", resource, m_allocations)) ∧
      (∀ flags,
        RHI_Device.CreateBuffer m_allocations resource size usage flags 0 vmaCreateBuffer
            vmaMapMemory vmaFlushAllocation
          = match vmaCreateBuffer size usage flags (CreateBuffer_allocation_flags usage flags) with
            | none => Except.error ("Failed to created buffer", resource, m_allocations)
            | some (buffer, allocation) =>
              Except.ok (buffer, map_assign m_allocations buffer allocation)) := by
  refine ⟨?_, ?_, ?_⟩
  · intro buffer allocation hcreate
    rw [CreateBuffer_cases, hcreate]
    simp [hdata, hflags]
  · intro hcreate
    rw [CreateBuffer_cases, hcreate]
  · intro flags
    rw [CreateBuffer_cases]
    cases vmaCreateBuffer size usage flags (CreateBuffer_allocation_flags usage flags) with
    | none => rfl
    | some r => simp

theorem CreateBuffer_not_mappable_witness :
    (7000 : Nat) ≠ 0 ∧ 1 &&& VK_MEMORY_PROPERTY_HOST_VISIBLE_BIT = 0 ∧
      RHI_Device.CreateBuffer [(5, 50)] 0 64 VK_BUFFER_USAGE_VERTEX_BUFFER_BIT 1 7000
          (fun _ _ _ _ => some (7, 70)) true true
        = Except.error (not_mappable_message, 7, [(5, 50)]) :=
  ⟨by decide, by decide,
    (CreateBuffer_not_mappable [(5, 50)] 0 64 VK_BUFFER_USAGE_VERTEX_BUFFER_BIT 1 7000
      (fun _ _ _ _ => some (7, 70)) true true (by decide) (by decide)).1 7 70 rfl⟩

/-- C22: on the allocation table `DestroyBuffer` undoes `CreateBuffer` and
`DestroyTexture` undoes `CreateTexture`: creating a resource (a buffer with or
without initial data, or a texture) whose non-null handle is not in the table
records the entry of the handle, and destroying it gives back the table as it
was and nulls the handle. A paired sequence of calls leaves, from any table of
non-null entries, the earlier entries and the created ones without the
destroyed ones; so when it leaves no handle live the table is empty, and the
teardown assertion passes exactly on an empty table (or without allocator). -/
theorem Destroy_undoes_Create (m_allocations : List (Nat × Nat))
    (resource size usage memory_property_flags data_initial handle allocation : Nat)
    (vmaCreateBuffer : Nat → Nat → Nat → Nat → Option (Nat × Nat))
    (vmaMapMemory vmaFlushAllocation : Bool)
    (hfresh : map_find m_allocations handle = none)
    (hhandle : handle ≠ 0) (hallocation : allocation ≠ 0)
    (hcreate : vmaCreateBuffer size usage memory_property_flags
      (CreateBuffer_allocation_flags usage memory_property_flags) = some (handle, allocation))
    (hinitial : data_initial ≠ 0 →
      memory_property_flags &&& VK_MEMORY_PROPERTY_HOST_VISIBLE_BIT ≠ 0 ∧
        vmaMapMemory = true ∧ vmaFlushAllocation = true) :
    (RHI_Device.CreateBuffer m_allocations resource size usage memory_property_flags
          data_initial vmaCreateBuffer vmaMapMemory vmaFlushAllocation
        = Except.ok (handle, m_allocations ++ [(handle, allocation)]) ∧
      RHI_Device.DestroyBuffer (m_allocations ++ [(handle, allocation)]) handle
        = some (0, m_allocations)) ∧
      (RHI_Device.CreateTexture m_allocations resource (some (handle, allocation))
          = Except.ok (handle, m_allocations ++ [(handle, allocation)]) ∧
        RHI_Device.DestroyTexture (m_allocations ++ [(handle, allocation)]) handle
          = some (Except.ok (0, m_allocations))) ∧
      (∀ (calls : List Allocation_call) (table : List (Nat × Nat)),
        (∀ e ∈ table, e.1 ≠ 0 ∧ e.2 ≠ 0) →
        Allocation_call.paired calls (table.map Prod.fst) = true →
        RHI_Device.allocation_calls calls table
            = some (Except.ok (Allocation_call.table_after calls table)) ∧
          (Allocation_call.table_after calls table).map Prod.fst
            = Allocation_call.live calls (table.map Prod.fst) ∧
          (Allocation_call.live calls (table.map Prod.fst) = [] →
            RHI_Device.allocation_calls calls table = some (Except.ok []) ∧
              ∀ m_allocator, RHI_Device.destruct_allocator m_allocator
                (Allocation_call.table_after calls table) = Except.ok ())) ∧
      (∀ (m_allocator : Nat) (table : List (Nat × Nat)),
        RHI_Device.destruct_allocator m_allocator table = Except.ok () ↔
          (m_allocator = 0 ∨ table = [])) := by
  have hassign := map_assign_of_find_none m_allocations handle allocation hfresh
  have hfind := map_find_assign_self m_allocations handle allocation hfresh
  have herase := map_erase_assign m_allocations handle allocation hfresh
  rw [hassign] at hfind herase
  refine ⟨⟨?_, ?_⟩, ⟨?_, ?_⟩, ?_, destruct_allocator_iff⟩
  · rw [← hassign]
    exact CreateBuffer_returns m_allocations resource size usage memory_property_flags
      data_initial handle allocation vmaCreateBuffer vmaMapMemory vmaFlushAllocation hcreate
      hinitial
  · rw [DestroyBuffer_of_entry _ handle allocation hhandle hfind hallocation, herase]
  · rw [← hassign]; rfl
  · rw [DestroyTexture_of_entry _ handle allocation hhandle hfind hallocation, herase]
  · intro calls table hnz hpaired
    have hrun := allocation_calls_paired calls table hnz hpaired
    have hkeys := table_after_keys calls table
    refine ⟨hrun, hkeys, ?_⟩
    intro hlive
    have hnil : Allocation_call.table_after calls table = [] := by
      have h1 : (Allocation_call.table_after calls table).map Prod.fst = [] := by
        rw [hkeys]; exact hlive
      simpa using h1
    rw [hrun, hnil]
    exact ⟨rfl, fun m_allocator => (destruct_allocator_iff m_allocator []).2 (Or.inr rfl)⟩

theorem Destroy_undoes_Create_witness :
    (RHI_Device.CreateBuffer [(5, 50)] 0 64 VK_BUFFER_USAGE_VERTEX_BUFFER_BIT
          VK_MEMORY_PROPERTY_HOST_VISIBLE_BIT 7000 (fun _ _ _ _ => some (7, 70)) true true
        = Except.ok (7, [(5, 50), (7, 70)]) ∧
      RHI_Device.DestroyBuffer [(5, 50), (7, 70)] 7 = some (0, [(5, 50)])) ∧
      (RHI_Device.CreateTexture [(5, 50)] 0 (some (7, 70)) = Except.ok (7, [(5, 50), (7, 70)]) ∧
        RHI_Device.DestroyTexture [(5, 50), (7, 70)] 7 = some (Except.ok (0, [(5, 50)]))) ∧
      RHI_Device.allocation_calls calls_three_resources [] = some (Except.ok []) ∧
      RHI_Device.allocation_calls (calls_three_resources.take 3) [(5, 50)]
        = some (Except.ok [(5, 50), (7, 70), (9, 90), (11, 110)]) ∧
      RHI_Device.destruct_allocator 1 [] = Except.ok () ∧
      RHI_Device.destruct_allocator 1 [(5, 50)] ≠ Except.ok () := by
  have h := Destroy_undoes_Create [(5, 50)] 0 64 VK_BUFFER_USAGE_VERTEX_BUFFER_BIT
    VK_MEMORY_PROPERTY_HOST_VISIBLE_BIT 7000 7 70 (fun _ _ _ _ => some (7, 70)) true true
    (by decide) (by decide) (by decide) rfl (fun _ => ⟨by decide, rfl, rfl⟩)
  obtain ⟨hbuffer, htexture, hcalls, hteardown⟩ := h
  refine ⟨hbuffer, htexture, ?_, ?_, ?_, ?_⟩
  · exact ((hcalls calls_three_resources [] (by simp) (by decide)).2.2 (by decide)).1
  · exact (hcalls (calls_three_resources.take 3) [(5, 50)] (by decide) (by decide)).1
  · exact (hteardown 1 []).2 (Or.inr rfl)
  · intro hok
    have := (hteardown 1 [(5, 50)]).1 hok
    simp at this

/-! ## Entities -/

/-- `AddComponent` fails its assertion whenever it is given the type
`Undefined`. -/
theorem AddComponent_Undefined (e : Entity) (id : Nat) :
    e.AddComponent (ComponentType.of_uint32 ComponentType.Undefined.to_uint32) id
      = Except.error ("component != nullptr", e) := rfl

/-- The component loop of `Deserialize` never adds a component: when it runs to
its end the entity is as before. -/
theorem Deserialize_components_loop_keeps : ∀ (n : Nat) (e e1 : Entity) (stream rest : List Nat),
    Deserialize_components_loop n e stream = some (Except.ok (e1, rest)) → e1 = e := by
  intro n
  induction n with
  | zero =>
    intro e e1 stream rest h
    simp only [Deserialize_components_loop, Option.some.injEq, Except.ok.injEq,
      Prod.mk.injEq] at h
    exact h.1.symm
  | succ n ih =>
    intro e e1 stream rest h
    unfold Deserialize_components_loop at h
    cases hread : FileStream.Read_uint32 stream with
    | none => rw [hread] at h; simp at h
    | some r =>
      obtain ⟨component_type, stream1⟩ := r
      rw [hread] at h
      simp only at h
      by_cases ht : component_type = ComponentType.Undefined.to_uint32
      · rw [if_pos ht] at h
        subst ht
        cases hid : FileStream.Read_uint64 stream1 with
        | none => rw [hid] at h; simp at h
        | some r2 =>
          obtain ⟨component_id, stream2⟩ := r2
          rw [hid] at h
          simp only [AddComponent_Undefined] at h
          simp at h
      · rw [if_neg ht] at h
        exact ih e e1 stream1 rest h

/-- C29: deserializing the component section that `Serialize` writes for an
entity whose only component is a transform stops on the assertion of
`AddComponent`: the first slot is empty, `Deserialize` reads an id for the type
`Undefined` and calls `AddComponent` with it. On no stream does the component
loop of `Deserialize` add a component. -/
theorem Deserialize_adds_no_component :
    entity_with_transform.m_components.length = 13 ∧
      entity_with_transform.m_components[10]?
        = some (some { m_type := ComponentType.Transform, m_object_id := 77 }) ∧
      (Entity.construct 1).Deserialize_components
          (entity_with_transform.Serialize_components [])
        = some (Except.error ("component != nullptr", Entity.construct 1)) ∧
      ∀ (e e1 : Entity) (stream rest : List Nat),
        e.Deserialize_components stream = some (Except.ok (e1, rest)) → e1 = e := by
  refine ⟨by decide, by decide, by decide, ?_⟩
  intro e e1 stream rest h
  exact Deserialize_components_loop_keeps _ e e1 stream rest h

/-! ## The resource cache -/

/-- C30: `Remove` of a cached resource empties the cache: with `resource_a` and
`resource_b` cached, removing `resource_a` removes `resource_b` as well, whose
object id is different; and so for every cache and every resource that
`IsCached` reports as cached. -/
theorem Remove_empties_cache :
    ResourceCache.IsCached [resource_a, resource_b] resource_a.m_resource_name
        resource_a.m_resource_type = true ∧
      resource_b.m_object_id ≠ resource_a.m_object_id ∧
      ResourceCache.Remove (ResourceCache.IsCached [resource_a, resource_b])
          [resource_a, resource_b] (some resource_a) = [] ∧
      ∀ (IsCached : String → Nat → Bool) (m_resources : List IResource) (resource : IResource),
        IsCached resource.m_resource_name resource.m_resource_type = true →
        ResourceCache.Remove IsCached m_resources (some resource) = [] := by
  refine ⟨by decide, by decide, by decide, ?_⟩
  intro IsCached m_resources resource h
  simp [ResourceCache.Remove, erase_remove_if, h]

end Spartan
